import Mathlib

/-!
# sdscan: NAPTR / SRV service-discovery probes

A shallow embedding of `cmd/sdscan/naptr-probe.go`, `cmd/sdscan/srv-probe.go`
and `cmd/sdscan/service.go`.

* Go slices are values of `Slice`, which keeps the nil slice apart from a
  non-nil slice (the probes test `infoxs == nil`).
* The DNS client, the address lookup and the DNSSEC check are collaborators
  with a state of their own (`σ`): each call takes the collaborator state and
  returns the next one.  Every call the probes make is appended to a log, so
  that call counts can be stated.
* `uint16` fields are copied, never computed with, and are natural numbers.
* Go strings are modelled by `String`, a sequence of Unicode scalar values; the
  probes compare strings for equality, lower-case them, trim white space and search
  for the substring "s".
-/

set_option linter.dupNamespace false

namespace Sdscan

/-! ## Go values -/

/-- A Go slice: `Slice.nil` is the nil slice, `Slice.of l` a non-nil slice
holding the elements `l`. -/
inductive Slice (α : Type) where
  | nil : Slice α
  | of (elems : List α) : Slice α
  deriving DecidableEq, Repr

namespace Slice

/-- The elements of a slice, as `range` visits them. -/
def elems {α : Type} : Slice α → List α
  | Slice.nil => []
  | Slice.of l => l

/-- Go `len(s)`. -/
def len {α : Type} (s : Slice α) : Nat := s.elems.length

/-- Go `s == nil`. -/
def isNil {α : Type} : Slice α → Bool
  | Slice.nil => true
  | Slice.of _ => false

/-- Go `append(s, x)`: the result is never the nil slice. -/
def append {α : Type} (s : Slice α) (x : α) : Slice α := Slice.of (s.elems ++ [x])

end Slice

/-- A Go `map[string]β`, as an association list with at most one entry per key. -/
abbrev GoMap (β : Type) := List (String × β)

namespace GoMap

/-- Go `m[k] = v`: any earlier entry for `k` is replaced. -/
def set {β : Type} (m : GoMap β) (k : String) (v : β) : GoMap β :=
  (k, v) :: m.filter (fun p => p.1 != k)

/-- Go `v, ok := m[k]`. -/
def get {β : Type} (m : GoMap β) (k : String) : Option β := m.lookup k

/-- The keys of the map. -/
def keys {β : Type} (m : GoMap β) : List String := m.map Prod.fst

end GoMap

/-! ## Go standard library: `unicode`, `strings`, `net/netip` -/

/-- The lower-case ranges of package `unicode` for the runes outside ASCII, from the
simple lower-case mappings of the Unicode Character Database (version 14.0).  An entry
`(lo, hi, stride, target)` maps the runes `lo`, `lo + stride`, ..., `hi` to `target`,
`target + stride`, ...; a rune in no entry is its own lower case. -/
def unicode.lowerRanges : List (Nat × Nat × Nat × Nat) :=
  [(0xC0, 0xD6, 1, 0xE0), (0xD8, 0xDE, 1, 0xF8), (0x100, 0x12E, 2, 0x101),
   (0x130, 0x130, 2, 0x69), (0x132, 0x136, 2, 0x133), (0x139, 0x147, 2, 0x13A),
   (0x14A, 0x176, 2, 0x14B), (0x178, 0x178, 2, 0xFF), (0x179, 0x17D, 2, 0x17A),
   (0x181, 0x181, 2, 0x253), (0x182, 0x184, 2, 0x183), (0x186, 0x186, 2, 0x254),
   (0x187, 0x187, 2, 0x188), (0x189, 0x18A, 1, 0x256), (0x18B, 0x18B, 2, 0x18C),
   (0x18E, 0x18E, 2, 0x1DD), (0x18F, 0x18F, 2, 0x259), (0x190, 0x190, 2, 0x25B),
   (0x191, 0x191, 2, 0x192), (0x193, 0x193, 2, 0x260), (0x194, 0x194, 2, 0x263),
   (0x196, 0x196, 2, 0x269), (0x197, 0x197, 2, 0x268), (0x198, 0x198, 2, 0x199),
   (0x19C, 0x19C, 2, 0x26F), (0x19D, 0x19D, 2, 0x272), (0x19F, 0x19F, 2, 0x275),
   (0x1A0, 0x1A4, 2, 0x1A1), (0x1A6, 0x1A6, 2, 0x280), (0x1A7, 0x1A7, 2, 0x1A8),
   (0x1A9, 0x1A9, 2, 0x283), (0x1AC, 0x1AC, 2, 0x1AD), (0x1AE, 0x1AE, 2, 0x288),
   (0x1AF, 0x1AF, 2, 0x1B0), (0x1B1, 0x1B2, 1, 0x28A), (0x1B3, 0x1B5, 2, 0x1B4),
   (0x1B7, 0x1B7, 2, 0x292), (0x1B8, 0x1B8, 2, 0x1B9), (0x1BC, 0x1BC, 2, 0x1BD),
   (0x1C4, 0x1C4, 2, 0x1C6), (0x1C5, 0x1C5, 2, 0x1C6), (0x1C7, 0x1C7, 2, 0x1C9),
   (0x1C8, 0x1C8, 2, 0x1C9), (0x1CA, 0x1CA, 2, 0x1CC), (0x1CB, 0x1DB, 2, 0x1CC),
   (0x1DE, 0x1EE, 2, 0x1DF), (0x1F1, 0x1F1, 2, 0x1F3), (0x1F2, 0x1F4, 2, 0x1F3),
   (0x1F6, 0x1F6, 2, 0x195), (0x1F7, 0x1F7, 2, 0x1BF), (0x1F8, 0x21E, 2, 0x1F9),
   (0x220, 0x220, 2, 0x19E), (0x222, 0x232, 2, 0x223), (0x23A, 0x23A, 2, 0x2C65),
   (0x23B, 0x23B, 2, 0x23C), (0x23D, 0x23D, 2, 0x19A), (0x23E, 0x23E, 2, 0x2C66),
   (0x241, 0x241, 2, 0x242), (0x243, 0x243, 2, 0x180), (0x244, 0x244, 2, 0x289),
   (0x245, 0x245, 2, 0x28C), (0x246, 0x24E, 2, 0x247), (0x370, 0x372, 2, 0x371),
   (0x376, 0x376, 2, 0x377), (0x37F, 0x37F, 2, 0x3F3), (0x386, 0x386, 2, 0x3AC),
   (0x388, 0x38A, 1, 0x3AD), (0x38C, 0x38C, 2, 0x3CC), (0x38E, 0x38F, 1, 0x3CD),
   (0x391, 0x3A1, 1, 0x3B1), (0x3A3, 0x3AB, 1, 0x3C3), (0x3CF, 0x3CF, 2, 0x3D7),
   (0x3D8, 0x3EE, 2, 0x3D9), (0x3F4, 0x3F4, 2, 0x3B8), (0x3F7, 0x3F7, 2, 0x3F8),
   (0x3F9, 0x3F9, 2, 0x3F2), (0x3FA, 0x3FA, 2, 0x3FB), (0x3FD, 0x3FF, 1, 0x37B),
   (0x400, 0x40F, 1, 0x450), (0x410, 0x42F, 1, 0x430), (0x460, 0x480, 2, 0x461),
   (0x48A, 0x4BE, 2, 0x48B), (0x4C0, 0x4C0, 2, 0x4CF), (0x4C1, 0x4CD, 2, 0x4C2),
   (0x4D0, 0x52E, 2, 0x4D1), (0x531, 0x556, 1, 0x561), (0x10A0, 0x10C5, 1, 0x2D00),
   (0x10C7, 0x10C7, 2, 0x2D27), (0x10CD, 0x10CD, 2, 0x2D2D), (0x13A0, 0x13EF, 1, 0xAB70),
   (0x13F0, 0x13F5, 1, 0x13F8), (0x1C90, 0x1CBA, 1, 0x10D0), (0x1CBD, 0x1CBF, 1, 0x10FD),
   (0x1E00, 0x1E94, 2, 0x1E01), (0x1E9E, 0x1E9E, 2, 0xDF), (0x1EA0, 0x1EFE, 2, 0x1EA1),
   (0x1F08, 0x1F0F, 1, 0x1F00), (0x1F18, 0x1F1D, 1, 0x1F10), (0x1F28, 0x1F2F, 1, 0x1F20),
   (0x1F38, 0x1F3F, 1, 0x1F30), (0x1F48, 0x1F4D, 1, 0x1F40), (0x1F59, 0x1F5F, 2, 0x1F51),
   (0x1F68, 0x1F6F, 1, 0x1F60), (0x1F88, 0x1F8F, 1, 0x1F80), (0x1F98, 0x1F9F, 1, 0x1F90),
   (0x1FA8, 0x1FAF, 1, 0x1FA0), (0x1FB8, 0x1FB9, 1, 0x1FB0), (0x1FBA, 0x1FBB, 1, 0x1F70),
   (0x1FBC, 0x1FBC, 2, 0x1FB3), (0x1FC8, 0x1FCB, 1, 0x1F72), (0x1FCC, 0x1FCC, 2, 0x1FC3),
   (0x1FD8, 0x1FD9, 1, 0x1FD0), (0x1FDA, 0x1FDB, 1, 0x1F76), (0x1FE8, 0x1FE9, 1, 0x1FE0),
   (0x1FEA, 0x1FEB, 1, 0x1F7A), (0x1FEC, 0x1FEC, 2, 0x1FE5), (0x1FF8, 0x1FF9, 1, 0x1F78),
   (0x1FFA, 0x1FFB, 1, 0x1F7C), (0x1FFC, 0x1FFC, 2, 0x1FF3), (0x2126, 0x2126, 2, 0x3C9),
   (0x212A, 0x212A, 2, 0x6B), (0x212B, 0x212B, 2, 0xE5), (0x2132, 0x2132, 2, 0x214E),
   (0x2160, 0x216F, 1, 0x2170), (0x2183, 0x2183, 2, 0x2184), (0x24B6, 0x24CF, 1, 0x24D0),
   (0x2C00, 0x2C2F, 1, 0x2C30), (0x2C60, 0x2C60, 2, 0x2C61), (0x2C62, 0x2C62, 2, 0x26B),
   (0x2C63, 0x2C63, 2, 0x1D7D), (0x2C64, 0x2C64, 2, 0x27D), (0x2C67, 0x2C6B, 2, 0x2C68),
   (0x2C6D, 0x2C6D, 2, 0x251), (0x2C6E, 0x2C6E, 2, 0x271), (0x2C6F, 0x2C6F, 2, 0x250),
   (0x2C70, 0x2C70, 2, 0x252), (0x2C72, 0x2C72, 2, 0x2C73), (0x2C75, 0x2C75, 2, 0x2C76),
   (0x2C7E, 0x2C7F, 1, 0x23F), (0x2C80, 0x2CE2, 2, 0x2C81), (0x2CEB, 0x2CED, 2, 0x2CEC),
   (0x2CF2, 0x2CF2, 2, 0x2CF3), (0xA640, 0xA66C, 2, 0xA641), (0xA680, 0xA69A, 2, 0xA681),
   (0xA722, 0xA72E, 2, 0xA723), (0xA732, 0xA76E, 2, 0xA733), (0xA779, 0xA77B, 2, 0xA77A),
   (0xA77D, 0xA77D, 2, 0x1D79), (0xA77E, 0xA786, 2, 0xA77F), (0xA78B, 0xA78B, 2, 0xA78C),
   (0xA78D, 0xA78D, 2, 0x265), (0xA790, 0xA792, 2, 0xA791), (0xA796, 0xA7A8, 2, 0xA797),
   (0xA7AA, 0xA7AA, 2, 0x266), (0xA7AB, 0xA7AB, 2, 0x25C), (0xA7AC, 0xA7AC, 2, 0x261),
   (0xA7AD, 0xA7AD, 2, 0x26C), (0xA7AE, 0xA7AE, 2, 0x26A), (0xA7B0, 0xA7B0, 2, 0x29E),
   (0xA7B1, 0xA7B1, 2, 0x287), (0xA7B2, 0xA7B2, 2, 0x29D), (0xA7B3, 0xA7B3, 2, 0xAB53),
   (0xA7B4, 0xA7C2, 2, 0xA7B5), (0xA7C4, 0xA7C4, 2, 0xA794), (0xA7C5, 0xA7C5, 2, 0x282),
   (0xA7C6, 0xA7C6, 2, 0x1D8E), (0xA7C7, 0xA7C9, 2, 0xA7C8), (0xA7D0, 0xA7D0, 2, 0xA7D1),
   (0xA7D6, 0xA7D8, 2, 0xA7D7), (0xA7F5, 0xA7F5, 2, 0xA7F6), (0xFF21, 0xFF3A, 1, 0xFF41),
   (0x10400, 0x10427, 1, 0x10428), (0x104B0, 0x104D3, 1, 0x104D8),
   (0x10570, 0x1057A, 1, 0x10597), (0x1057C, 0x1058A, 1, 0x105A3),
   (0x1058C, 0x10592, 1, 0x105B3), (0x10594, 0x10595, 1, 0x105BB),
   (0x10C80, 0x10CB2, 1, 0x10CC0), (0x118A0, 0x118BF, 1, 0x118C0),
   (0x16E40, 0x16E5F, 1, 0x16E60), (0x1E900, 0x1E921, 1, 0x1E922)]

/-- The lower case of a rune outside ASCII, by code point. -/
def unicode.toLowerNat (n : Nat) : Nat :=
  match unicode.lowerRanges.find?
      (fun r => r.1 ≤ n && n ≤ r.2.1 && (n - r.1) % r.2.2.1 == 0) with
  | some r => r.2.2.2 + (n - r.1)
  | none => n

/-- Go `unicode.ToLower`: the ASCII letters by the fast path of the Go function, every
other rune by the lower-case ranges. -/
def unicode.ToLower (c : Char) : Char :=
  if c.toNat < 128 then
    (if 'A'.toNat ≤ c.toNat ∧ c.toNat ≤ 'Z'.toNat then Char.ofNat (c.toNat + 32) else c)
  else Char.ofNat (unicode.toLowerNat c.toNat)

/-- Go `unicode.IsSpace`: the white space of Latin-1 and the `Z` category. -/
def unicode.IsSpace (c : Char) : Bool :=
  let n := c.toNat
  n == 0x09 || n == 0x0A || n == 0x0B || n == 0x0C || n == 0x0D || n == 0x20 ||
  n == 0x85 || n == 0xA0 || n == 0x1680 || (0x2000 ≤ n && n ≤ 0x200A) ||
  n == 0x2028 || n == 0x2029 || n == 0x202F || n == 0x205F || n == 0x3000

/-- Go `strings.ToLower`. -/
def strings.ToLower (s : String) : String := String.mk (s.data.map unicode.ToLower)

/-- Go `strings.Contains(s, substr)`: `substr` starts at some position of `s`. -/
def strings.Contains (s substr : String) : Bool :=
  s.data.tails.any (fun t => substr.data.isPrefixOf t)

/-- Go `strings.TrimSpace`: leading and trailing white space removed. -/
def strings.TrimSpace (s : String) : String :=
  String.mk ((s.data.dropWhile unicode.IsSpace).reverse.dropWhile unicode.IsSpace).reverse

/-- Two strings that differ only in letter case: they have the same length and, position
by position, runes with the same lower case. -/
def strings.differOnlyInCase (f g : String) : Bool :=
  decide (f.data.map unicode.ToLower = g.data.map unicode.ToLower)

/-- Go `netip.Addr`, by its address bytes (4 for IPv4, 16 for IPv6). -/
structure netip.Addr where
  bytes : List Nat
  deriving DecidableEq, Repr

/-- Go `netip.AddrFromSlice`: a 4-byte or 16-byte slice is an address, any other
length gives `ok == false`. -/
def netip.AddrFromSlice (b : List Nat) : Option netip.Addr :=
  if b.length = 4 ∨ b.length = 16 then some ⟨b⟩ else none

/-! ## `github.com/miekg/dns` records -/

namespace dns

/-- Record type A. -/
def TypeA : Nat := 1
/-- Record type AAAA. -/
def TypeAAAA : Nat := 28
/-- Record type SRV. -/
def TypeSRV : Nat := 33
/-- Record type NAPTR. -/
def TypeNAPTR : Nat := 35

/-- The header of a resource record; the probes read the owner name only. -/
structure RR_Header where
  Name : String
  deriving DecidableEq, Repr

/-- An A record: `A` is a `net.IP`, a byte slice. -/
structure A where
  Hdr : RR_Header
  A : List Nat
  deriving DecidableEq, Repr

/-- An AAAA record. -/
structure AAAA where
  Hdr : RR_Header
  AAAA : List Nat
  deriving DecidableEq, Repr

/-- An SRV record. -/
structure SRV where
  Hdr : RR_Header
  Priority : Nat
  Weight : Nat
  Port : Nat
  Target : String
  deriving DecidableEq, Repr

/-- A NAPTR record. -/
structure NAPTR where
  Hdr : RR_Header
  Order : Nat
  Preference : Nat
  Flags : String
  Service : String
  Regexp : String
  Replacement : String
  deriving DecidableEq, Repr

/-- A resource record of a message section (`dns.RR`), by its dynamic type. -/
inductive RR where
  | ofA (rr : dns.A)
  | ofAAAA (rr : dns.AAAA)
  | ofSRV (rr : dns.SRV)
  | ofNAPTR (rr : dns.NAPTR)
  | other (hdr : RR_Header) (rrtype : Nat)
  deriving DecidableEq, Repr

/-- The type assertion `rr.(*dns.A)`. -/
def RR.asA : RR → Option dns.A
  | RR.ofA rr => some rr
  | _ => none

/-- The type assertion `rr.(*dns.AAAA)`. -/
def RR.asAAAA : RR → Option dns.AAAA
  | RR.ofAAAA rr => some rr
  | _ => none

/-- The type assertion `rr.(*dns.SRV)`. -/
def RR.asSRV : RR → Option dns.SRV
  | RR.ofSRV rr => some rr
  | _ => none

/-- The type assertion `rr.(*dns.NAPTR)`. -/
def RR.asNAPTR : RR → Option dns.NAPTR
  | RR.ofNAPTR rr => some rr
  | _ => none

/-- A DNS message: the answer and the additional section. -/
structure Msg where
  Answer : List RR
  Extra : List RR
  deriving DecidableEq, Repr

end dns

/-! ## Collaborators -/

/-- Modelled from the spec: `resolv.CollectRRs[T]` is declared in the `resolv`
package, outside these files.  "Extract all records of a given type from a message
section", as an ordered list; `asT` is the type assertion for `T`. -/
def resolv.CollectRRs {T : Type} (asT : dns.RR → Option T) (rrs : List dns.RR) : List T :=
  rrs.filterMap asT

/-- A call the probes make on a collaborator. -/
inductive Call where
  | Lookup (name : String) (qtype : Nat)
  | GetIPs (name : String)
  | CheckDNSSECValidation (name : String) (qtype : Nat)
  deriving DecidableEq, Repr

/-- The collaborators behind `*resolv.Client`, over a collaborator state `σ`;
`V` is `DNSSECValidationResult`, whose zero value is `default`.
`Lookup` is `c.Lookup`, `GetIPs` is `c.GetIPs` (a slice and an error), and
`CheckDNSSECValidation` is the package-level function of that name, which takes
the client. -/
structure resolv.Client (σ V : Type) where
  Lookup : String → Nat → σ → Except String dns.Msg × σ
  GetIPs : String → σ → (Slice netip.Addr × Option String) × σ
  CheckDNSSECValidation : String → Nat → σ → V × σ

/-- The collaborator state together with the log of the calls made so far. -/
structure World (σ : Type) where
  st : σ
  log : List Call

/-- The call `c.Lookup(name, qtype)`, logged. -/
def doLookup {σ V : Type} (c : resolv.Client σ V) (name : String) (qtype : Nat)
    (w : World σ) : Except String dns.Msg × World σ :=
  ((c.Lookup name qtype w.st).1, ⟨(c.Lookup name qtype w.st).2, w.log ++ [Call.Lookup name qtype]⟩)

/-- The call `c.GetIPs(name)`, logged. -/
def doGetIPs {σ V : Type} (c : resolv.Client σ V) (name : String)
    (w : World σ) : (Slice netip.Addr × Option String) × World σ :=
  ((c.GetIPs name w.st).1, ⟨(c.GetIPs name w.st).2, w.log ++ [Call.GetIPs name]⟩)

/-- The call `CheckDNSSECValidation(c, name, qtype)`, logged. -/
def doCheck {σ V : Type} (c : resolv.Client σ V) (name : String) (qtype : Nat)
    (w : World σ) : V × World σ :=
  ((c.CheckDNSSECValidation name qtype w.st).1,
    ⟨(c.CheckDNSSECValidation name qtype w.st).2, w.log ++ [Call.CheckDNSSECValidation name qtype]⟩)

/-! ## `service.go` -/

/-- The struct `resolv.ServiceInstanceInfo`, embedded in `ServiceInstanceInfoX`: the
fields the probes assign.  `SrvValidated` is the field `SRVQuery` assigns as
`infox.SrvValidated`; `ServiceInstanceInfoX` declares no field of that spelling, so
the selector is a field promoted from the embedded struct. -/
structure resolv.ServiceInstanceInfo (V : Type) where
  Name : String
  Priority : Nat
  Weight : Nat
  Port : Nat
  Target : String
  Addrs : Slice netip.Addr
  SrvValidated : V
  deriving DecidableEq, Repr

/-- The struct `ServiceInstanceInfoX`: the embedded `resolv.ServiceInstanceInfo` and
the three DNSSEC validation results. -/
structure ServiceInstanceInfoX (V : Type) extends resolv.ServiceInstanceInfo V where
  SRVValidated : V
  AValidated : V
  AAAAValidated : V
  deriving DecidableEq, Repr

/-- The method `(*ServiceInstanceInfoX).CheckDNSSECValidation`. -/
def ServiceInstanceInfoX.CheckDNSSECValidation {σ V : Type} (info : ServiceInstanceInfoX V)
    (c : resolv.Client σ V) (w : World σ) : ServiceInstanceInfoX V × World σ :=
  let r1 := doCheck c info.Name dns.TypeSRV w
  let r2 := doCheck c info.Target dns.TypeA r1.2
  let r3 := doCheck c info.Target dns.TypeAAAA r2.2
  ({ info with SRVValidated := r1.1, AValidated := r2.1, AAAAValidated := r3.1 }, r3.2)

/-! ## `srv-probe.go` -/

/-- The struct `SRVProbeResult`. -/
structure SRVProbeResult (V : Type) where
  Services : GoMap (Slice (ServiceInstanceInfoX V))
  deriving DecidableEq, Repr

/-- The constructor `NewSRVProbeResult`: an empty map. -/
def NewSRVProbeResult (V : Type) : SRVProbeResult V := ⟨[]⟩

/-- The first loop of `getServiceIPs`: the A records of the additional section whose
owner is `srvTarget` and whose bytes convert to an address are appended to `addrs`. -/
def getServiceIPs.scanA (srvTarget : String) : List dns.A → Slice netip.Addr → Slice netip.Addr
  | [], addrs => addrs
  | a :: rest, addrs =>
    if a.Hdr.Name != srvTarget then getServiceIPs.scanA srvTarget rest addrs
    else match netip.AddrFromSlice a.A with
      | none => getServiceIPs.scanA srvTarget rest addrs
      | some addr => getServiceIPs.scanA srvTarget rest (addrs.append addr)

/-- The second loop of `getServiceIPs`, over the AAAA records. -/
def getServiceIPs.scanAAAA (srvTarget : String) :
    List dns.AAAA → Slice netip.Addr → Slice netip.Addr
  | [], addrs => addrs
  | aaaa :: rest, addrs =>
    if aaaa.Hdr.Name != srvTarget then getServiceIPs.scanAAAA srvTarget rest addrs
    else match netip.AddrFromSlice aaaa.AAAA with
      | none => getServiceIPs.scanAAAA srvTarget rest addrs
      | some addr => getServiceIPs.scanAAAA srvTarget rest (addrs.append addr)

/-- The addresses `getServiceIPs` holds when it reaches `len(addrs) == 0`: the glue
of the additional section, A records first, then AAAA records. -/
def getServiceIPs.glue (srvTarget : String) (resp : dns.Msg) : Slice netip.Addr :=
  getServiceIPs.scanAAAA srvTarget (resolv.CollectRRs dns.RR.asAAAA resp.Extra)
    (getServiceIPs.scanA srvTarget (resolv.CollectRRs dns.RR.asA resp.Extra) Slice.nil)

/-- The glue addresses for `srvTarget` as a list: the A records of the additional
section whose owner is `srvTarget` and whose bytes convert, then the AAAA records
likewise. -/
def getServiceIPs.glueMatches (srvTarget : String) (resp : dns.Msg) : List netip.Addr :=
  (resolv.CollectRRs dns.RR.asA resp.Extra).filterMap
      (fun a => if a.Hdr.Name = srvTarget then netip.AddrFromSlice a.A else none) ++
    (resolv.CollectRRs dns.RR.asAAAA resp.Extra).filterMap
      (fun aaaa => if aaaa.Hdr.Name = srvTarget then netip.AddrFromSlice aaaa.AAAA else none)

/-- The address an additional-section record gives for `srvTarget` in the first loop of
`getServiceIPs`: the record is an A record owned by `srvTarget` and its bytes convert. -/
def getServiceIPs.matchA (srvTarget : String) : dns.RR → Option netip.Addr
  | dns.RR.ofA a => if a.Hdr.Name = srvTarget then netip.AddrFromSlice a.A else none
  | _ => none

/-- The address an additional-section record gives for `srvTarget` in the second loop of
`getServiceIPs`, over the AAAA records. -/
def getServiceIPs.matchAAAA (srvTarget : String) : dns.RR → Option netip.Addr
  | dns.RR.ofAAAA aaaa =>
    if aaaa.Hdr.Name = srvTarget then netip.AddrFromSlice aaaa.AAAA else none
  | _ => none

/-- The glue addresses as the specification words them: the A and AAAA records of the
additional section owned by `srvTarget`, both families together, in the order in which
the records stand in the additional section. -/
def getServiceIPs.glueInSectionOrder (srvTarget : String) (resp : dns.Msg) : List netip.Addr :=
  resp.Extra.filterMap (fun rr =>
    match rr with
    | dns.RR.ofA a => if a.Hdr.Name = srvTarget then netip.AddrFromSlice a.A else none
    | dns.RR.ofAAAA aaaa =>
      if aaaa.Hdr.Name = srvTarget then netip.AddrFromSlice aaaa.AAAA else none
    | _ => none)

/-- The function `getServiceIPs`. -/
def getServiceIPs {σ V : Type} (c : resolv.Client σ V) (srvTarget : String) (resp : dns.Msg)
    (w : World σ) : Slice netip.Addr × World σ :=
  let addrs := getServiceIPs.glue srvTarget resp
  if addrs.len == 0 then
    match doGetIPs c srvTarget w with
    | ((_, some _), w1) => (Slice.nil, w1)
    | ((addrs1, none), w1) => (addrs1, w1)
  else (addrs, w)

/-- One iteration of the loop of `SRVQuery`: the instance built from `srv`. -/
def SRVQuery.body {σ V : Type} [Inhabited V] (c : resolv.Client σ V) (domainname : String)
    (resp : dns.Msg) (srvValidated : V) (srv : dns.SRV) (w : World σ) :
    ServiceInstanceInfoX V × World σ :=
  let infox : ServiceInstanceInfoX V :=
    { Name := domainname, Priority := srv.Priority, Weight := srv.Weight, Port := srv.Port,
      Target := srv.Target, Addrs := Slice.nil, SrvValidated := srvValidated,
      SRVValidated := default, AValidated := default, AAAAValidated := default }
  if infox.Target != "." then
    let r1 := getServiceIPs c infox.Target resp w
    let r2 := doCheck c infox.Target dns.TypeA r1.2
    let r3 := doCheck c infox.Target dns.TypeAAAA r2.2
    ({ infox with Addrs := r1.1, AValidated := r2.1, AAAAValidated := r3.1 }, r3.2)
  else (infox, w)

/-- The loop of `SRVQuery` over the SRV answers, appending to `results`. -/
def SRVQuery.loop {σ V : Type} [Inhabited V] (c : resolv.Client σ V) (domainname : String)
    (resp : dns.Msg) (srvValidated : V) :
    List dns.SRV → Slice (ServiceInstanceInfoX V) → World σ →
      Slice (ServiceInstanceInfoX V) × World σ
  | [], results, w => (results, w)
  | srv :: rest, results, w =>
    let r := SRVQuery.body c domainname resp srvValidated srv w
    SRVQuery.loop c domainname resp srvValidated rest (results.append r.1) r.2

/-- The function `SRVQuery`. -/
def SRVQuery {σ V : Type} [Inhabited V] (c : resolv.Client σ V) (domainname : String)
    (validate : Bool) (w : World σ) : Slice (ServiceInstanceInfoX V) × World σ :=
  match doLookup c domainname dns.TypeSRV w with
  | (Except.error _, w1) => (Slice.nil, w1)
  | (Except.ok resp, w1) =>
    let v : V × World σ :=
      if validate then doCheck c domainname dns.TypeSRV w1 else (default, w1)
    SRVQuery.loop c domainname resp v.1 (resolv.CollectRRs dns.RR.asSRV resp.Answer)
      Slice.nil v.2

/-- The loop of `DoSRVProbe` over the service names. -/
def DoSRVProbe.loop {σ V : Type} [Inhabited V] (c : resolv.Client σ V) (domain : String)
    (validate : Bool) :
    List String → SRVProbeResult V → Bool → World σ → (SRVProbeResult V × Bool) × World σ
  | [], r, foundFlag, w => ((r, foundFlag), w)
  | service :: rest, r, foundFlag, w =>
    let name := service ++ "." ++ domain
    let q := SRVQuery c name validate w
    if q.1.isNil then DoSRVProbe.loop c domain validate rest r foundFlag q.2
    else DoSRVProbe.loop c domain validate rest ⟨r.Services.set service q.1⟩ true q.2

/-- The function `DoSRVProbe`; `none` is the nil result. -/
def DoSRVProbe {σ V : Type} [Inhabited V] (c : resolv.Client σ V) (domain : String)
    (serviceNames : List String) (validate : Bool) (w : World σ) :
    Option (SRVProbeResult V) × World σ :=
  let l := DoSRVProbe.loop c domain validate serviceNames (NewSRVProbeResult V) false w
  if l.1.2 then (some l.1.1, l.2) else (none, l.2)

/-- The SRV queries `DoSRVProbe` makes, in order: each service name with the world in
which the query for it starts (the world the query before it left). -/
def DoSRVProbe.queries {σ V : Type} [Inhabited V] (c : resolv.Client σ V) (domain : String)
    (validate : Bool) : List String → World σ → List (String × World σ)
  | [], _ => []
  | service :: rest, w =>
    (service, w) ::
      DoSRVProbe.queries c domain validate rest
        (SRVQuery c (service ++ "." ++ domain) validate w).2

/-- The world in which the loop of `SRVQuery` starts: after the SRV lookup of the owner
name and, with validate, after the (owner name, SRV) check. -/
def SRVQuery.start {σ V : Type} (c : resolv.Client σ V) (domainname : String)
    (validate : Bool) (w : World σ) : World σ :=
  if validate then
    (doCheck c domainname dns.TypeSRV (doLookup c domainname dns.TypeSRV w).2).2
  else (doLookup c domainname dns.TypeSRV w).2

/-- The world one SRV answer leaves behind: for a Target other than ".", the world after
the fallback address lookup (made only when the additional section gave no glue), the A
check and the AAAA check of the Target; for the Target ".", the world unchanged. -/
def SRVQuery.after {σ V : Type} (c : resolv.Client σ V) (resp : dns.Msg) (srv : dns.SRV)
    (w : World σ) : World σ :=
  if srv.Target != "." then
    (doCheck c srv.Target dns.TypeAAAA
      (doCheck c srv.Target dns.TypeA
        (if (getServiceIPs.glue srv.Target resp).len == 0 then (doGetIPs c srv.Target w).2
          else w)).2).2
  else w

/-- The SRV answers in answer order, each with the world in which `SRVQuery` comes to
it. -/
def SRVQuery.steps {σ V : Type} (c : resolv.Client σ V) (resp : dns.Msg) :
    List dns.SRV → World σ → List (dns.SRV × World σ)
  | [], _ => []
  | srv :: rest, w => (srv, w) :: SRVQuery.steps c resp rest (SRVQuery.after c resp srv w)

/-! ## `naptr-probe.go` -/

/-- The struct `NAPTRInfo`. -/
structure NAPTRInfo (V : Type) where
  Order : Nat
  Preference : Nat
  Flags : String
  Service : String
  Regexp : String
  Replacement : String
  NAPTRValidated : V
  Services : Slice (ServiceInstanceInfoX V)
  deriving DecidableEq, Repr

/-- The struct `NAPTRProbeResult`. -/
structure NAPTRProbeResult (V : Type) where
  NAPTRs : Slice (NAPTRInfo V)
  deriving DecidableEq, Repr

/-- The constructor `NewNAPTRProbeResult`: the zero value. -/
def NewNAPTRProbeResult (V : Type) : NAPTRProbeResult V := ⟨Slice.nil⟩

/-- The condition of `DoNAPTRProbe` under which a record is followed into an SRV
query. -/
def DoNAPTRProbe.delegates (naptr : dns.NAPTR) : Bool :=
  let flags := strings.ToLower naptr.Flags
  strings.Contains flags "s" && naptr.Replacement != "." &&
    strings.TrimSpace naptr.Replacement != ""

/-- One iteration of the loop of `DoNAPTRProbe`: the record built from `naptr`. -/
def DoNAPTRProbe.body {σ V : Type} [Inhabited V] (c : resolv.Client σ V) (validate : Bool)
    (naptrValidated : V) (naptr : dns.NAPTR) (w : World σ) : NAPTRInfo V × World σ :=
  let ninfo : NAPTRInfo V :=
    { Order := naptr.Order, Preference := naptr.Preference, Flags := naptr.Flags,
      Service := naptr.Service, Regexp := naptr.Regexp, Replacement := naptr.Replacement,
      NAPTRValidated := naptrValidated, Services := Slice.nil }
  if DoNAPTRProbe.delegates naptr then
    let infoxs := SRVQuery c naptr.Replacement validate w
    if !infoxs.1.isNil then ({ ninfo with Services := infoxs.1 }, infoxs.2)
    else (ninfo, infoxs.2)
  else (ninfo, w)

/-- The loop of `DoNAPTRProbe` over the NAPTR answers, appending to `r.NAPTRs`. -/
def DoNAPTRProbe.loop {σ V : Type} [Inhabited V] (c : resolv.Client σ V) (validate : Bool)
    (naptrValidated : V) :
    List dns.NAPTR → NAPTRProbeResult V → World σ → NAPTRProbeResult V × World σ
  | [], r, w => (r, w)
  | naptr :: rest, r, w =>
    let b := DoNAPTRProbe.body c validate naptrValidated naptr w
    DoNAPTRProbe.loop c validate naptrValidated rest ⟨r.NAPTRs.append b.1⟩ b.2

/-- The function `DoNAPTRProbe`; `none` is the nil result. -/
def DoNAPTRProbe {σ V : Type} [Inhabited V] (c : resolv.Client σ V) (domain : String)
    (validate : Bool) (w : World σ) : Option (NAPTRProbeResult V) × World σ :=
  match doLookup c domain dns.TypeNAPTR w with
  | (Except.error _, w1) => (none, w1)
  | (Except.ok resp, w1) =>
    let v : V × World σ :=
      if validate then doCheck c domain dns.TypeNAPTR w1 else (default, w1)
    let l := DoNAPTRProbe.loop c validate v.1 (resolv.CollectRRs dns.RR.asNAPTR resp.Answer)
      (NewNAPTRProbeResult V) v.2
    (some l.1, l.2)

/-- The world in which the loop of `DoNAPTRProbe` starts: after the NAPTR lookup of the
domain and, with validate, after the (domain, NAPTR) check. -/
def DoNAPTRProbe.start {σ V : Type} (c : resolv.Client σ V) (domain : String)
    (validate : Bool) (w : World σ) : World σ :=
  if validate then (doCheck c domain dns.TypeNAPTR (doLookup c domain dns.TypeNAPTR w).2).2
  else (doLookup c domain dns.TypeNAPTR w).2

/-- The world one NAPTR answer leaves behind: the world after the SRV query on its
Replacement, with the validate flag of the probe, when its lower-cased Flags contain "s"
and its Replacement is neither "." nor blank after trimming; the world unchanged
otherwise. -/
def DoNAPTRProbe.after {σ V : Type} [Inhabited V] (c : resolv.Client σ V) (validate : Bool)
    (naptr : dns.NAPTR) (w : World σ) : World σ :=
  if strings.Contains (strings.ToLower naptr.Flags) "s" && naptr.Replacement != "." &&
      strings.TrimSpace naptr.Replacement != "" then
    (SRVQuery c naptr.Replacement validate w).2
  else w

/-- The NAPTR answers in answer order, each with the world in which `DoNAPTRProbe` comes
to it. -/
def DoNAPTRProbe.steps {σ V : Type} [Inhabited V] (c : resolv.Client σ V) (validate : Bool) :
    List dns.NAPTR → World σ → List (dns.NAPTR × World σ)
  | [], _ => []
  | naptr :: rest, w =>
    (naptr, w) :: DoNAPTRProbe.steps c validate rest (DoNAPTRProbe.after c validate naptr w)

/-! ## Reading the call log -/

/-- The `(name, type)` of a `Lookup` call. -/
def Call.asLookup : Call → Option (String × Nat)
  | Call.Lookup name qtype => some (name, qtype)
  | _ => none

/-- The name of a `GetIPs` call. -/
def Call.asGetIPs : Call → Option String
  | Call.GetIPs name => some name
  | _ => none

/-- The `(name, type)` of a `CheckDNSSECValidation` call. -/
def Call.asCheck : Call → Option (String × Nat)
  | Call.CheckDNSSECValidation name qtype => some (name, qtype)
  | _ => none

/-- The `Lookup` calls of a log, in call order. -/
def lookupsOf (log : List Call) : List (String × Nat) := log.filterMap Call.asLookup

/-- The `GetIPs` calls of a log, in call order. -/
def getIPsOf (log : List Call) : List String := log.filterMap Call.asGetIPs

/-- The `CheckDNSSECValidation` calls of a log, in call order. -/
def checksOf (log : List Call) : List (String × Nat) := log.filterMap Call.asCheck

/-- The DNSSEC checks `SRVQuery` makes for one SRV answer. -/
def SRVQuery.checksFor (srv : dns.SRV) : List (String × Nat) :=
  if srv.Target != "." then [(srv.Target, dns.TypeA), (srv.Target, dns.TypeAAAA)] else []

/-- The fallback address lookups `SRVQuery` makes for one SRV answer. -/
def SRVQuery.getIPsFor (resp : dns.Msg) (srv : dns.SRV) : List String :=
  if srv.Target != "." && (getServiceIPs.glue srv.Target resp).len == 0 then [srv.Target] else []

/-- The collaborator calls `SRVQuery` makes for one SRV answer, in call order. -/
def SRVQuery.callsFor (resp : dns.Msg) (srv : dns.SRV) : List Call :=
  if srv.Target != "." then
    (if (getServiceIPs.glue srv.Target resp).len == 0 then [Call.GetIPs srv.Target] else [])
      ++ [Call.CheckDNSSECValidation srv.Target dns.TypeA,
          Call.CheckDNSSECValidation srv.Target dns.TypeAAAA]
  else []

/-! ## Sample collaborators -/

/-- The address 192.0.2.1. -/
def addr1 : netip.Addr := ⟨[192, 0, 2, 1]⟩

/-- An SRV response for `_sip._tcp.example.com` with target `sip1.example.com` and a
glue A record in the additional section. -/
def sipResponse : dns.Msg :=
  { Answer := [dns.RR.ofSRV ⟨⟨"_sip._tcp.example.com"⟩, 0, 5, 5060, "sip1.example.com"⟩],
    Extra := [dns.RR.ofA ⟨⟨"sip1.example.com"⟩, [192, 0, 2, 1]⟩] }

/-- The SRV record of `sipResponse`. -/
def sipSRV : dns.SRV := ⟨⟨"_sip._tcp.example.com"⟩, 0, 5, 5060, "sip1.example.com"⟩

/-- The first SRV record of `noGlueResponse`, defined below. -/
def noGlueSRV : dns.SRV := ⟨⟨"_sip._tcp.example.com"⟩, 0, 5, 5060, "a.example.com"⟩

/-- A NAPTR response for `example.com` whose single record delegates to
`_sip._tcp.example.com`. -/
def naptrResponse : dns.Msg :=
  { Answer := [dns.RR.ofNAPTR
      ⟨⟨"example.com"⟩, 10, 50, "s", "SIP+D2T", "", "_sip._tcp.example.com"⟩],
    Extra := [] }

/-- A client over a trivial state: `example.com` has the NAPTR record above,
`_sip._tcp.example.com` the SRV record above, every other lookup fails; every
address lookup fails; every DNSSEC check answers 1. -/
def sampleClient : resolv.Client Unit Nat :=
  { Lookup := fun name qtype s =>
      if name = "example.com" ∧ qtype = dns.TypeNAPTR then (Except.ok naptrResponse, s)
      else if name = "_sip._tcp.example.com" ∧ qtype = dns.TypeSRV then (Except.ok sipResponse, s)
      else (Except.error "no such name", s),
    GetIPs := fun _ s => ((Slice.nil, some "no address"), s),
    CheckDNSSECValidation := fun _ _ s => (1, s) }

/-- A client whose every lookup succeeds with an empty message: no answer, no
additional record. -/
def emptyAnswerClient : resolv.Client Unit Nat :=
  { Lookup := fun _ _ s => (Except.ok ⟨[], []⟩, s),
    GetIPs := fun _ s => ((Slice.nil, some "no address"), s),
    CheckDNSSECValidation := fun _ _ s => (1, s) }

/-- An SRV response whose additional section has an A record for the target with
zero-length address data. -/
def shortGlueResponse : dns.Msg :=
  { Answer := [dns.RR.ofSRV ⟨⟨"_sip._tcp.example.com"⟩, 0, 5, 5060, "sip1.example.com"⟩],
    Extra := [dns.RR.ofA ⟨⟨"sip1.example.com"⟩, []⟩] }

/-- A client whose every lookup answers `shortGlueResponse` and whose address lookup
answers 192.0.2.1. -/
def shortGlueClient : resolv.Client Unit Nat :=
  { Lookup := fun _ _ s => (Except.ok shortGlueResponse, s),
    GetIPs := fun _ s => ((Slice.of [addr1], none), s),
    CheckDNSSECValidation := fun _ _ s => (1, s) }

/-- An SRV response with two targets and no additional record. -/
def noGlueResponse : dns.Msg :=
  { Answer := [dns.RR.ofSRV ⟨⟨"_sip._tcp.example.com"⟩, 0, 5, 5060, "a.example.com"⟩,
               dns.RR.ofSRV ⟨⟨"_sip._tcp.example.com"⟩, 1, 5, 5060, "b.example.com"⟩],
    Extra := [] }

/-- A client whose every lookup answers `noGlueResponse`; the address lookup succeeds
for `a.example.com` and fails for every other name. -/
def fallbackClient : resolv.Client Unit Nat :=
  { Lookup := fun _ _ s => (Except.ok noGlueResponse, s),
    GetIPs := fun name s =>
      if name = "a.example.com" then ((Slice.of [addr1], none), s)
      else ((Slice.nil, some "no address"), s),
    CheckDNSSECValidation := fun _ _ s => (1, s) }

/-- A client for which `example.com` has the NAPTR record of `naptrResponse` and every
other lookup fails, the SRV lookup of the replacement included. -/
def naptrOnlyClient : resolv.Client Unit Nat :=
  { Lookup := fun name qtype s =>
      if name = "example.com" ∧ qtype = dns.TypeNAPTR then (Except.ok naptrResponse, s)
      else (Except.error "no such name", s),
    GetIPs := fun _ s => ((Slice.nil, some "no address"), s),
    CheckDNSSECValidation := fun _ _ s => (1, s) }

/-- The instance `sampleClient` gives for `_sip._tcp.example.com` with validate set. -/
def sipInstance : ServiceInstanceInfoX Nat :=
  { Name := "_sip._tcp.example.com", Priority := 0, Weight := 5, Port := 5060,
    Target := "sip1.example.com", Addrs := Slice.of [addr1], SrvValidated := 1,
    SRVValidated := 0, AValidated := 1, AAAAValidated := 1 }

/-- The result `sampleClient` gives for the service names `_sip._tcp` and `_xmpp._tcp`
under `example.com`. -/
def sampleSRVProbeResult : SRVProbeResult Nat :=
  ⟨[("_sip._tcp", Slice.of [sipInstance])]⟩

/-- The NAPTR record of `naptrResponse`. -/
def sampleNAPTR : dns.NAPTR :=
  ⟨⟨"example.com"⟩, 10, 50, "s", "SIP+D2T", "", "_sip._tcp.example.com"⟩

/-- The record `naptrOnlyClient` gives for `example.com`: it delegates, and has no
Services. -/
def bareNAPTRInfo : NAPTRInfo Nat :=
  { Order := 10, Preference := 50, Flags := "s", Service := "SIP+D2T", Regexp := "",
    Replacement := "_sip._tcp.example.com", NAPTRValidated := 1, Services := Slice.nil }

/-- The record `sampleClient` gives for `example.com` with validate set. -/
def sampleNAPTRInfo : NAPTRInfo Nat :=
  { Order := 10, Preference := 50, Flags := "s", Service := "SIP+D2T", Regexp := "",
    Replacement := "_sip._tcp.example.com", NAPTRValidated := 1,
    Services := Slice.of [sipInstance] }

/-- The address 2001:db8::1. -/
def addr6 : netip.Addr := ⟨[0x20, 0x01, 0x0d, 0xb8, 0, 0, 0, 0, 0, 0, 0, 0, 0, 0, 0, 1]⟩

/-- An SRV response whose additional section has, for the target, first an AAAA record
and then an A record; a third record is owned by the target spelled in upper case. -/
def mixedGlueResponse : dns.Msg :=
  { Answer := [dns.RR.ofSRV ⟨⟨"_sip._tcp.example.com"⟩, 0, 5, 5060, "sip1.example.com"⟩],
    Extra := [dns.RR.ofAAAA ⟨⟨"sip1.example.com"⟩,
                [0x20, 0x01, 0x0d, 0xb8, 0, 0, 0, 0, 0, 0, 0, 0, 0, 0, 0, 1]⟩,
              dns.RR.ofA ⟨⟨"sip1.example.com"⟩, [192, 0, 2, 1]⟩,
              dns.RR.ofA ⟨⟨"SIP1.example.com"⟩, [192, 0, 2, 2]⟩] }

/-- A client whose every lookup answers `mixedGlueResponse`. -/
def mixedGlueClient : resolv.Client Unit Nat :=
  { Lookup := fun _ _ s => (Except.ok mixedGlueResponse, s),
    GetIPs := fun _ s => ((Slice.nil, some "no address"), s),
    CheckDNSSECValidation := fun _ _ s => (1, s) }

/-- A NAPTR record with the given Flags and the Replacement `_sip._tcp.example.com`. -/
def naptrWithFlags (flags : String) : dns.NAPTR :=
  ⟨⟨"example.com"⟩, 10, 50, flags, "SIP+D2T", "", "_sip._tcp.example.com"⟩

/-- A NAPTR response for `example.com` with the single record `naptrWithFlags flags`. -/
def flagsResponse (flags : String) : dns.Msg :=
  { Answer := [dns.RR.ofNAPTR (naptrWithFlags flags)], Extra := [] }

/-- The client `sampleClient`, with the Flags of the NAPTR record of `example.com`
replaced by `flags`. -/
def flagsClient (flags : String) : resolv.Client Unit Nat :=
  { Lookup := fun name qtype s =>
      if name = "example.com" ∧ qtype = dns.TypeNAPTR then (Except.ok (flagsResponse flags), s)
      else if name = "_sip._tcp.example.com" ∧ qtype = dns.TypeSRV then (Except.ok sipResponse, s)
      else (Except.error "no such name", s),
    GetIPs := fun _ s => ((Slice.nil, some "no address"), s),
    CheckDNSSECValidation := fun _ _ s => (1, s) }

/-- A NAPTR response for `example.com` with four records: one that delegates to
`_sip._tcp.example.com`, one with Flags "S" whose Replacement has no SRV record, one with
Flags "u", and one with Flags "s" and the Replacement ".". -/
def chainResponse : dns.Msg :=
  { Answer := [
      dns.RR.ofNAPTR ⟨⟨"example.com"⟩, 10, 50, "s", "SIP+D2T", "", "_sip._tcp.example.com"⟩,
      dns.RR.ofNAPTR ⟨⟨"example.com"⟩, 20, 50, "S", "SIP+D2U", "", "_gone._udp.example.com"⟩,
      dns.RR.ofNAPTR ⟨⟨"example.com"⟩, 30, 50, "u", "E2U+sip", "", "_sip._tcp.example.com"⟩,
      dns.RR.ofNAPTR ⟨⟨"example.com"⟩, 40, 50, "s", "SIP+D2T", "", "."⟩],
    Extra := [] }

/-- A client for which `example.com` has the NAPTR records of `chainResponse`,
`_sip._tcp.example.com` the two SRV records of `noGlueResponse`, and every other lookup
fails; the address lookup succeeds for `a.example.com` only; every DNSSEC check
answers 1. -/
def chainClient : resolv.Client Unit Nat :=
  { Lookup := fun name qtype s =>
      if name = "example.com" ∧ qtype = dns.TypeNAPTR then (Except.ok chainResponse, s)
      else if name = "_sip._tcp.example.com" ∧ qtype = dns.TypeSRV then
        (Except.ok noGlueResponse, s)
      else (Except.error "no such name", s),
    GetIPs := fun name s =>
      if name = "a.example.com" then ((Slice.of [addr1], none), s)
      else ((Slice.nil, some "no address"), s),
    CheckDNSSECValidation := fun _ _ s => (1, s) }

/-- The two instances `chainClient` gives for `_sip._tcp.example.com` with validate
set. -/
def chainInstances : Slice (ServiceInstanceInfoX Nat) :=
  Slice.of [
    { Name := "_sip._tcp.example.com", Priority := 0, Weight := 5, Port := 5060,
      Target := "a.example.com", Addrs := Slice.of [addr1], SrvValidated := 1,
      SRVValidated := 0, AValidated := 1, AAAAValidated := 1 },
    { Name := "_sip._tcp.example.com", Priority := 1, Weight := 5, Port := 5060,
      Target := "b.example.com", Addrs := Slice.nil, SrvValidated := 1,
      SRVValidated := 0, AValidated := 1, AAAAValidated := 1 }]

/-- The result `chainClient` gives for `example.com` with validate set. -/
def chainResult : NAPTRProbeResult Nat :=
  ⟨Slice.of [
    { Order := 10, Preference := 50, Flags := "s", Service := "SIP+D2T", Regexp := "",
      Replacement := "_sip._tcp.example.com", NAPTRValidated := 1,
      Services := chainInstances },
    { Order := 20, Preference := 50, Flags := "S", Service := "SIP+D2U", Regexp := "",
      Replacement := "_gone._udp.example.com", NAPTRValidated := 1, Services := Slice.nil },
    { Order := 30, Preference := 50, Flags := "u", Service := "E2U+sip", Regexp := "",
      Replacement := "_sip._tcp.example.com", NAPTRValidated := 1, Services := Slice.nil },
    { Order := 40, Preference := 50, Flags := "s", Service := "SIP+D2T", Regexp := "",
      Replacement := ".", NAPTRValidated := 1, Services := Slice.nil }]⟩

/-- An instance with the "no service" target ".". -/
def rootInstance : ServiceInstanceInfoX Nat :=
  { Name := "_sip._tcp.example.com", Priority := 0, Weight := 0, Port := 0,
    Target := ".", Addrs := Slice.nil, SrvValidated := 0,
    SRVValidated := 0, AValidated := 0, AAAAValidated := 0 }

/-- The world before any call. -/
def World.init : World Unit := ⟨(), []⟩

/-! ## The call log of each function -/

@[simp]
theorem lookupsOf_append (l₁ l₂ : List Call) :
    lookupsOf (l₁ ++ l₂) = lookupsOf l₁ ++ lookupsOf l₂ := by
  simp [lookupsOf]

@[simp]
theorem getIPsOf_append (l₁ l₂ : List Call) :
    getIPsOf (l₁ ++ l₂) = getIPsOf l₁ ++ getIPsOf l₂ := by
  simp [getIPsOf]

@[simp]
theorem checksOf_append (l₁ l₂ : List Call) :
    checksOf (l₁ ++ l₂) = checksOf l₁ ++ checksOf l₂ := by
  simp [checksOf]

theorem doLookup_log {σ V : Type} (c : resolv.Client σ V) (name : String) (qtype : Nat) (w : World σ) :
    (doLookup c name qtype w).2.log = w.log ++ [Call.Lookup name qtype] := rfl

theorem doGetIPs_log {σ V : Type} (c : resolv.Client σ V) (name : String) (w : World σ) :
    (doGetIPs c name w).2.log = w.log ++ [Call.GetIPs name] := rfl

theorem doCheck_log {σ V : Type} (c : resolv.Client σ V) (name : String) (qtype : Nat) (w : World σ) :
    (doCheck c name qtype w).2.log = w.log ++ [Call.CheckDNSSECValidation name qtype] := rfl

/-- The function `getServiceIPs` calls `GetIPs` once when the glue is empty, and makes
no call otherwise. -/
theorem getServiceIPs_log {σ V : Type} (c : resolv.Client σ V) (srvTarget : String) (resp : dns.Msg)
    (w : World σ) :
    (getServiceIPs c srvTarget resp w).2.log =
      w.log ++ (if (getServiceIPs.glue srvTarget resp).len == 0
        then [Call.GetIPs srvTarget] else []) := by
  unfold getServiceIPs
  by_cases h : ((getServiceIPs.glue srvTarget resp).len == 0) = true
  · simp only [h, if_true]
    have hl := doGetIPs_log c srvTarget w
    rcases hq : doGetIPs c srvTarget w with ⟨⟨a, e⟩, w1⟩
    rw [hq] at hl
    cases e <;> simpa using hl
  · simp [h]

/-- The calls of one iteration of `SRVQuery`. -/
theorem SRVQuery_body_log {σ V : Type} [Inhabited V] (c : resolv.Client σ V)
    (domainname : String) (resp : dns.Msg) (srvValidated : V) (srv : dns.SRV) (w : World σ) :
    (SRVQuery.body c domainname resp srvValidated srv w).2.log =
      w.log ++ SRVQuery.callsFor resp srv := by
  unfold SRVQuery.body SRVQuery.callsFor
  by_cases h : (srv.Target != ".") = true
  · simp only [h, if_true, doCheck_log, getServiceIPs_log]
    simp
  · simp [h]

theorem SRVQuery_lookupsOf_callsFor (resp : dns.Msg) (srv : dns.SRV) :
    lookupsOf (SRVQuery.callsFor resp srv) = [] := by
  unfold SRVQuery.callsFor
  split_ifs <;> simp [lookupsOf, Call.asLookup]

theorem SRVQuery_checksOf_callsFor (resp : dns.Msg) (srv : dns.SRV) :
    checksOf (SRVQuery.callsFor resp srv) = SRVQuery.checksFor srv := by
  unfold SRVQuery.callsFor SRVQuery.checksFor
  split_ifs <;> simp [checksOf, Call.asCheck]

theorem SRVQuery_getIPsOf_callsFor (resp : dns.Msg) (srv : dns.SRV) :
    getIPsOf (SRVQuery.callsFor resp srv) = SRVQuery.getIPsFor resp srv := by
  unfold SRVQuery.callsFor SRVQuery.getIPsFor
  split_ifs <;> simp_all [getIPsOf, Call.asGetIPs]

/-- The calls of the loop of `SRVQuery`: those of each answer, in answer order. -/
theorem SRVQuery_loop_log {σ V : Type} [Inhabited V] (c : resolv.Client σ V)
    (domainname : String) (resp : dns.Msg) (srvValidated : V) (srvs : List dns.SRV) :
    ∀ (results : Slice (ServiceInstanceInfoX V)) (w : World σ),
      (SRVQuery.loop c domainname resp srvValidated srvs results w).2.log =
        w.log ++ srvs.flatMap (SRVQuery.callsFor resp) := by
  induction srvs with
  | nil => intro results w; simp [SRVQuery.loop]
  | cons srv rest ih =>
    intro results w
    simp only [SRVQuery.loop, ih, SRVQuery_body_log, List.flatMap_cons, List.append_assoc]

/-- The length of what the loop of `SRVQuery` returns. -/
theorem SRVQuery_loop_len {σ V : Type} [Inhabited V] (c : resolv.Client σ V)
    (domainname : String) (resp : dns.Msg) (srvValidated : V) (srvs : List dns.SRV) :
    ∀ (results : Slice (ServiceInstanceInfoX V)) (w : World σ),
      (SRVQuery.loop c domainname resp srvValidated srvs results w).1.len =
        results.len + srvs.length := by
  induction srvs with
  | nil => intro results w; simp [SRVQuery.loop]
  | cons srv rest ih =>
    intro results w
    simp only [SRVQuery.loop]
    rw [ih]
    simp only [Slice.append, Slice.len, Slice.elems, List.length_append,
      List.length_cons, List.length_nil]
    omega

/-- The loop of `SRVQuery` returns the nil slice only when it started from the nil slice
and there was no answer. -/
theorem SRVQuery_loop_isNil {σ V : Type} [Inhabited V] (c : resolv.Client σ V)
    (domainname : String) (resp : dns.Msg) (srvValidated : V) (srvs : List dns.SRV) :
    ∀ (results : Slice (ServiceInstanceInfoX V)) (w : World σ),
      (SRVQuery.loop c domainname resp srvValidated srvs results w).1.isNil =
        (results.isNil && srvs.isEmpty) := by
  induction srvs with
  | nil => intro results w; simp [SRVQuery.loop]
  | cons srv rest ih =>
    intro results w
    simp only [SRVQuery.loop]
    rw [ih]
    simp [Slice.append, Slice.isNil]

/-- An invariant of the elements carried through the loop of `SRVQuery`. -/
theorem SRVQuery_loop_forall {σ V : Type} [Inhabited V] (c : resolv.Client σ V)
    (domainname : String) (resp : dns.Msg) (srvValidated : V)
    (P : ServiceInstanceInfoX V → Prop) (srvs : List dns.SRV)
    (hbody : ∀ srv ∈ srvs, ∀ w : World σ,
      P (SRVQuery.body c domainname resp srvValidated srv w).1) :
    ∀ (results : Slice (ServiceInstanceInfoX V)) (w : World σ),
      (∀ x ∈ results.elems, P x) →
      ∀ x ∈ (SRVQuery.loop c domainname resp srvValidated srvs results w).1.elems, P x := by
  induction srvs with
  | nil => intro results w h; simpa [SRVQuery.loop] using h
  | cons srv rest ih =>
    intro results w h
    simp only [SRVQuery.loop]
    apply ih (fun s hs => hbody s (List.mem_cons_of_mem _ hs))
    intro x hx
    simp only [Slice.append, Slice.elems, List.mem_append, List.mem_singleton] at hx
    rcases hx with hx | hx
    · exact h x hx
    · rw [hx]; exact hbody srv (List.mem_cons_self _ _) w

/-! ## `SRVQuery` as a whole -/

/-- The world in which the loop of `SRVQuery` starts, and the SRV status it fans out. -/
theorem SRVQuery_ok {σ V : Type} [Inhabited V] (c : resolv.Client σ V) (domainname : String)
    (validate : Bool) (w : World σ) (resp : dns.Msg)
    (h : (c.Lookup domainname dns.TypeSRV w.st).1 = Except.ok resp) :
    SRVQuery c domainname validate w =
      SRVQuery.loop c domainname resp
        (if validate then doCheck c domainname dns.TypeSRV (doLookup c domainname dns.TypeSRV w).2
          else (default, (doLookup c domainname dns.TypeSRV w).2)).1
        (resolv.CollectRRs dns.RR.asSRV resp.Answer) Slice.nil
        (if validate then doCheck c domainname dns.TypeSRV (doLookup c domainname dns.TypeSRV w).2
          else (default, (doLookup c domainname dns.TypeSRV w).2)).2 := by
  unfold SRVQuery
  have hd : doLookup c domainname dns.TypeSRV w =
      (Except.ok resp, (doLookup c domainname dns.TypeSRV w).2) := by
    simp [doLookup, h]
  rw [hd]

/-- A failed SRV lookup ends `SRVQuery` with the nil slice. -/
theorem SRVQuery_error {σ V : Type} [Inhabited V] (c : resolv.Client σ V) (domainname : String)
    (validate : Bool) (w : World σ) (e : String)
    (h : (c.Lookup domainname dns.TypeSRV w.st).1 = Except.error e) :
    SRVQuery c domainname validate w = (Slice.nil, (doLookup c domainname dns.TypeSRV w).2) := by
  unfold SRVQuery
  have hd : doLookup c domainname dns.TypeSRV w =
      (Except.error e, (doLookup c domainname dns.TypeSRV w).2) := by
    simp [doLookup, h]
  rw [hd]

/-- The calls of a successful `SRVQuery`, in call order. -/
theorem SRVQuery_log_ok {σ V : Type} [Inhabited V] (c : resolv.Client σ V) (domainname : String)
    (validate : Bool) (w : World σ) (resp : dns.Msg)
    (h : (c.Lookup domainname dns.TypeSRV w.st).1 = Except.ok resp) :
    (SRVQuery c domainname validate w).2.log =
      w.log ++ ([Call.Lookup domainname dns.TypeSRV] ++
        ((if validate then [Call.CheckDNSSECValidation domainname dns.TypeSRV] else []) ++
          (resolv.CollectRRs dns.RR.asSRV resp.Answer).flatMap (SRVQuery.callsFor resp))) := by
  rw [SRVQuery_ok c domainname validate w resp h, SRVQuery_loop_log]
  cases validate <;> simp [doCheck_log, doLookup_log]

/-- The calls of a failed `SRVQuery`. -/
theorem SRVQuery_log_error {σ V : Type} [Inhabited V] (c : resolv.Client σ V)
    (domainname : String) (validate : Bool) (w : World σ) (e : String)
    (h : (c.Lookup domainname dns.TypeSRV w.st).1 = Except.error e) :
    (SRVQuery c domainname validate w).2.log = w.log ++ [Call.Lookup domainname dns.TypeSRV] := by
  rw [SRVQuery_error c domainname validate w e h, doLookup_log]

theorem lookupsOf_flatMap_callsFor (resp : dns.Msg) (srvs : List dns.SRV) :
    lookupsOf (srvs.flatMap (SRVQuery.callsFor resp)) = [] := by
  induction srvs with
  | nil => simp [lookupsOf]
  | cons srv rest ih => simp [List.flatMap_cons, ih, SRVQuery_lookupsOf_callsFor]

theorem checksOf_flatMap_callsFor (resp : dns.Msg) (srvs : List dns.SRV) :
    checksOf (srvs.flatMap (SRVQuery.callsFor resp)) = srvs.flatMap SRVQuery.checksFor := by
  induction srvs with
  | nil => simp [checksOf]
  | cons srv rest ih => simp [List.flatMap_cons, ih, SRVQuery_checksOf_callsFor]

theorem getIPsOf_flatMap_callsFor (resp : dns.Msg) (srvs : List dns.SRV) :
    getIPsOf (srvs.flatMap (SRVQuery.callsFor resp)) =
      srvs.flatMap (SRVQuery.getIPsFor resp) := by
  induction srvs with
  | nil => simp [getIPsOf]
  | cons srv rest ih => simp [List.flatMap_cons, ih, SRVQuery_getIPsOf_callsFor]

/-- Every `SRVQuery` makes exactly one lookup: the SRV lookup of its argument. -/
theorem SRVQuery_lookups {σ V : Type} [Inhabited V] (c : resolv.Client σ V)
    (domainname : String) (validate : Bool) (w : World σ) :
    lookupsOf (SRVQuery c domainname validate w).2.log =
      lookupsOf w.log ++ [(domainname, dns.TypeSRV)] := by
  rcases hl : (c.Lookup domainname dns.TypeSRV w.st).1 with e | resp
  · rw [SRVQuery_log_error c domainname validate w e hl]
    simp [lookupsOf, Call.asLookup]
  · rw [SRVQuery_log_ok c domainname validate w resp hl]
    simp only [lookupsOf_append, lookupsOf_flatMap_callsFor]
    cases validate <;> simp [lookupsOf, Call.asLookup]

theorem SRVQuery_not_mem_getIPsFor_root (resp : dns.Msg) (srvs : List dns.SRV) :
    "." ∉ srvs.flatMap (SRVQuery.getIPsFor resp) := by
  intro hm
  obtain ⟨srv, _, hs⟩ := List.mem_flatMap.1 hm
  unfold SRVQuery.getIPsFor at hs
  split_ifs at hs with hc
  · simp only [List.mem_singleton] at hs
    simp [← hs] at hc
  · simp at hs

theorem SRVQuery_not_mem_checksFor_root (qtype : Nat) (srvs : List dns.SRV) :
    (".", qtype) ∉ srvs.flatMap SRVQuery.checksFor := by
  intro hm
  obtain ⟨srv, _, hs⟩ := List.mem_flatMap.1 hm
  unfold SRVQuery.checksFor at hs
  split_ifs at hs with hc
  · simp only [List.mem_cons, Prod.mk.injEq, List.mem_singleton, List.not_mem_nil,
      or_false] at hs
    rcases hs with ⟨ht, _⟩ | ⟨ht, _⟩ <;> simp [← ht] at hc
  · simp at hs

/-- The DNSSEC checks of a successful `SRVQuery`, in call order. -/
theorem SRVQuery_checks_ok {σ V : Type} [Inhabited V] (c : resolv.Client σ V)
    (domainname : String) (validate : Bool) (w : World σ) (resp : dns.Msg)
    (h : (c.Lookup domainname dns.TypeSRV w.st).1 = Except.ok resp) :
    checksOf (SRVQuery c domainname validate w).2.log =
      checksOf w.log ++ ((if validate then [(domainname, dns.TypeSRV)] else []) ++
        (resolv.CollectRRs dns.RR.asSRV resp.Answer).flatMap SRVQuery.checksFor) := by
  rw [SRVQuery_log_ok c domainname validate w resp h]
  simp only [checksOf_append, checksOf_flatMap_callsFor]
  cases validate <;> simp [checksOf, Call.asCheck]

/-- The fallback address lookups of a successful `SRVQuery`, in call order. -/
theorem SRVQuery_getIPs_ok {σ V : Type} [Inhabited V] (c : resolv.Client σ V)
    (domainname : String) (validate : Bool) (w : World σ) (resp : dns.Msg)
    (h : (c.Lookup domainname dns.TypeSRV w.st).1 = Except.ok resp) :
    getIPsOf (SRVQuery c domainname validate w).2.log =
      getIPsOf w.log ++
        (resolv.CollectRRs dns.RR.asSRV resp.Answer).flatMap (SRVQuery.getIPsFor resp) := by
  rw [SRVQuery_log_ok c domainname validate w resp h]
  simp only [getIPsOf_append, getIPsOf_flatMap_callsFor]
  cases validate <;> simp [getIPsOf, Call.asGetIPs]

/-! ## C3: the "no service" target -/

/-- C3: every instance `SRVQuery` returns with Target "." has no address and the zero
A and AAAA status, and the query adds no `GetIPs` call, no A-type check and no AAAA-type
check for "." to the log, whatever the validate flag and whatever the collaborators
answer. -/
theorem SRVQuery_no_service_sentinel {σ V : Type} [Inhabited V] (c : resolv.Client σ V)
    (domainname : String) (validate : Bool) (w : World σ) :
    (∀ x ∈ (SRVQuery c domainname validate w).1.elems, x.Target = "." →
      x.Addrs = Slice.nil ∧ x.Addrs.len = 0 ∧ x.AValidated = default ∧
        x.AAAAValidated = default) ∧
    (getIPsOf (SRVQuery c domainname validate w).2.log).count "." =
      (getIPsOf w.log).count "." ∧
    (checksOf (SRVQuery c domainname validate w).2.log).count (".", dns.TypeA) =
      (checksOf w.log).count (".", dns.TypeA) ∧
    (checksOf (SRVQuery c domainname validate w).2.log).count (".", dns.TypeAAAA) =
      (checksOf w.log).count (".", dns.TypeAAAA) := by
  rcases hl : (c.Lookup domainname dns.TypeSRV w.st).1 with e | resp
  · rw [SRVQuery_error c domainname validate w e hl]
    simp [Slice.elems, doLookup_log, getIPsOf, checksOf, Call.asGetIPs, Call.asCheck]
  · refine ⟨?_, ?_, ?_, ?_⟩
    · rw [SRVQuery_ok c domainname validate w resp hl]
      apply SRVQuery_loop_forall
      · intro srv _ w1 ht
        unfold SRVQuery.body at ht ⊢
        by_cases hc : srv.Target = "."
        · simp [hc, Slice.len, Slice.elems]
        · simp [hc] at ht
      · intro x hx
        simp [Slice.elems] at hx
    · rw [SRVQuery_getIPs_ok c domainname validate w resp hl, List.count_append,
        List.count_eq_zero.2 (SRVQuery_not_mem_getIPsFor_root resp _)]
      rfl
    · rw [SRVQuery_checks_ok c domainname validate w resp hl, List.count_append,
        List.count_append, List.count_eq_zero.2 (SRVQuery_not_mem_checksFor_root _ _)]
      cases validate <;> simp [dns.TypeA, dns.TypeSRV]
    · rw [SRVQuery_checks_ok c domainname validate w resp hl, List.count_append,
        List.count_append, List.count_eq_zero.2 (SRVQuery_not_mem_checksFor_root _ _)]
      cases validate <;> simp [dns.TypeAAAA, dns.TypeSRV]

/-! ## C4: the validate flag and the A / AAAA checks -/

/-- C4, at the failing input: with validate false, the SRV query of
`_sip._tcp.example.com` (one answer, target `sip1.example.com`) still makes the A-type
and the AAAA-type DNSSEC check for the target, and the returned instance carries their
results (1, not the zero value) as its A and AAAA status. -/
theorem SRVQuery_checks_without_validate :
    checksOf (SRVQuery sampleClient "_sip._tcp.example.com" false World.init).2.log =
      [("sip1.example.com", dns.TypeA), ("sip1.example.com", dns.TypeAAAA)] ∧
    (SRVQuery sampleClient "_sip._tcp.example.com" false World.init).1.elems.map
      (fun x => (x.SrvValidated, x.SRVValidated, x.AValidated, x.AAAAValidated)) =
        [(0, 0, 1, 1)] := by
  decide

/-! ## C5: when `SRVQuery` returns the nil slice -/

/-- C5, the claim as stated fails: a successful SRV lookup whose answer section has no
SRV record makes `SRVQuery` return the nil slice, not an empty non-nil one. -/
theorem SRVQuery_nil_on_empty_answer :
    (emptyAnswerClient.Lookup "_sip._tcp.example.com" dns.TypeSRV World.init.st).1 =
      Except.ok ⟨[], []⟩ ∧
    (SRVQuery emptyAnswerClient "_sip._tcp.example.com" true World.init).1 = Slice.nil ∧
    (SRVQuery emptyAnswerClient "_sip._tcp.example.com" true World.init).1.isNil = true :=
  ⟨rfl, rfl, rfl⟩

/-- When `SRVQuery` returns the nil slice. -/
theorem SRVQuery_isNil {σ V : Type} [Inhabited V] (c : resolv.Client σ V)
    (domainname : String) (validate : Bool) (w : World σ) :
    (SRVQuery c domainname validate w).1.isNil =
      (match (c.Lookup domainname dns.TypeSRV w.st).1 with
        | Except.error _ => true
        | Except.ok resp => (resolv.CollectRRs dns.RR.asSRV resp.Answer).isEmpty) := by
  rcases hl : (c.Lookup domainname dns.TypeSRV w.st).1 with e | resp
  · rw [SRVQuery_error c domainname validate w e hl]
    simp [Slice.isNil]
  · rw [SRVQuery_ok c domainname validate w resp hl, SRVQuery_loop_isNil]
    simp [Slice.isNil]

/-- The length of what `SRVQuery` returns. -/
theorem SRVQuery_len {σ V : Type} [Inhabited V] (c : resolv.Client σ V)
    (domainname : String) (validate : Bool) (w : World σ) :
    (SRVQuery c domainname validate w).1.len =
      (match (c.Lookup domainname dns.TypeSRV w.st).1 with
        | Except.error _ => 0
        | Except.ok resp => (resolv.CollectRRs dns.RR.asSRV resp.Answer).length) := by
  rcases hl : (c.Lookup domainname dns.TypeSRV w.st).1 with e | resp
  · rw [SRVQuery_error c domainname validate w e hl]
    simp [Slice.len, Slice.elems]
  · rw [SRVQuery_ok c domainname validate w resp hl, SRVQuery_loop_len]
    simp [Slice.len, Slice.elems]

/-- What `SRVQuery` returns is the nil slice exactly when it is empty. -/
theorem SRVQuery_isNil_iff_len {σ V : Type} [Inhabited V] (c : resolv.Client σ V)
    (domainname : String) (validate : Bool) (w : World σ) :
    (SRVQuery c domainname validate w).1.isNil = true ↔
      (SRVQuery c domainname validate w).1.len = 0 := by
  rw [SRVQuery_isNil, SRVQuery_len]
  rcases (c.Lookup domainname dns.TypeSRV w.st).1 with e | resp
  · simp
  · simp [List.isEmpty_iff]

/-- C5, amended: `SRVQuery` returns the nil slice exactly when the SRV lookup fails or
the answer section holds no SRV record; a successful lookup with at least one SRV record
gives a non-nil slice, and the slice has one instance per SRV record. -/
theorem SRVQuery_absent_iff {σ V : Type} [Inhabited V] (c : resolv.Client σ V)
    (domainname : String) (validate : Bool) (w : World σ) :
    (SRVQuery c domainname validate w).1.isNil =
      (match (c.Lookup domainname dns.TypeSRV w.st).1 with
        | Except.error _ => true
        | Except.ok resp => (resolv.CollectRRs dns.RR.asSRV resp.Answer).isEmpty) ∧
    (SRVQuery c domainname validate w).1.len =
      (match (c.Lookup domainname dns.TypeSRV w.st).1 with
        | Except.error _ => 0
        | Except.ok resp => (resolv.CollectRRs dns.RR.asSRV resp.Answer).length) :=
  ⟨SRVQuery_isNil c domainname validate w, SRVQuery_len c domainname validate w⟩

/-! ## C2: glue first -/

/-- The target of the instance built by one iteration of `SRVQuery`. -/
theorem SRVQuery_body_target {σ V : Type} [Inhabited V] (c : resolv.Client σ V)
    (domainname : String) (resp : dns.Msg) (srvValidated : V) (srv : dns.SRV) (w : World σ) :
    (SRVQuery.body c domainname resp srvValidated srv w).1.Target = srv.Target := by
  unfold SRVQuery.body
  by_cases ht : srv.Target = "." <;> simp [ht]

/-- The addresses of the instance built by one iteration of `SRVQuery`. -/
theorem SRVQuery_body_addrs {σ V : Type} [Inhabited V] (c : resolv.Client σ V)
    (domainname : String) (resp : dns.Msg) (srvValidated : V) (srv : dns.SRV) (w : World σ)
    (ht : srv.Target ≠ ".") :
    (SRVQuery.body c domainname resp srvValidated srv w).1.Addrs =
      (getServiceIPs c srv.Target resp w).1 := by
  unfold SRVQuery.body
  simp [ht]

/-- The targets of the instances the loop of `SRVQuery` returns. -/
theorem SRVQuery_loop_targets {σ V : Type} [Inhabited V] (c : resolv.Client σ V)
    (domainname : String) (resp : dns.Msg) (srvValidated : V) (srvs : List dns.SRV) :
    ∀ (results : Slice (ServiceInstanceInfoX V)) (w : World σ),
      (SRVQuery.loop c domainname resp srvValidated srvs results w).1.elems.map
          (fun x => x.Target) =
        results.elems.map (fun x => x.Target) ++ srvs.map (fun srv => srv.Target) := by
  induction srvs with
  | nil => intro results w; simp [SRVQuery.loop]
  | cons srv rest ih =>
    intro results w
    simp only [SRVQuery.loop]
    rw [ih]
    simp [Slice.append, Slice.elems, SRVQuery_body_target]

theorem getServiceIPs_scanA_elems (srvTarget : String) (as : List dns.A) :
    ∀ addrs : Slice netip.Addr, (getServiceIPs.scanA srvTarget as addrs).elems =
      addrs.elems ++ as.filterMap
        (fun a => if a.Hdr.Name = srvTarget then netip.AddrFromSlice a.A else none) := by
  induction as with
  | nil => intro addrs; simp [getServiceIPs.scanA]
  | cons a rest ih =>
    intro addrs
    unfold getServiceIPs.scanA
    by_cases hn : a.Hdr.Name = srvTarget
    · cases hc : netip.AddrFromSlice a.A with
      | none => simp [hn, hc, ih]
      | some addr =>
        simp only [hn, bne_self_eq_false, Bool.false_eq_true, if_false, hc]
        rw [ih, List.filterMap_cons]
        simp [hn, hc, Slice.append, Slice.elems]
    · simp [hn, ih]

theorem getServiceIPs_scanAAAA_elems (srvTarget : String) (aaaas : List dns.AAAA) :
    ∀ addrs : Slice netip.Addr, (getServiceIPs.scanAAAA srvTarget aaaas addrs).elems =
      addrs.elems ++ aaaas.filterMap
        (fun aaaa => if aaaa.Hdr.Name = srvTarget then netip.AddrFromSlice aaaa.AAAA
          else none) := by
  induction aaaas with
  | nil => intro addrs; simp [getServiceIPs.scanAAAA]
  | cons a rest ih =>
    intro addrs
    unfold getServiceIPs.scanAAAA
    by_cases hn : a.Hdr.Name = srvTarget
    · cases hc : netip.AddrFromSlice a.AAAA with
      | none => simp [hn, hc, ih]
      | some addr =>
        simp only [hn, bne_self_eq_false, Bool.false_eq_true, if_false, hc]
        rw [ih, List.filterMap_cons]
        simp [hn, hc, Slice.append, Slice.elems]
    · simp [hn, ih]

/-- The elements of the glue slice. -/
theorem getServiceIPs_glue_elems (srvTarget : String) (resp : dns.Msg) :
    (getServiceIPs.glue srvTarget resp).elems = getServiceIPs.glueMatches srvTarget resp := by
  unfold getServiceIPs.glue getServiceIPs.glueMatches
  rw [getServiceIPs_scanAAAA_elems, getServiceIPs_scanA_elems]
  simp [Slice.elems]

/-- With glue at hand `getServiceIPs` returns it and makes no call. -/
theorem getServiceIPs_of_glue {σ V : Type} (c : resolv.Client σ V) (srvTarget : String)
    (resp : dns.Msg) (w : World σ) (h : 0 < (getServiceIPs.glue srvTarget resp).len) :
    getServiceIPs c srvTarget resp w = (getServiceIPs.glue srvTarget resp, w) := by
  unfold getServiceIPs
  have h0 : ((getServiceIPs.glue srvTarget resp).len == 0) = false := by
    simp; omega
  simp [h0]

/-- Without glue `getServiceIPs` is the address lookup, an error giving the nil slice. -/
theorem getServiceIPs_of_no_glue {σ V : Type} (c : resolv.Client σ V) (srvTarget : String)
    (resp : dns.Msg) (w : World σ) (h : (getServiceIPs.glue srvTarget resp).len = 0) :
    getServiceIPs c srvTarget resp w =
      ((match (c.GetIPs srvTarget w.st).1 with
        | (_, some _) => Slice.nil
        | (addrs, none) => addrs), (doGetIPs c srvTarget w).2) := by
  unfold getServiceIPs
  simp only [h, beq_self_eq_true, if_true]
  rcases hq : (c.GetIPs srvTarget w.st).1 with ⟨a, e⟩
  have hd : doGetIPs c srvTarget w = ((a, e), (doGetIPs c srvTarget w).2) := by
    simp [doGetIPs, hq]
  rw [hd]
  cases e <;> rfl

/-- A matching record whose bytes convert makes the glue non-empty. -/
theorem getServiceIPs_glue_len_pos (srvTarget : String) (resp : dns.Msg)
    (hg : (∃ a ∈ resolv.CollectRRs dns.RR.asA resp.Extra,
        a.Hdr.Name = srvTarget ∧ (netip.AddrFromSlice a.A).isSome = true) ∨
      (∃ aaaa ∈ resolv.CollectRRs dns.RR.asAAAA resp.Extra,
        aaaa.Hdr.Name = srvTarget ∧ (netip.AddrFromSlice aaaa.AAAA).isSome = true)) :
    0 < (getServiceIPs.glue srvTarget resp).len := by
  unfold Slice.len
  rw [getServiceIPs_glue_elems, getServiceIPs.glueMatches, List.length_append]
  rcases hg with ⟨a, ha, hn, hs⟩ | ⟨a, ha, hn, hs⟩
  · obtain ⟨addr, haddr⟩ := Option.isSome_iff_exists.1 hs
    have hm : addr ∈ (resolv.CollectRRs dns.RR.asA resp.Extra).filterMap
        (fun a => if a.Hdr.Name = srvTarget then netip.AddrFromSlice a.A else none) :=
      List.mem_filterMap.2 ⟨a, ha, by simp [hn, haddr]⟩
    have := List.length_pos_of_mem hm
    omega
  · obtain ⟨addr, haddr⟩ := Option.isSome_iff_exists.1 hs
    have hm : addr ∈ (resolv.CollectRRs dns.RR.asAAAA resp.Extra).filterMap
        (fun a => if a.Hdr.Name = srvTarget then netip.AddrFromSlice a.AAAA else none) :=
      List.mem_filterMap.2 ⟨a, ha, by simp [hn, haddr]⟩
    have := List.length_pos_of_mem hm
    omega

/-- C2, the claim as stated fails: the additional section holds an A record owned by
the target, its address data has length 0, `netip.AddrFromSlice` rejects it, and the
fallback `GetIPs` is called for the target. -/
theorem SRVQuery_short_glue_falls_back :
    (∃ a ∈ resolv.CollectRRs dns.RR.asA shortGlueResponse.Extra,
      a.Hdr.Name = "sip1.example.com") ∧
    (∃ srv ∈ resolv.CollectRRs dns.RR.asSRV shortGlueResponse.Answer,
      srv.Target = "sip1.example.com" ∧ srv.Target ≠ ".") ∧
    (shortGlueClient.Lookup "_sip._tcp.example.com" dns.TypeSRV World.init.st).1 =
      Except.ok shortGlueResponse ∧
    getIPsOf (SRVQuery shortGlueClient "_sip._tcp.example.com" true World.init).2.log =
      ["sip1.example.com"] ∧
    getServiceIPs.glueMatches "sip1.example.com" shortGlueResponse = [] := by
  refine ⟨by decide, by decide, rfl, by decide, by decide⟩

/-- C2, amended: for a successful SRV lookup and an SRV answer with Target other than
"." whose target owns, in the additional section, an A or AAAA record whose address
bytes `netip.AddrFromSlice` accepts: `getServiceIPs` makes no call at all for that target,
the query adds no `GetIPs` call for the target to the log, and every returned instance
with that Target has the collected glue matches as Addrs, a non-empty list. -/
theorem SRVQuery_glue_first {σ V : Type} [Inhabited V] (c : resolv.Client σ V)
    (domainname : String) (validate : Bool) (w : World σ) (resp : dns.Msg) (srv : dns.SRV)
    (h : (c.Lookup domainname dns.TypeSRV w.st).1 = Except.ok resp)
    (hsrv : srv ∈ resolv.CollectRRs dns.RR.asSRV resp.Answer) (ht : srv.Target ≠ ".")
    (hg : (∃ a ∈ resolv.CollectRRs dns.RR.asA resp.Extra,
        a.Hdr.Name = srv.Target ∧ (netip.AddrFromSlice a.A).isSome = true) ∨
      (∃ aaaa ∈ resolv.CollectRRs dns.RR.asAAAA resp.Extra,
        aaaa.Hdr.Name = srv.Target ∧ (netip.AddrFromSlice aaaa.AAAA).isSome = true)) :
    (∀ w1 : World σ, (getServiceIPs c srv.Target resp w1).2 = w1) ∧
    (getIPsOf (SRVQuery c domainname validate w).2.log).count srv.Target =
      (getIPsOf w.log).count srv.Target ∧
    (∃ x ∈ (SRVQuery c domainname validate w).1.elems, x.Target = srv.Target) ∧
    (∀ x ∈ (SRVQuery c domainname validate w).1.elems, x.Target = srv.Target →
      x.Addrs.elems = getServiceIPs.glueMatches srv.Target resp ∧ 0 < x.Addrs.len) := by
  have hpos := getServiceIPs_glue_len_pos srv.Target resp hg
  refine ⟨?_, ?_, ?_, ?_⟩
  · intro w1
    rw [getServiceIPs_of_glue c srv.Target resp w1 hpos]
  · rw [SRVQuery_getIPs_ok c domainname validate w resp h, List.count_append]
    have hn : srv.Target ∉ (resolv.CollectRRs dns.RR.asSRV resp.Answer).flatMap
        (SRVQuery.getIPsFor resp) := by
      intro hm
      obtain ⟨s2, _, hs⟩ := List.mem_flatMap.1 hm
      unfold SRVQuery.getIPsFor at hs
      split_ifs at hs with hc
      · simp only [List.mem_singleton] at hs
        rw [← hs] at hc
        simp at hc
        omega
      · simp at hs
    rw [List.count_eq_zero.2 hn]
    rfl
  · have hm : srv.Target ∈ (SRVQuery c domainname validate w).1.elems.map
        (fun x => x.Target) := by
      rw [SRVQuery_ok c domainname validate w resp h, SRVQuery_loop_targets]
      exact List.mem_append_right _ (List.mem_map_of_mem _ hsrv)
    obtain ⟨x, hx, hxt⟩ := List.mem_map.1 hm
    exact ⟨x, hx, hxt⟩
  · rw [SRVQuery_ok c domainname validate w resp h]
    apply SRVQuery_loop_forall
    · intro s2 _ w1 hx
      rw [SRVQuery_body_target] at hx
      rw [SRVQuery_body_addrs _ _ _ _ _ _ (hx ▸ ht), hx,
        getServiceIPs_of_glue c srv.Target resp w1 hpos]
      exact ⟨getServiceIPs_glue_elems _ _, hpos⟩
    · intro x hx
      simp [Slice.elems] at hx

/-- C2, amended, at `sampleClient`: the SRV answer for `_sip._tcp.example.com` has target
`sip1.example.com`, the additional section has its A record 192.0.2.1. -/
theorem SRVQuery_glue_first_witness :
    ((sampleClient.Lookup "_sip._tcp.example.com" dns.TypeSRV World.init.st).1 =
      Except.ok sipResponse ∧
     sipSRV ∈ resolv.CollectRRs dns.RR.asSRV sipResponse.Answer ∧ sipSRV.Target ≠ ".") ∧
    ((∀ w1 : World Unit, (getServiceIPs sampleClient sipSRV.Target sipResponse w1).2 = w1) ∧
     (getIPsOf (SRVQuery sampleClient "_sip._tcp.example.com" true World.init).2.log).count
        sipSRV.Target = (getIPsOf World.init.log).count sipSRV.Target ∧
     (∃ x ∈ (SRVQuery sampleClient "_sip._tcp.example.com" true World.init).1.elems,
        x.Target = sipSRV.Target) ∧
     (∀ x ∈ (SRVQuery sampleClient "_sip._tcp.example.com" true World.init).1.elems,
        x.Target = sipSRV.Target →
        x.Addrs.elems = getServiceIPs.glueMatches sipSRV.Target sipResponse ∧
          0 < x.Addrs.len)) :=
  ⟨⟨rfl, by decide, by decide⟩,
   SRVQuery_glue_first sampleClient "_sip._tcp.example.com" true World.init sipResponse sipSRV
    rfl (by decide) (by decide) (Or.inl ⟨⟨⟨"sip1.example.com"⟩, [192, 0, 2, 1]⟩,
      by decide, by decide, by decide⟩)⟩

/-! ## C10: a failed fallback lookup is not fatal -/

/-- C10: in the list a successful `SRVQuery` returns there is one instance per SRV
answer, in answer order, whatever the address lookups answer.  The instance of an answer
with Target other than "." for which the additional section gave no glue address has as
Addrs the list `GetIPs` returned for the Target (called in the world in which `SRVQuery`
comes to that answer) when `GetIPs` succeeded, and the nil (empty) slice when it failed;
with glue the Addrs are the glue, and for the Target "." they are nil. -/
theorem SRVQuery_fallback_nonfatal {σ V : Type} [Inhabited V] (c : resolv.Client σ V)
    (domainname : String) (validate : Bool) (w : World σ) (resp : dns.Msg)
    (h : (c.Lookup domainname dns.TypeSRV w.st).1 = Except.ok resp) :
    (SRVQuery c domainname validate w).1.elems.map (fun x => (x.Target, x.Addrs)) =
      (SRVQuery.steps c resp (resolv.CollectRRs dns.RR.asSRV resp.Answer)
        (SRVQuery.start c domainname validate w)).map (fun p =>
          (p.1.Target,
            if p.1.Target = "." then Slice.nil
            else if 0 < (getServiceIPs.glue p.1.Target resp).len then
              getServiceIPs.glue p.1.Target resp
            else
              (match (c.GetIPs p.1.Target p.2.st).1 with
                | (_, some _) => Slice.nil
                | (addrs, none) => addrs))) ∧
    (SRVQuery c domainname validate w).1.len =
      (resolv.CollectRRs dns.RR.asSRV resp.Answer).length ∧
    (SRVQuery.steps c resp (resolv.CollectRRs dns.RR.asSRV resp.Answer)
      (SRVQuery.start c domainname validate w)).map Prod.fst =
        resolv.CollectRRs dns.RR.asSRV resp.Answer := by
  -- one iteration, read off the body of the loop and `getServiceIPs`
  have hbody : ∀ (sv : V) (srv : dns.SRV) (w1 : World σ),
      ((SRVQuery.body c domainname resp sv srv w1).1.Target,
        (SRVQuery.body c domainname resp sv srv w1).1.Addrs) =
      (srv.Target,
        if srv.Target = "." then Slice.nil
        else if 0 < (getServiceIPs.glue srv.Target resp).len then
          getServiceIPs.glue srv.Target resp
        else
          (match (c.GetIPs srv.Target w1.st).1 with
            | (_, some _) => Slice.nil
            | (addrs, none) => addrs)) ∧
      (SRVQuery.body c domainname resp sv srv w1).2 = SRVQuery.after c resp srv w1 := by
    intro sv srv w1
    unfold SRVQuery.body SRVQuery.after getServiceIPs
    by_cases ht : srv.Target = "."
    · simp [ht]
    · by_cases hg : (getServiceIPs.glue srv.Target resp).len = 0
      · rcases hq : (c.GetIPs srv.Target w1.st).1 with ⟨a, e⟩
        have hd : doGetIPs c srv.Target w1 = ((a, e), (doGetIPs c srv.Target w1).2) := by
          simp [doGetIPs, hq]
        simp only [hg, beq_self_eq_true, if_true]
        rw [hd]
        cases e <;> simp [ht]
      · have hpos : 0 < (getServiceIPs.glue srv.Target resp).len := by omega
        simp [ht, hg, hpos]
  -- the loop over the answers
  have hloop : ∀ (sv : V) (srvs : List dns.SRV) (results : Slice (ServiceInstanceInfoX V))
      (w1 : World σ),
      (SRVQuery.loop c domainname resp sv srvs results w1).1.elems.map
          (fun x => (x.Target, x.Addrs)) =
        results.elems.map (fun x => (x.Target, x.Addrs)) ++
          (SRVQuery.steps c resp srvs w1).map (fun p =>
            (p.1.Target,
              if p.1.Target = "." then Slice.nil
              else if 0 < (getServiceIPs.glue p.1.Target resp).len then
                getServiceIPs.glue p.1.Target resp
              else
                (match (c.GetIPs p.1.Target p.2.st).1 with
                  | (_, some _) => Slice.nil
                  | (addrs, none) => addrs))) ∧
      (SRVQuery.loop c domainname resp sv srvs results w1).1.len =
        results.len + srvs.length := by
    intro sv srvs
    induction srvs with
    | nil => intro results w1; simp [SRVQuery.loop, SRVQuery.steps]
    | cons srv rest ih =>
      intro results w1
      obtain ⟨hb1, hb2⟩ := hbody sv srv w1
      simp only [SRVQuery.loop, SRVQuery.steps]
      rw [(ih _ _).1, (ih _ _).2, hb2]
      simp only [Slice.append, Slice.elems, Slice.len, List.map_append, List.map_cons,
        List.map_nil, List.append_assoc, List.singleton_append, List.length_append,
        List.length_cons, List.length_nil, hb1]
      exact ⟨trivial, by omega⟩
  -- the query itself
  have hd : doLookup c domainname dns.TypeSRV w =
      (Except.ok resp, (doLookup c domainname dns.TypeSRV w).2) := by
    simp [doLookup, h]
  have hq : SRVQuery c domainname validate w =
      SRVQuery.loop c domainname resp
        (if validate then doCheck c domainname dns.TypeSRV (doLookup c domainname dns.TypeSRV w).2
          else ((default : V), (doLookup c domainname dns.TypeSRV w).2)).1
        (resolv.CollectRRs dns.RR.asSRV resp.Answer) Slice.nil
        (SRVQuery.start c domainname validate w) := by
    unfold SRVQuery SRVQuery.start
    rw [hd]
    cases validate <;> rfl
  refine ⟨?_, ?_, ?_⟩
  · rw [hq, (hloop _ _ _ _).1]
    simp [Slice.elems]
  · rw [hq, (hloop _ _ _ _).2]
    simp [Slice.len, Slice.elems]
  · generalize SRVQuery.start c domainname validate w = w0
    generalize resolv.CollectRRs dns.RR.asSRV resp.Answer = srvs
    induction srvs generalizing w0 with
    | nil => rfl
    | cons srv rest ih => simp [SRVQuery.steps, ih]

/-- C10 at `fallbackClient`: two SRV answers without glue; the address lookup succeeds
for the first target and fails for the second, and both instances are returned. -/
theorem SRVQuery_fallback_nonfatal_witness :
    ((fallbackClient.Lookup "_sip._tcp.example.com" dns.TypeSRV World.init.st).1 =
      Except.ok noGlueResponse ∧
     (SRVQuery fallbackClient "_sip._tcp.example.com" true World.init).1.elems.map
        (fun x => (x.Target, x.Addrs)) =
      [("a.example.com", Slice.of [addr1]), ("b.example.com", Slice.nil)]) ∧
    ((SRVQuery fallbackClient "_sip._tcp.example.com" true World.init).1.elems.map
        (fun x => (x.Target, x.Addrs)) =
      (SRVQuery.steps fallbackClient noGlueResponse
        (resolv.CollectRRs dns.RR.asSRV noGlueResponse.Answer)
        (SRVQuery.start fallbackClient "_sip._tcp.example.com" true World.init)).map (fun p =>
          (p.1.Target,
            if p.1.Target = "." then Slice.nil
            else if 0 < (getServiceIPs.glue p.1.Target noGlueResponse).len then
              getServiceIPs.glue p.1.Target noGlueResponse
            else
              (match (fallbackClient.GetIPs p.1.Target p.2.st).1 with
                | (_, some _) => Slice.nil
                | (addrs, none) => addrs))) ∧
    (SRVQuery fallbackClient "_sip._tcp.example.com" true World.init).1.len =
      (resolv.CollectRRs dns.RR.asSRV noGlueResponse.Answer).length ∧
    (SRVQuery.steps fallbackClient noGlueResponse
      (resolv.CollectRRs dns.RR.asSRV noGlueResponse.Answer)
      (SRVQuery.start fallbackClient "_sip._tcp.example.com" true World.init)).map Prod.fst =
        resolv.CollectRRs dns.RR.asSRV noGlueResponse.Answer) :=
  ⟨⟨rfl, by decide⟩,
   SRVQuery_fallback_nonfatal fallbackClient "_sip._tcp.example.com" true World.init
    noGlueResponse rfl⟩

/-! ## `DoSRVProbe` -/

theorem GoMap_mem_keys_set {β : Type} (m : GoMap β) (k : String) (v : β) (s : String) :
    s ∈ (m.set k v).keys ↔ s = k ∨ s ∈ m.keys := by
  simp only [GoMap.set, GoMap.keys, List.map_cons, List.mem_cons, List.mem_map,
    List.mem_filter, bne_iff_ne, ne_eq]
  constructor
  · rintro (h | ⟨p, ⟨hp, _⟩, rfl⟩)
    · exact Or.inl h
    · exact Or.inr ⟨p, hp, rfl⟩
  · rintro (h | ⟨p, hp, rfl⟩)
    · exact Or.inl h
    · by_cases hk : p.1 = k
      · exact Or.inl hk
      · exact Or.inr ⟨p, ⟨hp, hk⟩, rfl⟩

theorem GoMap_lookup_filter_ne {β : Type} (m : List (String × β)) (k s : String) (hs : s ≠ k) :
    List.lookup s (m.filter (fun p => p.1 != k)) = List.lookup s m := by
  induction m with
  | nil => rfl
  | cons p rest ih =>
    rcases p with ⟨a, b⟩
    by_cases ha : a = k
    · have hsk : (s == k) = false := by simp [hs]
      simp [List.filter_cons, ha, List.lookup_cons, hsk, ih]
    · by_cases hsa : s = a
      · simp [List.filter_cons, ha, List.lookup_cons, hsa]
      · have hsa2 : (s == a) = false := by simp [hsa]
        simp [List.filter_cons, ha, List.lookup_cons, hsa2, ih]

theorem GoMap_get_set {β : Type} (m : GoMap β) (k : String) (v : β) (s : String) :
    (m.set k v).get s = if s = k then some v else m.get s := by
  by_cases hs : s = k
  · simp [GoMap.set, GoMap.get, List.lookup_cons, hs]
  · have hsk : (s == k) = false := by simp [hs]
    simp [GoMap.set, GoMap.get, List.lookup_cons, hsk, hs, GoMap_lookup_filter_ne m k s hs]

/-- The names queried by `DoSRVProbe` are the service names given. -/
theorem DoSRVProbe_queries_names {σ V : Type} [Inhabited V] (c : resolv.Client σ V)
    (domain : String) (validate : Bool) (names : List String) :
    ∀ w : World σ, (DoSRVProbe.queries c domain validate names w).map Prod.fst = names := by
  induction names with
  | nil => intro w; rfl
  | cons service rest ih => intro w; simp [DoSRVProbe.queries, ih]

/-- A service name whose query returns the nil slice is skipped. -/
theorem DoSRVProbe_loop_cons_nil {σ V : Type} [Inhabited V] (c : resolv.Client σ V)
    (domain : String) (validate : Bool) (service : String) (rest : List String)
    (r : SRVProbeResult V) (f : Bool) (w : World σ)
    (hn : (SRVQuery c (service ++ "." ++ domain) validate w).1.isNil = true) :
    DoSRVProbe.loop c domain validate (service :: rest) r f w =
      DoSRVProbe.loop c domain validate rest r f
        (SRVQuery c (service ++ "." ++ domain) validate w).2 := by
  simp [DoSRVProbe.loop, hn]

/-- A service name whose query returns a non-nil slice is stored and sets the flag. -/
theorem DoSRVProbe_loop_cons_found {σ V : Type} [Inhabited V] (c : resolv.Client σ V)
    (domain : String) (validate : Bool) (service : String) (rest : List String)
    (r : SRVProbeResult V) (f : Bool) (w : World σ)
    (hn : (SRVQuery c (service ++ "." ++ domain) validate w).1.isNil = false) :
    DoSRVProbe.loop c domain validate (service :: rest) r f w =
      DoSRVProbe.loop c domain validate rest
        ⟨r.Services.set service (SRVQuery c (service ++ "." ++ domain) validate w).1⟩ true
        (SRVQuery c (service ++ "." ++ domain) validate w).2 := by
  simp [DoSRVProbe.loop, hn]

/-- The found flag after the loop of `DoSRVProbe`. -/
theorem DoSRVProbe_loop_found {σ V : Type} [Inhabited V] (c : resolv.Client σ V)
    (domain : String) (validate : Bool) (names : List String) :
    ∀ (r : SRVProbeResult V) (f : Bool) (w : World σ),
      ((DoSRVProbe.loop c domain validate names r f w).1.2 = true ↔
        (f = true ∨ ∃ q ∈ DoSRVProbe.queries c domain validate names w,
          (SRVQuery c (q.1 ++ "." ++ domain) validate q.2).1.isNil = false)) := by
  induction names with
  | nil => intro r f w; simp [DoSRVProbe.loop, DoSRVProbe.queries]
  | cons service rest ih =>
    intro r f w
    rcases hn : (SRVQuery c (service ++ "." ++ domain) validate w).1.isNil
    swap
    · rw [DoSRVProbe_loop_cons_nil _ _ _ _ _ _ _ _ hn]
      simp only [ih, DoSRVProbe.queries, List.mem_cons]
      constructor
      · rintro (h | ⟨q, hq, hq2⟩)
        · exact Or.inl h
        · exact Or.inr ⟨q, Or.inr hq, hq2⟩
      · rintro (h | ⟨q, rfl | hq, hq2⟩)
        · exact Or.inl h
        · simp [hn] at hq2
        · exact Or.inr ⟨q, hq, hq2⟩
    · rw [DoSRVProbe_loop_cons_found _ _ _ _ _ _ _ _ hn]
      simp only [ih, DoSRVProbe.queries, List.mem_cons, true_or, true_iff]
      exact Or.inr ⟨(service, w), Or.inl rfl, hn⟩

/-- The keys of the map after the loop of `DoSRVProbe`. -/
theorem DoSRVProbe_loop_keys {σ V : Type} [Inhabited V] (c : resolv.Client σ V)
    (domain : String) (validate : Bool) (names : List String) :
    ∀ (r : SRVProbeResult V) (f : Bool) (w : World σ) (s : String),
      (s ∈ (DoSRVProbe.loop c domain validate names r f w).1.1.Services.keys ↔
        (s ∈ r.Services.keys ∨ ∃ q ∈ DoSRVProbe.queries c domain validate names w,
          q.1 = s ∧ (SRVQuery c (q.1 ++ "." ++ domain) validate q.2).1.isNil = false)) := by
  induction names with
  | nil => intro r f w s; simp [DoSRVProbe.loop, DoSRVProbe.queries]
  | cons service rest ih =>
    intro r f w s
    rcases hn : (SRVQuery c (service ++ "." ++ domain) validate w).1.isNil
    swap
    · rw [DoSRVProbe_loop_cons_nil _ _ _ _ _ _ _ _ hn]
      simp only [ih, DoSRVProbe.queries, List.mem_cons]
      constructor
      · rintro (h | ⟨q, hq, hq2⟩)
        · exact Or.inl h
        · exact Or.inr ⟨q, Or.inr hq, hq2⟩
      · rintro (h | ⟨q, rfl | hq, hq2⟩)
        · exact Or.inl h
        · simp [hn] at hq2
        · exact Or.inr ⟨q, hq, hq2⟩
    · rw [DoSRVProbe_loop_cons_found _ _ _ _ _ _ _ _ hn]
      simp only [ih, DoSRVProbe.queries, List.mem_cons, GoMap_mem_keys_set]
      constructor
      · rintro ((h | h) | ⟨q, hq, hq2⟩)
        · exact Or.inr ⟨(service, w), Or.inl rfl, h.symm, hn⟩
        · exact Or.inl h
        · exact Or.inr ⟨q, Or.inr hq, hq2⟩
      · rintro (h | ⟨q, rfl | hq, hq2⟩)
        · exact Or.inl (Or.inr h)
        · exact Or.inl (Or.inl hq2.1.symm)
        · exact Or.inr ⟨q, hq, hq2⟩

/-- The values of the map after the loop of `DoSRVProbe`. -/
theorem DoSRVProbe_loop_get {σ V : Type} [Inhabited V] (c : resolv.Client σ V)
    (domain : String) (validate : Bool) (names : List String) :
    ∀ (r : SRVProbeResult V) (f : Bool) (w : World σ) (s : String)
      (v : Slice (ServiceInstanceInfoX V)),
      (DoSRVProbe.loop c domain validate names r f w).1.1.Services.get s = some v →
        (r.Services.get s = some v ∨ ∃ q ∈ DoSRVProbe.queries c domain validate names w,
          q.1 = s ∧ v = (SRVQuery c (s ++ "." ++ domain) validate q.2).1 ∧
            v.isNil = false) := by
  induction names with
  | nil => intro r f w s v h; exact Or.inl (by simpa [DoSRVProbe.loop] using h)
  | cons service rest ih =>
    intro r f w s v h
    rcases hn : (SRVQuery c (service ++ "." ++ domain) validate w).1.isNil
    swap
    · rw [DoSRVProbe_loop_cons_nil _ _ _ _ _ _ _ _ hn] at h
      rcases ih _ _ _ _ _ h with h1 | ⟨q, hq, hq2⟩
      · exact Or.inl h1
      · exact Or.inr ⟨q, List.mem_cons_of_mem _ hq, hq2⟩
    · rw [DoSRVProbe_loop_cons_found _ _ _ _ _ _ _ _ hn] at h
      rcases ih _ _ _ _ _ h with h1 | ⟨q, hq, hq2⟩
      · rw [GoMap_get_set] at h1
        by_cases hs : s = service
        · simp only [hs, if_true, Option.some.injEq] at h1
          refine Or.inr ⟨(service, w), List.mem_cons_self _ _, hs.symm, ?_, ?_⟩
          · rw [hs]; exact h1.symm
          · rw [← h1]; exact hn
        · simp only [hs, if_false] at h1
          exact Or.inl h1
      · exact Or.inr ⟨q, List.mem_cons_of_mem _ hq, hq2⟩

/-- The result of `DoSRVProbe` is the map of its loop when the found flag is set. -/
theorem DoSRVProbe_eq_some {σ V : Type} [Inhabited V] (c : resolv.Client σ V)
    (domain : String) (serviceNames : List String) (validate : Bool) (w : World σ)
    (r : SRVProbeResult V) (h : (DoSRVProbe c domain serviceNames validate w).1 = some r) :
    (DoSRVProbe.loop c domain validate serviceNames (NewSRVProbeResult V) false w).1.2 = true ∧
    r = (DoSRVProbe.loop c domain validate serviceNames (NewSRVProbeResult V) false w).1.1 := by
  unfold DoSRVProbe at h
  rcases hf : (DoSRVProbe.loop c domain validate serviceNames (NewSRVProbeResult V)
    false w).1.2
  · simp [hf] at h
  · simp only [hf, if_true, Option.some.injEq] at h
    exact ⟨rfl, h.symm⟩

/-- The result of `DoSRVProbe` is present exactly when the found flag is set. -/
theorem DoSRVProbe_isSome {σ V : Type} [Inhabited V] (c : resolv.Client σ V)
    (domain : String) (serviceNames : List String) (validate : Bool) (w : World σ) :
    (DoSRVProbe c domain serviceNames validate w).1.isSome =
      (DoSRVProbe.loop c domain validate serviceNames (NewSRVProbeResult V) false w).1.2 := by
  unfold DoSRVProbe
  rcases hf : (DoSRVProbe.loop c domain validate serviceNames (NewSRVProbeResult V)
    false w).1.2 <;> simp [hf]

theorem SRVQuery_isNil_false_iff {σ V : Type} [Inhabited V] (c : resolv.Client σ V)
    (domainname : String) (validate : Bool) (w : World σ) :
    (SRVQuery c domainname validate w).1.isNil = false ↔
      0 < (SRVQuery c domainname validate w).1.len := by
  rw [← Bool.not_eq_true, SRVQuery_isNil_iff_len]
  omega

/-! ## C6: when `DoSRVProbe` returns a result -/

/-- C6: `DoSRVProbe` returns a present result exactly when the query for at least one
of the service names returned at least one instance; it returns nil exactly when every
query failed or had no SRV answer; for the empty list of names it returns nil. -/
theorem DoSRVProbe_present_iff {σ V : Type} [Inhabited V] (c : resolv.Client σ V)
    (domain : String) (serviceNames : List String) (validate : Bool) (w : World σ) :
    ((DoSRVProbe c domain serviceNames validate w).1.isSome = true ↔
      ∃ q ∈ DoSRVProbe.queries c domain validate serviceNames w,
        0 < (SRVQuery c (q.1 ++ "." ++ domain) validate q.2).1.len) ∧
    ((DoSRVProbe c domain serviceNames validate w).1 = none ↔
      ∀ q ∈ DoSRVProbe.queries c domain validate serviceNames w,
        (match (c.Lookup (q.1 ++ "." ++ domain) dns.TypeSRV q.2.st).1 with
          | Except.error _ => true
          | Except.ok resp => (resolv.CollectRRs dns.RR.asSRV resp.Answer).isEmpty) = true) ∧
    (DoSRVProbe c domain [] validate w).1 = none := by
  have h1 : (DoSRVProbe c domain serviceNames validate w).1.isSome = true ↔
      ∃ q ∈ DoSRVProbe.queries c domain validate serviceNames w,
        (SRVQuery c (q.1 ++ "." ++ domain) validate q.2).1.isNil = false := by
    rw [DoSRVProbe_isSome, DoSRVProbe_loop_found]
    simp
  refine ⟨?_, ?_, ?_⟩
  · rw [h1]
    constructor
    · rintro ⟨q, hq, hn⟩
      exact ⟨q, hq, (SRVQuery_isNil_false_iff _ _ _ _).1 hn⟩
    · rintro ⟨q, hq, hn⟩
      exact ⟨q, hq, (SRVQuery_isNil_false_iff _ _ _ _).2 hn⟩
  · rw [← Option.not_isSome_iff_eq_none, h1]
    constructor
    · intro hne q hq
      rw [← SRVQuery_isNil c (q.1 ++ "." ++ domain) validate q.2]
      by_contra hc
      exact hne ⟨q, hq, by simpa using hc⟩
    · rintro hall ⟨q, hq, hn⟩
      have := hall q hq
      rw [← SRVQuery_isNil c (q.1 ++ "." ++ domain) validate q.2, hn] at this
      exact Bool.false_ne_true this
  · rfl

/-! ## C7: the keys of the `DoSRVProbe` result -/

/-- C7: when `DoSRVProbe` returns a present result, its keys are exactly the service
names whose query (of the name followed by "." and the domain) returned at least one
instance; every key is one of the service names as given; and the value under a key is
a slice `SRVQuery` returned for that name followed by "." and the domain. -/
theorem DoSRVProbe_keys {σ V : Type} [Inhabited V] (c : resolv.Client σ V)
    (domain : String) (serviceNames : List String) (validate : Bool) (w : World σ)
    (r : SRVProbeResult V) (h : (DoSRVProbe c domain serviceNames validate w).1 = some r) :
    (∀ s, s ∈ r.Services.keys ↔
      ∃ q ∈ DoSRVProbe.queries c domain validate serviceNames w,
        q.1 = s ∧ 0 < (SRVQuery c (s ++ "." ++ domain) validate q.2).1.len) ∧
    (∀ s ∈ r.Services.keys, s ∈ serviceNames) ∧
    (∀ s ∈ r.Services.keys, ∃ v, r.Services.get s = some v) ∧
    (∀ s v, r.Services.get s = some v →
      ∃ q ∈ DoSRVProbe.queries c domain validate serviceNames w,
        q.1 = s ∧ v = (SRVQuery c (s ++ "." ++ domain) validate q.2).1 ∧ 0 < v.len) := by
  obtain ⟨_, hr⟩ := DoSRVProbe_eq_some c domain serviceNames validate w r h
  have hkeys : ∀ s, s ∈ r.Services.keys ↔
      ∃ q ∈ DoSRVProbe.queries c domain validate serviceNames w,
        q.1 = s ∧ 0 < (SRVQuery c (s ++ "." ++ domain) validate q.2).1.len := by
    intro s
    rw [hr, DoSRVProbe_loop_keys]
    constructor
    · rintro (hk | ⟨q, hq, hqs, hn⟩)
      · simp [NewSRVProbeResult, GoMap.keys] at hk
      · exact ⟨q, hq, hqs, hqs ▸ (SRVQuery_isNil_false_iff _ _ _ _).1 hn⟩
    · rintro ⟨q, hq, hqs, hn⟩
      refine Or.inr ⟨q, hq, hqs, (SRVQuery_isNil_false_iff _ _ _ _).2 ?_⟩
      rw [hqs]; exact hn
  refine ⟨hkeys, ?_, ?_, ?_⟩
  · intro s hs
    obtain ⟨q, hq, hqs, _⟩ := (hkeys s).1 hs
    rw [← DoSRVProbe_queries_names c domain validate serviceNames w, ← hqs]
    exact List.mem_map_of_mem _ hq
  · intro s hs
    simp only [GoMap.keys, List.mem_map] at hs
    obtain ⟨p, hp, hps⟩ := hs
    cases hl : r.Services.get s with
    | some v => exact ⟨v, rfl⟩
    | none =>
      exfalso
      simp only [GoMap.get, List.lookup_eq_none_iff] at hl
      have hne := hl p hp
      simp [hps] at hne
  · intro s v hv
    rw [hr] at hv
    rcases DoSRVProbe_loop_get c domain validate serviceNames _ _ _ s v hv with h0 | ⟨q, hq, hqs, hqv, hn⟩
    · simp [NewSRVProbeResult, GoMap.get] at h0
    · refine ⟨q, hq, hqs, hqv, ?_⟩
      rw [hqv] at hn ⊢
      exact (SRVQuery_isNil_false_iff _ _ _ _).1 hn

/-- C7 at `sampleClient`: of the service names `_sip._tcp` and `_xmpp._tcp` only the
first has SRV answers, and the map has the one key `_sip._tcp`. -/
theorem DoSRVProbe_keys_witness :
    ((DoSRVProbe sampleClient "example.com" ["_sip._tcp", "_xmpp._tcp"] true World.init).1 =
      some sampleSRVProbeResult ∧ sampleSRVProbeResult.Services.keys = ["_sip._tcp"]) ∧
    ((∀ s, s ∈ sampleSRVProbeResult.Services.keys ↔
      ∃ q ∈ DoSRVProbe.queries sampleClient "example.com" true ["_sip._tcp", "_xmpp._tcp"]
          World.init,
        q.1 = s ∧ 0 < (SRVQuery sampleClient (s ++ "." ++ "example.com") true q.2).1.len) ∧
    (∀ s ∈ sampleSRVProbeResult.Services.keys, s ∈ ["_sip._tcp", "_xmpp._tcp"]) ∧
    (∀ s ∈ sampleSRVProbeResult.Services.keys,
      ∃ v, sampleSRVProbeResult.Services.get s = some v) ∧
    (∀ s v, sampleSRVProbeResult.Services.get s = some v →
      ∃ q ∈ DoSRVProbe.queries sampleClient "example.com" true ["_sip._tcp", "_xmpp._tcp"]
          World.init,
        q.1 = s ∧ v = (SRVQuery sampleClient (s ++ "." ++ "example.com") true q.2).1 ∧
          0 < v.len)) :=
  ⟨⟨by decide, by decide⟩,
   DoSRVProbe_keys sampleClient "example.com" ["_sip._tcp", "_xmpp._tcp"] true World.init
    sampleSRVProbeResult (by decide)⟩

/-! ## `DoNAPTRProbe` -/

theorem Slice_eq_nil_of_isNil {α : Type} (s : Slice α) (h : s.isNil = true) : s = Slice.nil := by
  cases s with
  | nil => rfl
  | of l => simp [Slice.isNil] at h

/-- A record that delegates: one `SRVQuery` on its Replacement, whose result is its
Services. -/
theorem DoNAPTRProbe_body_delegating {σ V : Type} [Inhabited V] (c : resolv.Client σ V)
    (validate : Bool) (naptrValidated : V) (naptr : dns.NAPTR) (w : World σ)
    (hd : DoNAPTRProbe.delegates naptr = true) :
    DoNAPTRProbe.body c validate naptrValidated naptr w =
      ({ Order := naptr.Order, Preference := naptr.Preference, Flags := naptr.Flags,
         Service := naptr.Service, Regexp := naptr.Regexp, Replacement := naptr.Replacement,
         NAPTRValidated := naptrValidated,
         Services := (SRVQuery c naptr.Replacement validate w).1 },
       (SRVQuery c naptr.Replacement validate w).2) := by
  unfold DoNAPTRProbe.body
  rcases hn : (SRVQuery c naptr.Replacement validate w).1.isNil
  · simp [hd, hn]
  · simp [hd, hn, ← Slice_eq_nil_of_isNil _ hn]

/-- A record that does not delegate: no call, no Services. -/
theorem DoNAPTRProbe_body_not_delegating {σ V : Type} [Inhabited V] (c : resolv.Client σ V)
    (validate : Bool) (naptrValidated : V) (naptr : dns.NAPTR) (w : World σ)
    (hd : DoNAPTRProbe.delegates naptr = false) :
    DoNAPTRProbe.body c validate naptrValidated naptr w =
      ({ Order := naptr.Order, Preference := naptr.Preference, Flags := naptr.Flags,
         Service := naptr.Service, Regexp := naptr.Regexp, Replacement := naptr.Replacement,
         NAPTRValidated := naptrValidated, Services := Slice.nil }, w) := by
  unfold DoNAPTRProbe.body
  simp [hd]

/-- The lookups of one iteration of `DoNAPTRProbe`. -/
theorem DoNAPTRProbe_body_lookups {σ V : Type} [Inhabited V] (c : resolv.Client σ V)
    (validate : Bool) (naptrValidated : V) (naptr : dns.NAPTR) (w : World σ) :
    lookupsOf (DoNAPTRProbe.body c validate naptrValidated naptr w).2.log =
      lookupsOf w.log ++
        (if DoNAPTRProbe.delegates naptr then [(naptr.Replacement, dns.TypeSRV)] else []) := by
  rcases hd : DoNAPTRProbe.delegates naptr
  · rw [DoNAPTRProbe_body_not_delegating c validate naptrValidated naptr w hd]
    simp
  · rw [DoNAPTRProbe_body_delegating c validate naptrValidated naptr w hd]
    simp [SRVQuery_lookups]

/-- The lookups of the loop of `DoNAPTRProbe`: one SRV lookup per delegating record, in
answer order. -/
theorem DoNAPTRProbe_loop_lookups {σ V : Type} [Inhabited V] (c : resolv.Client σ V)
    (validate : Bool) (naptrValidated : V) (naptrs : List dns.NAPTR) :
    ∀ (r : NAPTRProbeResult V) (w : World σ),
      lookupsOf (DoNAPTRProbe.loop c validate naptrValidated naptrs r w).2.log =
        lookupsOf w.log ++ (naptrs.filter DoNAPTRProbe.delegates).map
          (fun n => (n.Replacement, dns.TypeSRV)) := by
  induction naptrs with
  | nil => intro r w; simp [DoNAPTRProbe.loop]
  | cons naptr rest ih =>
    intro r w
    simp only [DoNAPTRProbe.loop]
    rw [ih, DoNAPTRProbe_body_lookups]
    rcases hd : DoNAPTRProbe.delegates naptr <;> simp [List.filter_cons, hd]

/-- The length of the list the loop of `DoNAPTRProbe` returns. -/
theorem DoNAPTRProbe_loop_len {σ V : Type} [Inhabited V] (c : resolv.Client σ V)
    (validate : Bool) (naptrValidated : V) (naptrs : List dns.NAPTR) :
    ∀ (r : NAPTRProbeResult V) (w : World σ),
      (DoNAPTRProbe.loop c validate naptrValidated naptrs r w).1.NAPTRs.len =
        r.NAPTRs.len + naptrs.length := by
  induction naptrs with
  | nil => intro r w; simp [DoNAPTRProbe.loop]
  | cons naptr rest ih =>
    intro r w
    simp only [DoNAPTRProbe.loop]
    rw [ih]
    simp only [Slice.append, Slice.len, Slice.elems, List.length_append, List.length_cons,
      List.length_nil]
    omega

/-- An invariant of the records carried through the loop of `DoNAPTRProbe`. -/
theorem DoNAPTRProbe_loop_forall {σ V : Type} [Inhabited V] (c : resolv.Client σ V)
    (validate : Bool) (naptrValidated : V) (P : NAPTRInfo V → Prop) (naptrs : List dns.NAPTR)
    (hbody : ∀ naptr ∈ naptrs, ∀ w : World σ,
      P (DoNAPTRProbe.body c validate naptrValidated naptr w).1) :
    ∀ (r : NAPTRProbeResult V) (w : World σ),
      (∀ x ∈ r.NAPTRs.elems, P x) →
      ∀ x ∈ (DoNAPTRProbe.loop c validate naptrValidated naptrs r w).1.NAPTRs.elems, P x := by
  induction naptrs with
  | nil => intro r w h; simpa [DoNAPTRProbe.loop] using h
  | cons naptr rest ih =>
    intro r w h
    simp only [DoNAPTRProbe.loop]
    apply ih (fun n hn => hbody n (List.mem_cons_of_mem _ hn))
    intro x hx
    simp only [Slice.append, Slice.elems, List.mem_append, List.mem_singleton] at hx
    rcases hx with hx | hx
    · exact h x hx
    · rw [hx]; exact hbody naptr (List.mem_cons_self _ _) w

/-- A successful NAPTR lookup: the result of `DoNAPTRProbe` is that of its loop. -/
theorem DoNAPTRProbe_ok {σ V : Type} [Inhabited V] (c : resolv.Client σ V) (domain : String)
    (validate : Bool) (w : World σ) (resp : dns.Msg)
    (h : (c.Lookup domain dns.TypeNAPTR w.st).1 = Except.ok resp) :
    DoNAPTRProbe c domain validate w =
      (some (DoNAPTRProbe.loop c validate
        (if validate then doCheck c domain dns.TypeNAPTR (doLookup c domain dns.TypeNAPTR w).2
          else (default, (doLookup c domain dns.TypeNAPTR w).2)).1
        (resolv.CollectRRs dns.RR.asNAPTR resp.Answer) (NewNAPTRProbeResult V)
        (if validate then doCheck c domain dns.TypeNAPTR (doLookup c domain dns.TypeNAPTR w).2
          else (default, (doLookup c domain dns.TypeNAPTR w).2)).2).1,
       (DoNAPTRProbe.loop c validate
        (if validate then doCheck c domain dns.TypeNAPTR (doLookup c domain dns.TypeNAPTR w).2
          else (default, (doLookup c domain dns.TypeNAPTR w).2)).1
        (resolv.CollectRRs dns.RR.asNAPTR resp.Answer) (NewNAPTRProbeResult V)
        (if validate then doCheck c domain dns.TypeNAPTR (doLookup c domain dns.TypeNAPTR w).2
          else (default, (doLookup c domain dns.TypeNAPTR w).2)).2).2) := by
  unfold DoNAPTRProbe
  have hd : doLookup c domain dns.TypeNAPTR w =
      (Except.ok resp, (doLookup c domain dns.TypeNAPTR w).2) := by
    simp [doLookup, h]
  rw [hd]

/-- A failed NAPTR lookup ends `DoNAPTRProbe` with the nil result. -/
theorem DoNAPTRProbe_error {σ V : Type} [Inhabited V] (c : resolv.Client σ V)
    (domain : String) (validate : Bool) (w : World σ) (e : String)
    (h : (c.Lookup domain dns.TypeNAPTR w.st).1 = Except.error e) :
    DoNAPTRProbe c domain validate w =
      ((none : Option (NAPTRProbeResult V)), (doLookup c domain dns.TypeNAPTR w).2) := by
  unfold DoNAPTRProbe
  have hd : doLookup c domain dns.TypeNAPTR w =
      (Except.error e, (doLookup c domain dns.TypeNAPTR w).2) := by
    simp [doLookup, h]
  rw [hd]

/-! ## C1: the delegation rule -/

/-- The lookups in the world in which the loop of `DoNAPTRProbe` starts. -/
theorem DoNAPTRProbe_start_lookups {σ V : Type} (c : resolv.Client σ V) (domain : String)
    (validate : Bool) (w : World σ) :
    lookupsOf (DoNAPTRProbe.start c domain validate w).log =
      lookupsOf w.log ++ [(domain, dns.TypeNAPTR)] := by
  unfold DoNAPTRProbe.start
  cases validate <;> simp [doCheck_log, doLookup_log, lookupsOf, Call.asLookup]

/-- The lookups of a chain of SRV queries, one per answer meeting the condition `p`. -/
theorem SRVQuery_chain_lookups {σ V : Type} [Inhabited V] (c : resolv.Client σ V)
    (validate : Bool) (p : dns.NAPTR → Bool) (naptrs : List dns.NAPTR) :
    ∀ w : World σ,
      lookupsOf (naptrs.foldl
          (fun w1 n => if p n = true then (SRVQuery c n.Replacement validate w1).2 else w1)
          w).log =
        lookupsOf w.log ++ (naptrs.filter p).map (fun n => (n.Replacement, dns.TypeSRV)) := by
  induction naptrs with
  | nil => intro w; simp
  | cons n rest ih =>
    intro w
    simp only [List.foldl_cons]
    rw [ih]
    rcases hp : p n
    · simp [List.filter_cons, hp]
    · simp [List.filter_cons, hp, SRVQuery_lookups]

/-- C1: in a successful `DoNAPTRProbe`, the record returned for each NAPTR answer has
as Services the result of `SRVQuery` on the answer's Replacement, run with the validate
flag of the probe in the world in which the probe comes to that answer, when the
answer's lower-cased Flags contain "s", its Replacement is neither "." nor blank after
trimming and that result is not nil; in every other case its Services are the nil
(empty) slice.  `SRVQuery` runs for exactly the answers meeting the condition: the world
the probe leaves is that of those queries in answer order, and the lookups made are the
NAPTR lookup followed by one SRV lookup of the Replacement per such answer. -/
theorem DoNAPTRProbe_delegation_rule {σ V : Type} [Inhabited V] (c : resolv.Client σ V)
    (domain : String) (validate : Bool) (w : World σ) (resp : dns.Msg)
    (h : (c.Lookup domain dns.TypeNAPTR w.st).1 = Except.ok resp) :
    (DoNAPTRProbe c domain validate w).1.map
        (fun r => r.NAPTRs.elems.map (fun x => x.Services)) =
      some ((DoNAPTRProbe.steps c validate (resolv.CollectRRs dns.RR.asNAPTR resp.Answer)
        (DoNAPTRProbe.start c domain validate w)).map (fun p =>
          if (strings.Contains (strings.ToLower p.1.Flags) "s" && p.1.Replacement != "." &&
              strings.TrimSpace p.1.Replacement != "" &&
              !(SRVQuery c p.1.Replacement validate p.2).1.isNil) = true
            then (SRVQuery c p.1.Replacement validate p.2).1 else Slice.nil)) ∧
    (DoNAPTRProbe c domain validate w).2 =
      (resolv.CollectRRs dns.RR.asNAPTR resp.Answer).foldl
        (fun w1 n =>
          if (strings.Contains (strings.ToLower n.Flags) "s" && n.Replacement != "." &&
              strings.TrimSpace n.Replacement != "") = true
            then (SRVQuery c n.Replacement validate w1).2 else w1)
        (DoNAPTRProbe.start c domain validate w) ∧
    lookupsOf (DoNAPTRProbe c domain validate w).2.log =
      lookupsOf w.log ++ (domain, dns.TypeNAPTR) ::
        ((resolv.CollectRRs dns.RR.asNAPTR resp.Answer).filter
          (fun n => strings.Contains (strings.ToLower n.Flags) "s" && n.Replacement != "." &&
            strings.TrimSpace n.Replacement != "")).map
          (fun n => (n.Replacement, dns.TypeSRV)) := by
  -- one iteration, read off the body of the loop
  have hbody : ∀ (nv : V) (n : dns.NAPTR) (w1 : World σ),
      (DoNAPTRProbe.body c validate nv n w1).1.Services =
        (if (strings.Contains (strings.ToLower n.Flags) "s" && n.Replacement != "." &&
            strings.TrimSpace n.Replacement != "" &&
            !(SRVQuery c n.Replacement validate w1).1.isNil) = true
          then (SRVQuery c n.Replacement validate w1).1 else Slice.nil) ∧
      (DoNAPTRProbe.body c validate nv n w1).2 =
        (if (strings.Contains (strings.ToLower n.Flags) "s" && n.Replacement != "." &&
            strings.TrimSpace n.Replacement != "") = true
          then (SRVQuery c n.Replacement validate w1).2 else w1) := by
    intro nv n w1
    unfold DoNAPTRProbe.body DoNAPTRProbe.delegates
    rcases hc : (strings.Contains (strings.ToLower n.Flags) "s" && n.Replacement != "." &&
      strings.TrimSpace n.Replacement != "")
    · simp [hc]
    · rcases hn : (SRVQuery c n.Replacement validate w1).1.isNil <;> simp [hc, hn]
  -- the loop over the answers
  have hloop : ∀ (nv : V) (naptrs : List dns.NAPTR) (r : NAPTRProbeResult V) (w1 : World σ),
      (DoNAPTRProbe.loop c validate nv naptrs r w1).1.NAPTRs.elems.map (fun x => x.Services) =
        r.NAPTRs.elems.map (fun x => x.Services) ++
          (DoNAPTRProbe.steps c validate naptrs w1).map (fun p =>
            if (strings.Contains (strings.ToLower p.1.Flags) "s" && p.1.Replacement != "." &&
                strings.TrimSpace p.1.Replacement != "" &&
                !(SRVQuery c p.1.Replacement validate p.2).1.isNil) = true
              then (SRVQuery c p.1.Replacement validate p.2).1 else Slice.nil) ∧
      (DoNAPTRProbe.loop c validate nv naptrs r w1).2 =
        naptrs.foldl
          (fun w2 n =>
            if (strings.Contains (strings.ToLower n.Flags) "s" && n.Replacement != "." &&
                strings.TrimSpace n.Replacement != "") = true
              then (SRVQuery c n.Replacement validate w2).2 else w2) w1 := by
    intro nv naptrs
    induction naptrs with
    | nil => intro r w1; simp [DoNAPTRProbe.loop, DoNAPTRProbe.steps]
    | cons n rest ih =>
      intro r w1
      obtain ⟨hb1, hb2⟩ := hbody nv n w1
      simp only [DoNAPTRProbe.loop, DoNAPTRProbe.steps, DoNAPTRProbe.after, List.foldl_cons]
      rw [(ih _ _).1, (ih _ _).2, hb2]
      simp only [Slice.append, Slice.elems, List.map_append, List.map_cons, List.map_nil,
        List.append_assoc, List.singleton_append, hb1]
      exact ⟨trivial, trivial⟩
  -- the probe itself
  have hd : doLookup c domain dns.TypeNAPTR w =
      (Except.ok resp, (doLookup c domain dns.TypeNAPTR w).2) := by
    simp [doLookup, h]
  have hq : DoNAPTRProbe c domain validate w =
      (some (DoNAPTRProbe.loop c validate
        (if validate then doCheck c domain dns.TypeNAPTR (doLookup c domain dns.TypeNAPTR w).2
          else ((default : V), (doLookup c domain dns.TypeNAPTR w).2)).1
        (resolv.CollectRRs dns.RR.asNAPTR resp.Answer) (NewNAPTRProbeResult V)
        (DoNAPTRProbe.start c domain validate w)).1,
       (DoNAPTRProbe.loop c validate
        (if validate then doCheck c domain dns.TypeNAPTR (doLookup c domain dns.TypeNAPTR w).2
          else ((default : V), (doLookup c domain dns.TypeNAPTR w).2)).1
        (resolv.CollectRRs dns.RR.asNAPTR resp.Answer) (NewNAPTRProbeResult V)
        (DoNAPTRProbe.start c domain validate w)).2) := by
    unfold DoNAPTRProbe DoNAPTRProbe.start
    rw [hd]
    cases validate <;> rfl
  have hw : (DoNAPTRProbe c domain validate w).2 =
      (resolv.CollectRRs dns.RR.asNAPTR resp.Answer).foldl
        (fun w1 n =>
          if (strings.Contains (strings.ToLower n.Flags) "s" && n.Replacement != "." &&
              strings.TrimSpace n.Replacement != "") = true
            then (SRVQuery c n.Replacement validate w1).2 else w1)
        (DoNAPTRProbe.start c domain validate w) := by
    rw [hq]
    exact (hloop _ _ _ _).2
  refine ⟨?_, hw, ?_⟩
  · rw [hq]
    simp only [Option.map_some', Option.some.injEq]
    rw [(hloop _ _ _ _).1]
    simp [NewNAPTRProbeResult, Slice.elems]
  · rw [hw, SRVQuery_chain_lookups c validate
      (fun n => strings.Contains (strings.ToLower n.Flags) "s" && n.Replacement != "." &&
        strings.TrimSpace n.Replacement != ""), DoNAPTRProbe_start_lookups]
    simp

/-- C1 at `chainClient`: of the four NAPTR records of `example.com` the first delegates
and carries the two instances its SRV query returned; the second meets the condition
and its SRV lookup fails; the third has Flags "u" and the fourth the Replacement ".",
and no SRV lookup is made for them. -/
theorem DoNAPTRProbe_delegation_rule_witness :
    ((chainClient.Lookup "example.com" dns.TypeNAPTR World.init.st).1 =
        Except.ok chainResponse ∧
      lookupsOf (DoNAPTRProbe chainClient "example.com" true World.init).2.log =
        [("example.com", dns.TypeNAPTR), ("_sip._tcp.example.com", dns.TypeSRV),
          ("_gone._udp.example.com", dns.TypeSRV)] ∧
      (DoNAPTRProbe chainClient "example.com" true World.init).1.map
        (fun r => r.NAPTRs.elems.map (fun x => x.Services)) =
          some [chainInstances, Slice.nil, Slice.nil, Slice.nil]) ∧
    ((DoNAPTRProbe chainClient "example.com" true World.init).1.map
        (fun r => r.NAPTRs.elems.map (fun x => x.Services)) =
      some ((DoNAPTRProbe.steps chainClient true
        (resolv.CollectRRs dns.RR.asNAPTR chainResponse.Answer)
        (DoNAPTRProbe.start chainClient "example.com" true World.init)).map (fun p =>
          if (strings.Contains (strings.ToLower p.1.Flags) "s" && p.1.Replacement != "." &&
              strings.TrimSpace p.1.Replacement != "" &&
              !(SRVQuery chainClient p.1.Replacement true p.2).1.isNil) = true
            then (SRVQuery chainClient p.1.Replacement true p.2).1 else Slice.nil)) ∧
    (DoNAPTRProbe chainClient "example.com" true World.init).2 =
      (resolv.CollectRRs dns.RR.asNAPTR chainResponse.Answer).foldl
        (fun w1 n =>
          if (strings.Contains (strings.ToLower n.Flags) "s" && n.Replacement != "." &&
              strings.TrimSpace n.Replacement != "") = true
            then (SRVQuery chainClient n.Replacement true w1).2 else w1)
        (DoNAPTRProbe.start chainClient "example.com" true World.init) ∧
    lookupsOf (DoNAPTRProbe chainClient "example.com" true World.init).2.log =
      lookupsOf World.init.log ++ ("example.com", dns.TypeNAPTR) ::
        ((resolv.CollectRRs dns.RR.asNAPTR chainResponse.Answer).filter
          (fun n => strings.Contains (strings.ToLower n.Flags) "s" && n.Replacement != "." &&
            strings.TrimSpace n.Replacement != "")).map
          (fun n => (n.Replacement, dns.TypeSRV))) :=
  ⟨⟨rfl, by decide, by decide⟩,
   DoNAPTRProbe_delegation_rule chainClient "example.com" true World.init chainResponse rfl⟩

/-! ## C8: when `DoNAPTRProbe` returns a result -/

/-- C8: `DoNAPTRProbe` returns nil exactly when the NAPTR lookup of the domain fails;
when the lookup succeeds the result is present and holds one record per NAPTR answer
(none, for an answer section without NAPTR record), whatever the collaborators answer
to the nested SRV queries. -/
theorem DoNAPTRProbe_absent_iff {σ V : Type} [Inhabited V] (c : resolv.Client σ V)
    (domain : String) (validate : Bool) (w : World σ) :
    ((DoNAPTRProbe c domain validate w).1 = none ↔
      ∃ e, (c.Lookup domain dns.TypeNAPTR w.st).1 = Except.error e) ∧
    (DoNAPTRProbe c domain validate w).1.isSome =
      (match (c.Lookup domain dns.TypeNAPTR w.st).1 with
        | Except.error _ => false
        | Except.ok _ => true) ∧
    ((DoNAPTRProbe c domain validate w).1.map (fun r => r.NAPTRs.len)) =
      (match (c.Lookup domain dns.TypeNAPTR w.st).1 with
        | Except.error _ => none
        | Except.ok resp => some (resolv.CollectRRs dns.RR.asNAPTR resp.Answer).length) := by
  rcases hl : (c.Lookup domain dns.TypeNAPTR w.st).1 with e | resp
  · rw [DoNAPTRProbe_error c domain validate w e hl]
    simp
  · rw [DoNAPTRProbe_ok c domain validate w resp hl]
    simp only [Option.map_some', DoNAPTRProbe_loop_len, Option.isSome_some]
    simp [NewNAPTRProbeResult, Slice.len, Slice.elems]

/-! ## C9: when Services is populated -/

/-- C9, the claim as stated fails: the record of `example.com` has Flags "s" and the
Replacement `_sip._tcp.example.com`, the SRV lookup of the Replacement fails, and the
record is returned with no Services. -/
theorem DoNAPTRProbe_delegating_without_services :
    (DoNAPTRProbe naptrOnlyClient "example.com" true World.init).1 =
      some ⟨Slice.of [bareNAPTRInfo]⟩ ∧
    strings.Contains (strings.ToLower bareNAPTRInfo.Flags) "s" = true ∧
    bareNAPTRInfo.Replacement ≠ "." ∧
    strings.TrimSpace bareNAPTRInfo.Replacement ≠ "" ∧
    bareNAPTRInfo.Services.len = 0 := by
  refine ⟨by decide, by decide, by decide, by decide, by decide⟩

/-- C9, amended: in a result of `DoNAPTRProbe`, a record with populated Services has
Flags whose lower case contains "s" and a Replacement that is neither "." nor blank
after trimming; and the record returned for each NAPTR answer, in answer order, has
populated Services exactly when that condition holds and the `SRVQuery` on its
Replacement, run in the world in which the probe comes to that answer, returned at least
one instance. -/
theorem DoNAPTRProbe_services_populated {σ V : Type} [Inhabited V] (c : resolv.Client σ V)
    (domain : String) (validate : Bool) (w : World σ) (resp : dns.Msg)
    (r : NAPTRProbeResult V)
    (hl : (c.Lookup domain dns.TypeNAPTR w.st).1 = Except.ok resp)
    (h : (DoNAPTRProbe c domain validate w).1 = some r) :
    (∀ x ∈ r.NAPTRs.elems, 0 < x.Services.len →
      strings.Contains (strings.ToLower x.Flags) "s" = true ∧ x.Replacement ≠ "." ∧
        strings.TrimSpace x.Replacement ≠ "") ∧
    r.NAPTRs.elems.map
        (fun x => (x.Flags, x.Replacement, decide (0 < x.Services.len))) =
      (DoNAPTRProbe.steps c validate (resolv.CollectRRs dns.RR.asNAPTR resp.Answer)
        (DoNAPTRProbe.start c domain validate w)).map (fun p =>
          (p.1.Flags, p.1.Replacement,
            strings.Contains (strings.ToLower p.1.Flags) "s" && p.1.Replacement != "." &&
              strings.TrimSpace p.1.Replacement != "" &&
              decide (0 < (SRVQuery c p.1.Replacement validate p.2).1.len))) := by
  -- one iteration, read off the body of the loop
  have hbody : ∀ (nv : V) (n : dns.NAPTR) (w1 : World σ),
      ((DoNAPTRProbe.body c validate nv n w1).1.Flags,
        (DoNAPTRProbe.body c validate nv n w1).1.Replacement,
        decide (0 < (DoNAPTRProbe.body c validate nv n w1).1.Services.len)) =
      (n.Flags, n.Replacement,
        strings.Contains (strings.ToLower n.Flags) "s" && n.Replacement != "." &&
          strings.TrimSpace n.Replacement != "" &&
          decide (0 < (SRVQuery c n.Replacement validate w1).1.len)) ∧
      (DoNAPTRProbe.body c validate nv n w1).2 = DoNAPTRProbe.after c validate n w1 := by
    intro nv n w1
    unfold DoNAPTRProbe.body DoNAPTRProbe.delegates DoNAPTRProbe.after
    rcases hc : (strings.Contains (strings.ToLower n.Flags) "s" && n.Replacement != "." &&
      strings.TrimSpace n.Replacement != "")
    · simp [hc, Slice.len, Slice.elems]
    · rcases hn : (SRVQuery c n.Replacement validate w1).1.isNil
      · simp [hc, hn]
      · have hq := Slice_eq_nil_of_isNil _ hn
        simp [hc, hn, hq, Slice.len, Slice.elems]
  -- the loop over the answers
  have hloop : ∀ (nv : V) (naptrs : List dns.NAPTR) (r0 : NAPTRProbeResult V) (w1 : World σ),
      (DoNAPTRProbe.loop c validate nv naptrs r0 w1).1.NAPTRs.elems.map
          (fun x => (x.Flags, x.Replacement, decide (0 < x.Services.len))) =
        r0.NAPTRs.elems.map (fun x => (x.Flags, x.Replacement, decide (0 < x.Services.len))) ++
          (DoNAPTRProbe.steps c validate naptrs w1).map (fun p =>
            (p.1.Flags, p.1.Replacement,
              strings.Contains (strings.ToLower p.1.Flags) "s" && p.1.Replacement != "." &&
                strings.TrimSpace p.1.Replacement != "" &&
                decide (0 < (SRVQuery c p.1.Replacement validate p.2).1.len))) := by
    intro nv naptrs
    induction naptrs with
    | nil => intro r0 w1; simp [DoNAPTRProbe.loop, DoNAPTRProbe.steps]
    | cons n rest ih =>
      intro r0 w1
      obtain ⟨hb1, hb2⟩ := hbody nv n w1
      simp only [DoNAPTRProbe.loop, DoNAPTRProbe.steps]
      rw [ih, hb2]
      simp only [Slice.append, Slice.elems, List.map_append, List.map_cons, List.map_nil,
        List.append_assoc, List.singleton_append, hb1]
  -- the probe itself
  have hd : doLookup c domain dns.TypeNAPTR w =
      (Except.ok resp, (doLookup c domain dns.TypeNAPTR w).2) := by
    simp [doLookup, hl]
  have he : (DoNAPTRProbe c domain validate w).1 =
      some (DoNAPTRProbe.loop c validate
        (if validate then doCheck c domain dns.TypeNAPTR (doLookup c domain dns.TypeNAPTR w).2
          else ((default : V), (doLookup c domain dns.TypeNAPTR w).2)).1
        (resolv.CollectRRs dns.RR.asNAPTR resp.Answer) (NewNAPTRProbeResult V)
        (DoNAPTRProbe.start c domain validate w)).1 := by
    unfold DoNAPTRProbe DoNAPTRProbe.start
    rw [hd]
    cases validate <;> rfl
  rw [he] at h
  simp only [Option.some.injEq] at h
  have hmap : r.NAPTRs.elems.map
        (fun x => (x.Flags, x.Replacement, decide (0 < x.Services.len))) =
      (DoNAPTRProbe.steps c validate (resolv.CollectRRs dns.RR.asNAPTR resp.Answer)
        (DoNAPTRProbe.start c domain validate w)).map (fun p =>
          (p.1.Flags, p.1.Replacement,
            strings.Contains (strings.ToLower p.1.Flags) "s" && p.1.Replacement != "." &&
              strings.TrimSpace p.1.Replacement != "" &&
              decide (0 < (SRVQuery c p.1.Replacement validate p.2).1.len))) := by
    rw [← h, hloop]
    simp [NewNAPTRProbeResult, Slice.elems]
  refine ⟨?_, hmap⟩
  intro x hx hpos
  have hm : (x.Flags, x.Replacement, decide (0 < x.Services.len)) ∈
      r.NAPTRs.elems.map (fun x => (x.Flags, x.Replacement, decide (0 < x.Services.len))) :=
    List.mem_map_of_mem _ hx
  rw [hmap] at hm
  obtain ⟨p, _, hp⟩ := List.mem_map.1 hm
  simp only [Prod.mk.injEq, hpos, decide_True, Bool.and_eq_true, bne_iff_ne, ne_eq,
    decide_eq_true_eq] at hp
  obtain ⟨hf, hr, ⟨⟨hc1, hc2⟩, hc3⟩, _⟩ := hp
  rw [← hf, ← hr]
  exact ⟨hc1, hc2, hc3⟩

/-- C9, amended, at `chainClient`: of the four records returned for `example.com` only
the first has Services; the second meets the condition and its SRV lookup failed, the
third has Flags "u", the fourth the Replacement ".". -/
theorem DoNAPTRProbe_services_populated_witness :
    ((chainClient.Lookup "example.com" dns.TypeNAPTR World.init.st).1 =
        Except.ok chainResponse ∧
      (DoNAPTRProbe chainClient "example.com" true World.init).1 = some chainResult ∧
      chainResult.NAPTRs.elems.map
        (fun x => (x.Flags, x.Replacement, decide (0 < x.Services.len))) =
          [("s", "_sip._tcp.example.com", true), ("S", "_gone._udp.example.com", false),
            ("u", "_sip._tcp.example.com", false), ("s", ".", false)]) ∧
    ((∀ x ∈ chainResult.NAPTRs.elems, 0 < x.Services.len →
        strings.Contains (strings.ToLower x.Flags) "s" = true ∧ x.Replacement ≠ "." ∧
          strings.TrimSpace x.Replacement ≠ "") ∧
    chainResult.NAPTRs.elems.map
        (fun x => (x.Flags, x.Replacement, decide (0 < x.Services.len))) =
      (DoNAPTRProbe.steps chainClient true
        (resolv.CollectRRs dns.RR.asNAPTR chainResponse.Answer)
        (DoNAPTRProbe.start chainClient "example.com" true World.init)).map (fun p =>
          (p.1.Flags, p.1.Replacement,
            strings.Contains (strings.ToLower p.1.Flags) "s" && p.1.Replacement != "." &&
              strings.TrimSpace p.1.Replacement != "" &&
              decide (0 < (SRVQuery chainClient p.1.Replacement true p.2).1.len)))) :=
  ⟨⟨rfl, by decide, by decide⟩,
   DoNAPTRProbe_services_populated chainClient "example.com" true World.init chainResponse
    chainResult rfl (by decide)⟩

/-! ## C11: the order of the glue addresses -/

/-- The glue matches, read off the additional section itself. -/
theorem getServiceIPs_glueMatches_eq (srvTarget : String) (resp : dns.Msg) :
    getServiceIPs.glueMatches srvTarget resp =
      resp.Extra.filterMap (getServiceIPs.matchA srvTarget) ++
        resp.Extra.filterMap (getServiceIPs.matchAAAA srvTarget) := by
  unfold getServiceIPs.glueMatches resolv.CollectRRs
  rw [List.filterMap_filterMap, List.filterMap_filterMap]
  congr 1
  · apply List.filterMap_congr
    intro rr _
    cases rr <;> rfl
  · apply List.filterMap_congr
    intro rr _
    cases rr <;> rfl

/-- Collecting the A matches and then the AAAA matches permutes the matches taken in
section order. -/
theorem getServiceIPs_matches_perm (srvTarget : String) (extra : List dns.RR) :
    (extra.filterMap (getServiceIPs.matchA srvTarget) ++
      extra.filterMap (getServiceIPs.matchAAAA srvTarget)).Perm
      (getServiceIPs.glueInSectionOrder srvTarget ⟨[], extra⟩) := by
  unfold getServiceIPs.glueInSectionOrder
  induction extra with
  | nil => simp
  | cons rr rest ih =>
    simp only [List.filterMap_cons]
    cases rr with
    | ofA a =>
      simp only [getServiceIPs.matchA, getServiceIPs.matchAAAA]
      cases hm : (if a.Hdr.Name = srvTarget then netip.AddrFromSlice a.A else none) with
      | none => exact ih
      | some addr => exact List.Perm.cons addr ih
    | ofAAAA a =>
      simp only [getServiceIPs.matchA, getServiceIPs.matchAAAA]
      cases hm : (if a.Hdr.Name = srvTarget then netip.AddrFromSlice a.AAAA else none) with
      | none => exact ih
      | some addr => exact List.perm_middle.trans (List.Perm.cons addr ih)
    | ofSRV a => exact ih
    | ofNAPTR a => exact ih
    | other hdr rrtype => exact ih

/-- C11, the claim as stated fails: the additional section holds an AAAA record and then
an A record for the target; `getServiceIPs` collects the A address first, where the order
of the additional section puts the AAAA address first. -/
theorem getServiceIPs_glue_not_in_section_order :
    (getServiceIPs.glue "sip1.example.com" mixedGlueResponse).elems = [addr1, addr6] ∧
    getServiceIPs.glueInSectionOrder "sip1.example.com" mixedGlueResponse = [addr6, addr1] ∧
    (getServiceIPs.glue "sip1.example.com" mixedGlueResponse).elems ≠
      getServiceIPs.glueInSectionOrder "sip1.example.com" mixedGlueResponse ∧
    (SRVQuery mixedGlueClient "_sip._tcp.example.com" true World.init).1.elems.map
      (fun x => x.Addrs) = [Slice.of [addr1, addr6]] := by
  refine ⟨by decide, by decide, by decide, by decide⟩

/-- C11, amended: the addresses `getServiceIPs` collects from the additional section are
those of the A records owned by exactly the target whose bytes `netip.AddrFromSlice`
accepts, in section order, followed by those of the AAAA records likewise; they are the
matches of both families taken in section order, permuted so that the A addresses come
first; and an address is collected exactly when such a record of the additional section
carries it. -/
theorem getServiceIPs_glue_order (srvTarget : String) (resp : dns.Msg) :
    (getServiceIPs.glue srvTarget resp).elems =
      resp.Extra.filterMap (getServiceIPs.matchA srvTarget) ++
        resp.Extra.filterMap (getServiceIPs.matchAAAA srvTarget) ∧
    (getServiceIPs.glue srvTarget resp).elems.Perm
      (getServiceIPs.glueInSectionOrder srvTarget resp) ∧
    (∀ addr, addr ∈ (getServiceIPs.glue srvTarget resp).elems ↔
      ((∃ a, dns.RR.ofA a ∈ resp.Extra ∧ a.Hdr.Name = srvTarget ∧
          netip.AddrFromSlice a.A = some addr) ∨
       (∃ aaaa, dns.RR.ofAAAA aaaa ∈ resp.Extra ∧ aaaa.Hdr.Name = srvTarget ∧
          netip.AddrFromSlice aaaa.AAAA = some addr))) := by
  have he := getServiceIPs_glue_elems srvTarget resp
  rw [getServiceIPs_glueMatches_eq] at he
  refine ⟨he, ?_, ?_⟩
  · rw [he]
    exact getServiceIPs_matches_perm srvTarget resp.Extra
  · intro addr
    rw [he, List.mem_append, List.mem_filterMap, List.mem_filterMap]
    constructor
    · rintro (⟨rr, hrr, hm⟩ | ⟨rr, hrr, hm⟩)
      · cases rr with
        | ofA a =>
          simp only [getServiceIPs.matchA] at hm
          split_ifs at hm with hn
          exact Or.inl ⟨a, hrr, hn, hm⟩
        | ofAAAA a => simp [getServiceIPs.matchA] at hm
        | ofSRV a => simp [getServiceIPs.matchA] at hm
        | ofNAPTR a => simp [getServiceIPs.matchA] at hm
        | other hdr rrtype => simp [getServiceIPs.matchA] at hm
      · cases rr with
        | ofAAAA a =>
          simp only [getServiceIPs.matchAAAA] at hm
          split_ifs at hm with hn
          exact Or.inr ⟨a, hrr, hn, hm⟩
        | ofA a => simp [getServiceIPs.matchAAAA] at hm
        | ofSRV a => simp [getServiceIPs.matchAAAA] at hm
        | ofNAPTR a => simp [getServiceIPs.matchAAAA] at hm
        | other hdr rrtype => simp [getServiceIPs.matchAAAA] at hm
    · rintro (⟨a, ha, hn, hm⟩ | ⟨a, ha, hn, hm⟩)
      · exact Or.inl ⟨dns.RR.ofA a, ha, by simp [getServiceIPs.matchA, hn, hm]⟩
      · exact Or.inr ⟨dns.RR.ofAAAA a, ha, by simp [getServiceIPs.matchAAAA, hn, hm]⟩

/-! ## C12: the shape of the `SRVQuery` result -/

/-- A projection of the instances that one iteration fixes from the SRV record is, over
the loop of `SRVQuery`, the map of that projection over the records. -/
theorem SRVQuery_loop_map {σ V β : Type} [Inhabited V] (c : resolv.Client σ V)
    (domainname : String) (resp : dns.Msg) (srvValidated : V)
    (f : ServiceInstanceInfoX V → β) (g : dns.SRV → β)
    (hfg : ∀ (srv : dns.SRV) (w : World σ),
      f (SRVQuery.body c domainname resp srvValidated srv w).1 = g srv)
    (srvs : List dns.SRV) :
    ∀ (results : Slice (ServiceInstanceInfoX V)) (w : World σ),
      (SRVQuery.loop c domainname resp srvValidated srvs results w).1.elems.map f =
        results.elems.map f ++ srvs.map g := by
  induction srvs with
  | nil => intro results w; simp [SRVQuery.loop]
  | cons srv rest ih =>
    intro results w
    simp only [SRVQuery.loop]
    rw [ih]
    simp [Slice.append, Slice.elems, hfg]

/-- The fields one iteration of `SRVQuery` copies into the instance. -/
theorem SRVQuery_body_fields {σ V : Type} [Inhabited V] (c : resolv.Client σ V)
    (domainname : String) (resp : dns.Msg) (srvValidated : V) (srv : dns.SRV) (w : World σ) :
    ((SRVQuery.body c domainname resp srvValidated srv w).1.Name,
      (SRVQuery.body c domainname resp srvValidated srv w).1.Priority,
      (SRVQuery.body c domainname resp srvValidated srv w).1.Weight,
      (SRVQuery.body c domainname resp srvValidated srv w).1.Port,
      (SRVQuery.body c domainname resp srvValidated srv w).1.Target) =
    (domainname, srv.Priority, srv.Weight, srv.Port, srv.Target) := by
  unfold SRVQuery.body
  by_cases ht : srv.Target = "." <;> simp [ht]

/-- C12: for a successful SRV lookup of the owner name, `SRVQuery` returns one instance
per SRV record of the answer section, in answer order, and the i-th instance has the
owner name as Name and the Priority, Weight, Port and Target of the i-th SRV record; a
failed lookup returns no instance. -/
theorem SRVQuery_result_shape {σ V : Type} [Inhabited V] (c : resolv.Client σ V)
    (domainname : String) (validate : Bool) (w : World σ) :
    (SRVQuery c domainname validate w).1.elems.map
        (fun x => (x.Name, x.Priority, x.Weight, x.Port, x.Target)) =
      (match (c.Lookup domainname dns.TypeSRV w.st).1 with
        | Except.error _ => []
        | Except.ok resp => (resolv.CollectRRs dns.RR.asSRV resp.Answer).map
            (fun srv => (domainname, srv.Priority, srv.Weight, srv.Port, srv.Target))) ∧
    (SRVQuery c domainname validate w).1.len =
      (match (c.Lookup domainname dns.TypeSRV w.st).1 with
        | Except.error _ => 0
        | Except.ok resp => (resolv.CollectRRs dns.RR.asSRV resp.Answer).length) := by
  refine ⟨?_, SRVQuery_len c domainname validate w⟩
  rcases hl : (c.Lookup domainname dns.TypeSRV w.st).1 with e | resp
  · rw [SRVQuery_error c domainname validate w e hl]
    simp [Slice.elems]
  · rw [SRVQuery_ok c domainname validate w resp hl]
    rw [SRVQuery_loop_map c domainname resp _
      (fun x => (x.Name, x.Priority, x.Weight, x.Port, x.Target))
      (fun srv => (domainname, srv.Priority, srv.Weight, srv.Port, srv.Target))
      (fun srv w1 => SRVQuery_body_fields c domainname resp _ srv w1)]
    simp [Slice.elems]

/-! ## C13: the shape of the `DoNAPTRProbe` result -/

/-- A projection of the records that one iteration fixes from the NAPTR answer is, over
the loop of `DoNAPTRProbe`, the map of that projection over the answers. -/
theorem DoNAPTRProbe_loop_map {σ V β : Type} [Inhabited V] (c : resolv.Client σ V)
    (validate : Bool) (naptrValidated : V) (f : NAPTRInfo V → β) (g : dns.NAPTR → β)
    (hfg : ∀ (naptr : dns.NAPTR) (w : World σ),
      f (DoNAPTRProbe.body c validate naptrValidated naptr w).1 = g naptr)
    (naptrs : List dns.NAPTR) :
    ∀ (r : NAPTRProbeResult V) (w : World σ),
      (DoNAPTRProbe.loop c validate naptrValidated naptrs r w).1.NAPTRs.elems.map f =
        r.NAPTRs.elems.map f ++ naptrs.map g := by
  induction naptrs with
  | nil => intro r w; simp [DoNAPTRProbe.loop]
  | cons naptr rest ih =>
    intro r w
    simp only [DoNAPTRProbe.loop]
    rw [ih]
    simp [Slice.append, Slice.elems, hfg]

/-- The fields one iteration of `DoNAPTRProbe` copies into the record. -/
theorem DoNAPTRProbe_body_fields {σ V : Type} [Inhabited V] (c : resolv.Client σ V)
    (validate : Bool) (naptrValidated : V) (naptr : dns.NAPTR) (w : World σ) :
    ((DoNAPTRProbe.body c validate naptrValidated naptr w).1.Order,
      (DoNAPTRProbe.body c validate naptrValidated naptr w).1.Preference,
      (DoNAPTRProbe.body c validate naptrValidated naptr w).1.Flags,
      (DoNAPTRProbe.body c validate naptrValidated naptr w).1.Service,
      (DoNAPTRProbe.body c validate naptrValidated naptr w).1.Regexp,
      (DoNAPTRProbe.body c validate naptrValidated naptr w).1.Replacement) =
    (naptr.Order, naptr.Preference, naptr.Flags, naptr.Service, naptr.Regexp,
      naptr.Replacement) := by
  rcases hd : DoNAPTRProbe.delegates naptr
  · rw [DoNAPTRProbe_body_not_delegating c validate naptrValidated naptr w hd]
  · rw [DoNAPTRProbe_body_delegating c validate naptrValidated naptr w hd]

/-- C13: for a successful NAPTR lookup, the result of `DoNAPTRProbe` holds one record per
NAPTR record of the answer section, in answer order, and the i-th record has the Order,
Preference, Flags, Service, Regexp and Replacement of the i-th answer record, whatever
the nested SRV queries return; a failed lookup gives the nil result. -/
theorem DoNAPTRProbe_result_shape {σ V : Type} [Inhabited V] (c : resolv.Client σ V)
    (domain : String) (validate : Bool) (w : World σ) :
    (DoNAPTRProbe c domain validate w).1.map (fun r => r.NAPTRs.elems.map
        (fun x => (x.Order, x.Preference, x.Flags, x.Service, x.Regexp, x.Replacement))) =
      (match (c.Lookup domain dns.TypeNAPTR w.st).1 with
        | Except.error _ => none
        | Except.ok resp => some ((resolv.CollectRRs dns.RR.asNAPTR resp.Answer).map
            (fun n => (n.Order, n.Preference, n.Flags, n.Service, n.Regexp,
              n.Replacement)))) ∧
    (DoNAPTRProbe c domain validate w).1.map (fun r => r.NAPTRs.len) =
      (match (c.Lookup domain dns.TypeNAPTR w.st).1 with
        | Except.error _ => none
        | Except.ok resp => some (resolv.CollectRRs dns.RR.asNAPTR resp.Answer).length) := by
  rcases hl : (c.Lookup domain dns.TypeNAPTR w.st).1 with e | resp
  · rw [DoNAPTRProbe_error c domain validate w e hl]
    simp
  · rw [DoNAPTRProbe_ok c domain validate w resp hl]
    simp only [Option.map_some', DoNAPTRProbe_loop_len]
    rw [DoNAPTRProbe_loop_map c validate _
      (fun x => (x.Order, x.Preference, x.Flags, x.Service, x.Regexp, x.Replacement))
      (fun n => (n.Order, n.Preference, n.Flags, n.Service, n.Regexp, n.Replacement))
      (fun n w1 => DoNAPTRProbe_body_fields c validate _ n w1)]
    simp [NewNAPTRProbeResult, Slice.len, Slice.elems]

/-! ## C14: the shared NAPTR validation status -/

theorem SRVQuery_not_mem_checksFor_naptr (d : String) (srvs : List dns.SRV) :
    (d, dns.TypeNAPTR) ∉ srvs.flatMap SRVQuery.checksFor := by
  intro hm
  obtain ⟨srv, _, hs⟩ := List.mem_flatMap.1 hm
  unfold SRVQuery.checksFor at hs
  split_ifs at hs
  · simp [dns.TypeNAPTR, dns.TypeA, dns.TypeAAAA] at hs
  · simp at hs

/-- No `SRVQuery` makes a NAPTR-type check. -/
theorem SRVQuery_checks_count_naptr {σ V : Type} [Inhabited V] (c : resolv.Client σ V)
    (domainname : String) (validate : Bool) (w : World σ) (d : String) :
    (checksOf (SRVQuery c domainname validate w).2.log).count (d, dns.TypeNAPTR) =
      (checksOf w.log).count (d, dns.TypeNAPTR) := by
  rcases hl : (c.Lookup domainname dns.TypeSRV w.st).1 with e | resp
  · rw [SRVQuery_log_error c domainname validate w e hl]
    simp [checksOf, Call.asCheck]
  · rw [SRVQuery_checks_ok c domainname validate w resp hl, List.count_append,
      List.count_append, List.count_eq_zero.2 (SRVQuery_not_mem_checksFor_naptr _ _)]
    cases validate <;> simp [dns.TypeNAPTR, dns.TypeSRV]

/-- No iteration of `DoNAPTRProbe` makes a NAPTR-type check. -/
theorem DoNAPTRProbe_body_checks_count {σ V : Type} [Inhabited V] (c : resolv.Client σ V)
    (validate : Bool) (naptrValidated : V) (naptr : dns.NAPTR) (w : World σ) (d : String) :
    (checksOf (DoNAPTRProbe.body c validate naptrValidated naptr w).2.log).count
        (d, dns.TypeNAPTR) = (checksOf w.log).count (d, dns.TypeNAPTR) := by
  rcases hd : DoNAPTRProbe.delegates naptr
  · rw [DoNAPTRProbe_body_not_delegating c validate naptrValidated naptr w hd]
  · rw [DoNAPTRProbe_body_delegating c validate naptrValidated naptr w hd]
    exact SRVQuery_checks_count_naptr c naptr.Replacement validate w d

/-- The loop of `DoNAPTRProbe` makes no NAPTR-type check. -/
theorem DoNAPTRProbe_loop_checks_count {σ V : Type} [Inhabited V] (c : resolv.Client σ V)
    (validate : Bool) (naptrValidated : V) (d : String) (naptrs : List dns.NAPTR) :
    ∀ (r : NAPTRProbeResult V) (w : World σ),
      (checksOf (DoNAPTRProbe.loop c validate naptrValidated naptrs r w).2.log).count
          (d, dns.TypeNAPTR) = (checksOf w.log).count (d, dns.TypeNAPTR) := by
  induction naptrs with
  | nil => intro r w; simp [DoNAPTRProbe.loop]
  | cons naptr rest ih =>
    intro r w
    simp only [DoNAPTRProbe.loop]
    rw [ih, DoNAPTRProbe_body_checks_count]

/-- The NAPTR status one iteration of `DoNAPTRProbe` gives the record. -/
theorem DoNAPTRProbe_body_validated {σ V : Type} [Inhabited V] (c : resolv.Client σ V)
    (validate : Bool) (naptrValidated : V) (naptr : dns.NAPTR) (w : World σ) :
    (DoNAPTRProbe.body c validate naptrValidated naptr w).1.NAPTRValidated =
      naptrValidated := by
  rcases hd : DoNAPTRProbe.delegates naptr
  · rw [DoNAPTRProbe_body_not_delegating c validate naptrValidated naptr w hd]
  · rw [DoNAPTRProbe_body_delegating c validate naptrValidated naptr w hd]

/-- C14: in a `DoNAPTRProbe` whose NAPTR lookup succeeds, the number of DNSSEC checks
for (domain, NAPTR) grows by exactly one when validate is set and by none when it is not,
however many records the answer has and whatever the nested SRV queries do; every record
of the result carries the status that one check returned when validate is set, and the
zero status when it is not. -/
theorem DoNAPTRProbe_shared_status {σ V : Type} [Inhabited V] (c : resolv.Client σ V)
    (domain : String) (validate : Bool) (w : World σ) (resp : dns.Msg)
    (h : (c.Lookup domain dns.TypeNAPTR w.st).1 = Except.ok resp) :
    (checksOf (DoNAPTRProbe c domain validate w).2.log).count (domain, dns.TypeNAPTR) =
      (checksOf w.log).count (domain, dns.TypeNAPTR) + (if validate then 1 else 0) ∧
    (DoNAPTRProbe c domain validate w).1.map
        (fun r => r.NAPTRs.elems.map (fun x => x.NAPTRValidated)) =
      some ((resolv.CollectRRs dns.RR.asNAPTR resp.Answer).map (fun _ =>
        if validate then
          (c.CheckDNSSECValidation domain dns.TypeNAPTR
            (c.Lookup domain dns.TypeNAPTR w.st).2).1
        else default)) := by
  rw [DoNAPTRProbe_ok c domain validate w resp h]
  refine ⟨?_, ?_⟩
  · simp only []
    rw [DoNAPTRProbe_loop_checks_count]
    cases validate <;> simp [doCheck_log, doLookup_log, checksOf, Call.asCheck]
  · simp only [Option.map_some', Option.some.injEq]
    rw [DoNAPTRProbe_loop_map c validate _ (fun x => x.NAPTRValidated) (fun _ => _)
      (fun n w1 => DoNAPTRProbe_body_validated c validate _ n w1)]
    cases validate <;> simp [NewNAPTRProbeResult, Slice.elems, doCheck, doLookup]

/-- C14 at `sampleClient` with validate set: one check for (`example.com`, NAPTR), and
the single record carries its result. -/
theorem DoNAPTRProbe_shared_status_witness :
    ((sampleClient.Lookup "example.com" dns.TypeNAPTR World.init.st).1 =
        Except.ok naptrResponse ∧
      (checksOf (DoNAPTRProbe sampleClient "example.com" true World.init).2.log).count
        ("example.com", dns.TypeNAPTR) = 1) ∧
    ((checksOf (DoNAPTRProbe sampleClient "example.com" true World.init).2.log).count
        ("example.com", dns.TypeNAPTR) =
      (checksOf World.init.log).count ("example.com", dns.TypeNAPTR) +
        (if true then 1 else 0) ∧
    (DoNAPTRProbe sampleClient "example.com" true World.init).1.map
        (fun r => r.NAPTRs.elems.map (fun x => x.NAPTRValidated)) =
      some ((resolv.CollectRRs dns.RR.asNAPTR naptrResponse.Answer).map (fun _ =>
        if true then
          (sampleClient.CheckDNSSECValidation "example.com" dns.TypeNAPTR
            (sampleClient.Lookup "example.com" dns.TypeNAPTR World.init.st).2).1
        else default))) :=
  ⟨⟨rfl, by decide⟩,
   DoNAPTRProbe_shared_status sampleClient "example.com" true World.init naptrResponse rfl⟩

/-! ## C15: the shared SRV validation status -/

/-- C15, at the failing input: with validate set, the SRV query of
`_sip._tcp.example.com` makes one check for (`_sip._tcp.example.com`, SRV), which returns
1; the assignment `infox.SrvValidated = srvValidated` stores it through the selector
`SrvValidated`, and the field `SRVValidated` that `ServiceInstanceInfoX` declares keeps
the zero value in the returned instance. -/
theorem SRVQuery_srv_status_not_in_SRVValidated :
    checksOf (SRVQuery sampleClient "_sip._tcp.example.com" true World.init).2.log =
      [("_sip._tcp.example.com", dns.TypeSRV), ("sip1.example.com", dns.TypeA),
        ("sip1.example.com", dns.TypeAAAA)] ∧
    (sampleClient.CheckDNSSECValidation "_sip._tcp.example.com" dns.TypeSRV ()).1 = 1 ∧
    (SRVQuery sampleClient "_sip._tcp.example.com" true World.init).1.elems.map
      (fun x => x.SRVValidated) = [0] ∧
    (SRVQuery sampleClient "_sip._tcp.example.com" true World.init).1.elems.map
      (fun x => x.SrvValidated) = [1] := by
  decide

/-- No instance `SRVQuery` returns has anything but the zero value in the declared field
`SRVValidated`. -/
theorem SRVQuery_SRVValidated_zero {σ V : Type} [Inhabited V] (c : resolv.Client σ V)
    (domainname : String) (validate : Bool) (w : World σ) :
    ∀ x ∈ (SRVQuery c domainname validate w).1.elems, x.SRVValidated = default := by
  rcases hl : (c.Lookup domainname dns.TypeSRV w.st).1 with e | resp
  · rw [SRVQuery_error c domainname validate w e hl]
    simp [Slice.elems]
  · rw [SRVQuery_ok c domainname validate w resp hl]
    apply SRVQuery_loop_forall
    · intro srv _ w1
      unfold SRVQuery.body
      by_cases ht : srv.Target = "." <;> simp [ht]
    · intro x hx
      simp [Slice.elems] at hx

/-! ## C16: the Flags are matched without regard to case -/

/-- A code point that `Char.ofNat` turns into `s` is 115. -/
theorem Char_ofNat_eq_s (k : Nat) (h : Char.ofNat k = 's') : k = 115 := by
  by_cases hv : k.isValidChar
  · have h4 : (Char.ofNat k).toNat = 115 := by rw [h]; rfl
    rw [Char.ofNat, dif_pos hv] at h4
    exact h4
  · rw [Char.ofNat, dif_neg hv] at h
    exact absurd h (by decide)

/-- No lower-case range has the code point of `s` among its targets. -/
theorem unicode_lowerRanges_miss_s :
    unicode.lowerRanges.all (fun r => decide (115 < r.2.2.2) ||
      decide (r.2.2.2 + (r.2.1 - r.1) < 115)) = true := by
  decide

/-- Outside ASCII no rune has the lower case `s`. -/
theorem unicode_toLowerNat_ne_s (n : Nat) (hn : 128 ≤ n) : unicode.toLowerNat n ≠ 115 := by
  unfold unicode.toLowerNat
  cases hf : unicode.lowerRanges.find?
      (fun r => r.1 ≤ n && n ≤ r.2.1 && (n - r.1) % r.2.2.1 == 0) with
  | none => simp only []; omega
  | some r =>
    simp only []
    have hm := List.mem_of_find?_eq_some hf
    have hp := List.find?_some hf
    have hall := List.all_eq_true.1 unicode_lowerRanges_miss_s r hm
    simp only [Bool.and_eq_true, decide_eq_true_eq, Bool.or_eq_true] at hp hall
    rcases hall with hall | hall
    · omega
    · have h1 := hp.1.1
      have h2 := hp.1.2
      omega

/-- The runes whose lower case is `s`. -/
theorem unicode_ToLower_eq_s (c : Char) : unicode.ToLower c = 's' ↔ c = 's' ∨ c = 'S' := by
  constructor
  · intro h
    unfold unicode.ToLower at h
    split_ifs at h with h1 h3
    · have h6 : c.toNat = 83 := by
        have := Char_ofNat_eq_s _ h
        omega
      right
      rw [← Char.ofNat_toNat c, h6]
    · exact Or.inl h
    · exact absurd (Char_ofNat_eq_s _ h) (unicode_toLowerNat_ne_s _ (by omega))
  · rintro (rfl | rfl) <;> rfl

/-- Go `strings.Contains(s, "s")` finds the rune `s`. -/
theorem strings_Contains_s (l : List Char) :
    (l.tails.any (fun t => ['s'].isPrefixOf t)) = true ↔ 's' ∈ l := by
  induction l with
  | nil => simp [List.isPrefixOf]
  | cons a rest ih =>
    simp only [List.tails, List.any_cons, Bool.or_eq_true, ih]
    simp [List.isPrefixOf]

/-- The lower-cased Flags contain "s" exactly when the Flags contain `s` or `S`. -/
theorem strings_Contains_ToLower_s (f : String) :
    strings.Contains (strings.ToLower f) "s" = true ↔ ('s' ∈ f.data ∨ 'S' ∈ f.data) := by
  unfold strings.Contains strings.ToLower
  show (List.any (List.map unicode.ToLower f.data).tails
    (fun t => ['s'].isPrefixOf t)) = true ↔ _
  rw [strings_Contains_s, List.mem_map]
  constructor
  · rintro ⟨c, hc, hl⟩
    rcases (unicode_ToLower_eq_s c).1 hl with rfl | rfl
    · exact Or.inl hc
    · exact Or.inr hc
  · rintro (h | h)
    · exact ⟨'s', h, rfl⟩
    · exact ⟨'S', h, rfl⟩

/-- The lower-cased Flags contain "s" exactly when the Flags contain `s` or `S`, as a
Boolean. -/
theorem strings_Contains_ToLower_s_eq (f : String) :
    strings.Contains (strings.ToLower f) "s" =
      (decide ('s' ∈ f.data) || decide ('S' ∈ f.data)) := by
  rw [Bool.eq_iff_iff, strings_Contains_ToLower_s]
  simp

/-- Flags that differ only in letter case have the same lower case. -/
theorem strings_ToLower_eq_of_differOnlyInCase (f g : String)
    (h : strings.differOnlyInCase f g = true) : strings.ToLower f = strings.ToLower g := by
  unfold strings.differOnlyInCase at h
  unfold strings.ToLower
  rw [of_decide_eq_true h]

/-- One iteration of `SRVQuery` reads the client through `GetIPs` and
`CheckDNSSECValidation` only. -/
theorem SRVQuery_body_congr {σ V : Type} [Inhabited V] (c1 c2 : resolv.Client σ V)
    (hG : c1.GetIPs = c2.GetIPs) (hC : c1.CheckDNSSECValidation = c2.CheckDNSSECValidation)
    (domainname : String) (resp : dns.Msg) (srvValidated : V) (srv : dns.SRV) (w : World σ) :
    SRVQuery.body c1 domainname resp srvValidated srv w =
      SRVQuery.body c2 domainname resp srvValidated srv w := by
  unfold SRVQuery.body getServiceIPs doGetIPs doCheck
  rw [hG, hC]

/-- The loop of `SRVQuery` reads the client through `GetIPs` and `CheckDNSSECValidation`
only. -/
theorem SRVQuery_loop_congr {σ V : Type} [Inhabited V] (c1 c2 : resolv.Client σ V)
    (hG : c1.GetIPs = c2.GetIPs) (hC : c1.CheckDNSSECValidation = c2.CheckDNSSECValidation)
    (domainname : String) (resp : dns.Msg) (srvValidated : V) (srvs : List dns.SRV) :
    ∀ (results : Slice (ServiceInstanceInfoX V)) (w : World σ),
      SRVQuery.loop c1 domainname resp srvValidated srvs results w =
        SRVQuery.loop c2 domainname resp srvValidated srvs results w := by
  induction srvs with
  | nil => intro results w; rfl
  | cons srv rest ih =>
    intro results w
    simp only [SRVQuery.loop]
    rw [SRVQuery_body_congr c1 c2 hG hC, ih]

/-- Two clients that agree on SRV lookups, address lookups and DNSSEC checks give the same
`SRVQuery`. -/
theorem SRVQuery_congr {σ V : Type} [Inhabited V] (c1 c2 : resolv.Client σ V)
    (hL : ∀ n s, c1.Lookup n dns.TypeSRV s = c2.Lookup n dns.TypeSRV s)
    (hG : c1.GetIPs = c2.GetIPs) (hC : c1.CheckDNSSECValidation = c2.CheckDNSSECValidation)
    (domainname : String) (validate : Bool) (w : World σ) :
    SRVQuery c1 domainname validate w = SRVQuery c2 domainname validate w := by
  have hdl : doLookup c1 domainname dns.TypeSRV w = doLookup c2 domainname dns.TypeSRV w := by
    unfold doLookup
    rw [hL]
  have hdc : ∀ w1 : World σ, doCheck c1 domainname dns.TypeSRV w1 =
      doCheck c2 domainname dns.TypeSRV w1 := by
    intro w1
    unfold doCheck
    rw [hC]
  rcases hl : (c2.Lookup domainname dns.TypeSRV w.st).1 with e | resp
  · rw [SRVQuery_error c1 domainname validate w e (by rw [hL]; exact hl),
      SRVQuery_error c2 domainname validate w e hl, hdl]
  · rw [SRVQuery_ok c1 domainname validate w resp (by rw [hL]; exact hl),
      SRVQuery_ok c2 domainname validate w resp hl, hdl, hdc,
      SRVQuery_loop_congr c1 c2 hG hC]

/-- Flags that differ only in letter case agree on containing `s` or `S`. -/
theorem strings_hasS_of_differOnlyInCase (f g : String)
    (h : strings.differOnlyInCase f g = true) :
    (decide ('s' ∈ f.data) || decide ('S' ∈ f.data)) =
      (decide ('s' ∈ g.data) || decide ('S' ∈ g.data)) := by
  rw [← strings_Contains_ToLower_s_eq, ← strings_Contains_ToLower_s_eq,
    strings_ToLower_eq_of_differOnlyInCase f g h]

/-- Two chains of SRV queries, over answer lists that differ, answer by answer, only in
the letter case of the Flags, with clients that agree on SRV lookups, address lookups
and DNSSEC checks: the same Services in order, the same world. -/
theorem DoNAPTRProbe_chain_congr {σ V : Type} [Inhabited V] (c1 c2 : resolv.Client σ V)
    (hL : ∀ n s, c1.Lookup n dns.TypeSRV s = c2.Lookup n dns.TypeSRV s)
    (hG : c1.GetIPs = c2.GetIPs) (hC : c1.CheckDNSSECValidation = c2.CheckDNSSECValidation)
    (validate : Bool) (l1 l2 : List dns.NAPTR)
    (hans : List.Forall₂ (fun n1 n2 : dns.NAPTR =>
      strings.differOnlyInCase n1.Flags n2.Flags = true ∧ n1.Replacement = n2.Replacement)
      l1 l2) :
    ∀ w : World σ,
      (DoNAPTRProbe.steps c1 validate l1 w).map (fun p =>
          if ((decide ('s' ∈ p.1.Flags.data) || decide ('S' ∈ p.1.Flags.data)) &&
              p.1.Replacement != "." && strings.TrimSpace p.1.Replacement != "" &&
              !(SRVQuery c1 p.1.Replacement validate p.2).1.isNil) = true
            then (SRVQuery c1 p.1.Replacement validate p.2).1 else Slice.nil) =
        (DoNAPTRProbe.steps c2 validate l2 w).map (fun p =>
          if ((decide ('s' ∈ p.1.Flags.data) || decide ('S' ∈ p.1.Flags.data)) &&
              p.1.Replacement != "." && strings.TrimSpace p.1.Replacement != "" &&
              !(SRVQuery c2 p.1.Replacement validate p.2).1.isNil) = true
            then (SRVQuery c2 p.1.Replacement validate p.2).1 else Slice.nil) ∧
      l1.foldl (fun w1 n =>
          if ((decide ('s' ∈ n.Flags.data) || decide ('S' ∈ n.Flags.data)) &&
              n.Replacement != "." && strings.TrimSpace n.Replacement != "") = true
            then (SRVQuery c1 n.Replacement validate w1).2 else w1) w =
        l2.foldl (fun w1 n =>
          if ((decide ('s' ∈ n.Flags.data) || decide ('S' ∈ n.Flags.data)) &&
              n.Replacement != "." && strings.TrimSpace n.Replacement != "") = true
            then (SRVQuery c2 n.Replacement validate w1).2 else w1) w := by
  induction hans with
  | nil => intro w; exact ⟨rfl, rfl⟩
  | @cons a b t1 t2 hab _ ih =>
    intro w
    have hs := strings_hasS_of_differOnlyInCase _ _ hab.1
    have hq := SRVQuery_congr c1 c2 hL hG hC a.Replacement validate w
    have hA2 : DoNAPTRProbe.after c2 validate b w =
        (if ((decide ('s' ∈ b.Flags.data) || decide ('S' ∈ b.Flags.data)) &&
            b.Replacement != "." && strings.TrimSpace b.Replacement != "") = true
          then (SRVQuery c2 b.Replacement validate w).2 else w) := by
      unfold DoNAPTRProbe.after
      rw [strings_Contains_ToLower_s_eq]
    have hF1 : (if ((decide ('s' ∈ a.Flags.data) || decide ('S' ∈ a.Flags.data)) &&
            a.Replacement != "." && strings.TrimSpace a.Replacement != "") = true
          then (SRVQuery c1 a.Replacement validate w).2 else w) =
        DoNAPTRProbe.after c2 validate b w := by
      rw [hA2, hs, hq, hab.2]
    have hA1 : DoNAPTRProbe.after c1 validate a w = DoNAPTRProbe.after c2 validate b w := by
      rw [← hF1]
      unfold DoNAPTRProbe.after
      rw [strings_Contains_ToLower_s_eq]
    have hhead :
        (if ((decide ('s' ∈ a.Flags.data) || decide ('S' ∈ a.Flags.data)) &&
            a.Replacement != "." && strings.TrimSpace a.Replacement != "" &&
            !(SRVQuery c1 a.Replacement validate w).1.isNil) = true
          then (SRVQuery c1 a.Replacement validate w).1 else Slice.nil) =
        (if ((decide ('s' ∈ b.Flags.data) || decide ('S' ∈ b.Flags.data)) &&
            b.Replacement != "." && strings.TrimSpace b.Replacement != "" &&
            !(SRVQuery c2 b.Replacement validate w).1.isNil) = true
          then (SRVQuery c2 b.Replacement validate w).1 else Slice.nil) := by
      rw [hs, hq, hab.2]
    simp only [DoNAPTRProbe.steps, List.map_cons, List.foldl_cons]
    rw [hA1, hF1, ← hA2, hhead]
    exact ⟨by rw [(ih _).1], (ih _).2⟩

/-- C16: two runs of `DoNAPTRProbe` whose NAPTR answers differ, answer by answer, only in
the letter case of the Flags (the collaborators answering alike otherwise) return records
with the same Services, in order, and leave the same world, call log included: the
delegation decision does not depend on letter case.  In a successful run the SRV lookups
made are those of the Replacements of exactly the answers whose Flags contain the rune
`s` or `S` somewhere and whose Replacement is neither "." nor blank after trimming, and
exactly those answers can have Services. -/
theorem DoNAPTRProbe_flag_case_insensitive {σ V : Type} [Inhabited V]
    (c1 c2 : resolv.Client σ V) (domain : String) (validate : Bool) (w : World σ)
    (resp1 resp2 : dns.Msg) (s0 : σ)
    (h1 : c1.Lookup domain dns.TypeNAPTR w.st = (Except.ok resp1, s0))
    (h2 : c2.Lookup domain dns.TypeNAPTR w.st = (Except.ok resp2, s0))
    (hL : ∀ n s, c1.Lookup n dns.TypeSRV s = c2.Lookup n dns.TypeSRV s)
    (hG : c1.GetIPs = c2.GetIPs) (hC : c1.CheckDNSSECValidation = c2.CheckDNSSECValidation)
    (hans : List.Forall₂ (fun n1 n2 : dns.NAPTR =>
      strings.differOnlyInCase n1.Flags n2.Flags = true ∧ n1.Replacement = n2.Replacement)
      (resolv.CollectRRs dns.RR.asNAPTR resp1.Answer)
      (resolv.CollectRRs dns.RR.asNAPTR resp2.Answer)) :
    (DoNAPTRProbe c1 domain validate w).1.map
        (fun r => r.NAPTRs.elems.map (fun x => x.Services)) =
      (DoNAPTRProbe c2 domain validate w).1.map
        (fun r => r.NAPTRs.elems.map (fun x => x.Services)) ∧
    (DoNAPTRProbe c1 domain validate w).2 = (DoNAPTRProbe c2 domain validate w).2 ∧
    lookupsOf (DoNAPTRProbe c1 domain validate w).2.log =
      lookupsOf w.log ++ (domain, dns.TypeNAPTR) ::
        ((resolv.CollectRRs dns.RR.asNAPTR resp1.Answer).filter
          (fun n => (decide ('s' ∈ n.Flags.data) || decide ('S' ∈ n.Flags.data)) &&
            n.Replacement != "." && strings.TrimSpace n.Replacement != "")).map
          (fun n => (n.Replacement, dns.TypeSRV)) ∧
    (DoNAPTRProbe c1 domain validate w).1.map
        (fun r => r.NAPTRs.elems.map (fun x => x.Services)) =
      some ((DoNAPTRProbe.steps c1 validate (resolv.CollectRRs dns.RR.asNAPTR resp1.Answer)
        (DoNAPTRProbe.start c1 domain validate w)).map (fun p =>
          if ((decide ('s' ∈ p.1.Flags.data) || decide ('S' ∈ p.1.Flags.data)) &&
              p.1.Replacement != "." && strings.TrimSpace p.1.Replacement != "" &&
              !(SRVQuery c1 p.1.Replacement validate p.2).1.isNil) = true
            then (SRVQuery c1 p.1.Replacement validate p.2).1 else Slice.nil)) := by
  -- one iteration, read off the body of the loop, for either client
  have hbody : ∀ (c : resolv.Client σ V) (nv : V) (n : dns.NAPTR) (w1 : World σ),
      (DoNAPTRProbe.body c validate nv n w1).1.Services =
        (if ((decide ('s' ∈ n.Flags.data) || decide ('S' ∈ n.Flags.data)) &&
            n.Replacement != "." && strings.TrimSpace n.Replacement != "" &&
            !(SRVQuery c n.Replacement validate w1).1.isNil) = true
          then (SRVQuery c n.Replacement validate w1).1 else Slice.nil) ∧
      (DoNAPTRProbe.body c validate nv n w1).2 =
        (if ((decide ('s' ∈ n.Flags.data) || decide ('S' ∈ n.Flags.data)) &&
            n.Replacement != "." && strings.TrimSpace n.Replacement != "") = true
          then (SRVQuery c n.Replacement validate w1).2 else w1) := by
    intro c nv n w1
    unfold DoNAPTRProbe.body DoNAPTRProbe.delegates
    simp only [strings_Contains_ToLower_s_eq]
    rcases hc : ((decide ('s' ∈ n.Flags.data) || decide ('S' ∈ n.Flags.data)) &&
      n.Replacement != "." && strings.TrimSpace n.Replacement != "")
    · simp [hc]
    · rcases hn : (SRVQuery c n.Replacement validate w1).1.isNil <;> simp [hc, hn]
  -- the loop over the answers
  have hloop : ∀ (c : resolv.Client σ V) (nv : V) (naptrs : List dns.NAPTR)
      (r : NAPTRProbeResult V) (w1 : World σ),
      (DoNAPTRProbe.loop c validate nv naptrs r w1).1.NAPTRs.elems.map (fun x => x.Services) =
        r.NAPTRs.elems.map (fun x => x.Services) ++
          (DoNAPTRProbe.steps c validate naptrs w1).map (fun p =>
            if ((decide ('s' ∈ p.1.Flags.data) || decide ('S' ∈ p.1.Flags.data)) &&
                p.1.Replacement != "." && strings.TrimSpace p.1.Replacement != "" &&
                !(SRVQuery c p.1.Replacement validate p.2).1.isNil) = true
              then (SRVQuery c p.1.Replacement validate p.2).1 else Slice.nil) ∧
      (DoNAPTRProbe.loop c validate nv naptrs r w1).2 =
        naptrs.foldl
          (fun w2 n =>
            if ((decide ('s' ∈ n.Flags.data) || decide ('S' ∈ n.Flags.data)) &&
                n.Replacement != "." && strings.TrimSpace n.Replacement != "") = true
              then (SRVQuery c n.Replacement validate w2).2 else w2) w1 := by
    intro c nv naptrs
    induction naptrs with
    | nil => intro r w1; simp [DoNAPTRProbe.loop, DoNAPTRProbe.steps]
    | cons n rest ih =>
      intro r w1
      obtain ⟨hb1, hb2⟩ := hbody c nv n w1
      simp only [DoNAPTRProbe.loop, DoNAPTRProbe.steps, DoNAPTRProbe.after, List.foldl_cons,
        strings_Contains_ToLower_s_eq]
      rw [(ih _ _).1, (ih _ _).2, hb2]
      simp only [Slice.append, Slice.elems, List.map_append, List.map_cons, List.map_nil,
        List.append_assoc, List.singleton_append, hb1]
      exact ⟨trivial, trivial⟩
  -- the probe itself, for either client
  have hq : ∀ (c : resolv.Client σ V) (resp : dns.Msg),
      (c.Lookup domain dns.TypeNAPTR w.st).1 = Except.ok resp →
      (DoNAPTRProbe c domain validate w).1.map
          (fun r => r.NAPTRs.elems.map (fun x => x.Services)) =
        some ((DoNAPTRProbe.steps c validate (resolv.CollectRRs dns.RR.asNAPTR resp.Answer)
          (DoNAPTRProbe.start c domain validate w)).map (fun p =>
            if ((decide ('s' ∈ p.1.Flags.data) || decide ('S' ∈ p.1.Flags.data)) &&
                p.1.Replacement != "." && strings.TrimSpace p.1.Replacement != "" &&
                !(SRVQuery c p.1.Replacement validate p.2).1.isNil) = true
              then (SRVQuery c p.1.Replacement validate p.2).1 else Slice.nil)) ∧
      (DoNAPTRProbe c domain validate w).2 =
        (resolv.CollectRRs dns.RR.asNAPTR resp.Answer).foldl
          (fun w2 n =>
            if ((decide ('s' ∈ n.Flags.data) || decide ('S' ∈ n.Flags.data)) &&
                n.Replacement != "." && strings.TrimSpace n.Replacement != "") = true
              then (SRVQuery c n.Replacement validate w2).2 else w2)
          (DoNAPTRProbe.start c domain validate w) := by
    intro c resp h
    have hd : doLookup c domain dns.TypeNAPTR w =
        (Except.ok resp, (doLookup c domain dns.TypeNAPTR w).2) := by
      simp [doLookup, h]
    have he : DoNAPTRProbe c domain validate w =
        (some (DoNAPTRProbe.loop c validate
          (if validate then doCheck c domain dns.TypeNAPTR (doLookup c domain dns.TypeNAPTR w).2
            else ((default : V), (doLookup c domain dns.TypeNAPTR w).2)).1
          (resolv.CollectRRs dns.RR.asNAPTR resp.Answer) (NewNAPTRProbeResult V)
          (DoNAPTRProbe.start c domain validate w)).1,
         (DoNAPTRProbe.loop c validate
          (if validate then doCheck c domain dns.TypeNAPTR (doLookup c domain dns.TypeNAPTR w).2
            else ((default : V), (doLookup c domain dns.TypeNAPTR w).2)).1
          (resolv.CollectRRs dns.RR.asNAPTR resp.Answer) (NewNAPTRProbeResult V)
          (DoNAPTRProbe.start c domain validate w)).2) := by
      unfold DoNAPTRProbe DoNAPTRProbe.start
      rw [hd]
      cases validate <;> rfl
    rw [he]
    simp only [Option.map_some', Option.some.injEq]
    rw [(hloop _ _ _ _ _).1, (hloop _ _ _ _ _).2]
    simp [NewNAPTRProbeResult, Slice.elems]
  have hl1 : (c1.Lookup domain dns.TypeNAPTR w.st).1 = Except.ok resp1 := by rw [h1]
  have hl2 : (c2.Lookup domain dns.TypeNAPTR w.st).1 = Except.ok resp2 := by rw [h2]
  have hst : DoNAPTRProbe.start c1 domain validate w =
      DoNAPTRProbe.start c2 domain validate w := by
    unfold DoNAPTRProbe.start doCheck doLookup
    rw [h1, h2, hC]
  have hcg := DoNAPTRProbe_chain_congr c1 c2 hL hG hC validate _ _ hans
    (DoNAPTRProbe.start c2 domain validate w)
  refine ⟨?_, ?_, ?_, (hq c1 resp1 hl1).1⟩
  · rw [(hq c1 resp1 hl1).1, (hq c2 resp2 hl2).1, hst, hcg.1]
  · rw [(hq c1 resp1 hl1).2, (hq c2 resp2 hl2).2, hst, hcg.2]
  · rw [(hq c1 resp1 hl1).2, SRVQuery_chain_lookups c1 validate
      (fun n => (decide ('s' ∈ n.Flags.data) || decide ('S' ∈ n.Flags.data)) &&
        n.Replacement != "." && strings.TrimSpace n.Replacement != ""),
      DoNAPTRProbe_start_lookups]
    simp

/-- C16 at the Flags "S" and "s": the two runs return the same Services and make the same
calls; the Flags "su" delegate as well, and the Flags "u" do not. -/
theorem DoNAPTRProbe_flag_case_insensitive_witness :
    ((flagsClient "S").Lookup "example.com" dns.TypeNAPTR World.init.st =
        (Except.ok (flagsResponse "S"), ()) ∧
      (flagsClient "s").Lookup "example.com" dns.TypeNAPTR World.init.st =
        (Except.ok (flagsResponse "s"), ()) ∧
      strings.differOnlyInCase "S" "s" = true ∧
      (DoNAPTRProbe (flagsClient "S") "example.com" true World.init).1.map
        (fun r => r.NAPTRs.elems.map (fun x => x.Services)) = some [Slice.of [sipInstance]] ∧
      (DoNAPTRProbe (flagsClient "s") "example.com" true World.init).1.map
        (fun r => r.NAPTRs.elems.map (fun x => x.Services)) = some [Slice.of [sipInstance]] ∧
      (DoNAPTRProbe (flagsClient "su") "example.com" true World.init).1.map
        (fun r => r.NAPTRs.elems.map (fun x => x.Services)) = some [Slice.of [sipInstance]] ∧
      lookupsOf (DoNAPTRProbe (flagsClient "su") "example.com" true World.init).2.log =
        [("example.com", dns.TypeNAPTR), ("_sip._tcp.example.com", dns.TypeSRV)] ∧
      (DoNAPTRProbe (flagsClient "u") "example.com" true World.init).1.map
        (fun r => r.NAPTRs.elems.map (fun x => x.Services)) = some [Slice.nil] ∧
      lookupsOf (DoNAPTRProbe (flagsClient "u") "example.com" true World.init).2.log =
        [("example.com", dns.TypeNAPTR)]) ∧
    ((DoNAPTRProbe (flagsClient "S") "example.com" true World.init).1.map
        (fun r => r.NAPTRs.elems.map (fun x => x.Services)) =
      (DoNAPTRProbe (flagsClient "s") "example.com" true World.init).1.map
        (fun r => r.NAPTRs.elems.map (fun x => x.Services)) ∧
    (DoNAPTRProbe (flagsClient "S") "example.com" true World.init).2 =
      (DoNAPTRProbe (flagsClient "s") "example.com" true World.init).2 ∧
    lookupsOf (DoNAPTRProbe (flagsClient "S") "example.com" true World.init).2.log =
      lookupsOf World.init.log ++ ("example.com", dns.TypeNAPTR) ::
        ((resolv.CollectRRs dns.RR.asNAPTR (flagsResponse "S").Answer).filter
          (fun n => (decide ('s' ∈ n.Flags.data) || decide ('S' ∈ n.Flags.data)) &&
            n.Replacement != "." && strings.TrimSpace n.Replacement != "")).map
          (fun n => (n.Replacement, dns.TypeSRV)) ∧
    (DoNAPTRProbe (flagsClient "S") "example.com" true World.init).1.map
        (fun r => r.NAPTRs.elems.map (fun x => x.Services)) =
      some ((DoNAPTRProbe.steps (flagsClient "S") true
        (resolv.CollectRRs dns.RR.asNAPTR (flagsResponse "S").Answer)
        (DoNAPTRProbe.start (flagsClient "S") "example.com" true World.init)).map (fun p =>
          if ((decide ('s' ∈ p.1.Flags.data) || decide ('S' ∈ p.1.Flags.data)) &&
              p.1.Replacement != "." && strings.TrimSpace p.1.Replacement != "" &&
              !(SRVQuery (flagsClient "S") p.1.Replacement true p.2).1.isNil) = true
            then (SRVQuery (flagsClient "S") p.1.Replacement true p.2).1 else Slice.nil))) :=
  ⟨⟨rfl, rfl, by decide, by decide, by decide, by decide, by decide, by decide, by decide⟩,
   DoNAPTRProbe_flag_case_insensitive (flagsClient "S") (flagsClient "s") "example.com" true
    World.init (flagsResponse "S") (flagsResponse "s") () rfl rfl
    (by intro n s; simp [flagsClient, dns.TypeSRV, dns.TypeNAPTR]) rfl rfl
    (List.Forall₂.cons ⟨by decide, rfl⟩ List.Forall₂.nil)⟩

/-! ## C17: the method `CheckDNSSECValidation` and the target "." -/

/-- The checks of the method `CheckDNSSECValidation`: the SRV check of Name, then the A
and the AAAA check of Target, whatever the Target. -/
theorem CheckDNSSECValidation_checks {σ V : Type} (info : ServiceInstanceInfoX V)
    (c : resolv.Client σ V) (w : World σ) :
    checksOf (info.CheckDNSSECValidation c w).2.log =
      checksOf w.log ++ [(info.Name, dns.TypeSRV), (info.Target, dns.TypeA),
        (info.Target, dns.TypeAAAA)] := by
  simp [ServiceInstanceInfoX.CheckDNSSECValidation, doCheck_log, checksOf, Call.asCheck]

/-- C17, at the failing input: for an instance with Target ".", the method
`CheckDNSSECValidation` makes the A-type and the AAAA-type check for ".", and stores
their results. -/
theorem CheckDNSSECValidation_checks_root_target :
    rootInstance.Target = "." ∧
    checksOf (rootInstance.CheckDNSSECValidation sampleClient World.init).2.log =
      [("_sip._tcp.example.com", dns.TypeSRV), (".", dns.TypeA), (".", dns.TypeAAAA)] ∧
    (checksOf (rootInstance.CheckDNSSECValidation sampleClient World.init).2.log).count
      (".", dns.TypeA) = 1 ∧
    (checksOf (rootInstance.CheckDNSSECValidation sampleClient World.init).2.log).count
      (".", dns.TypeAAAA) = 1 ∧
    (rootInstance.CheckDNSSECValidation sampleClient World.init).1.AValidated = 1 ∧
    (rootInstance.CheckDNSSECValidation sampleClient World.init).1.AAAAValidated = 1 := by
  decide

/-! ## C18: the values of the `DoSRVProbe` result -/

/-- The entries of the map after the loop of `DoSRVProbe`: those it started with, and the
non-nil results of the queries, each under its service name. -/
theorem DoSRVProbe_loop_entries {σ V : Type} [Inhabited V] (c : resolv.Client σ V)
    (domain : String) (validate : Bool) (names : List String) :
    ∀ (r : SRVProbeResult V) (f : Bool) (w : World σ)
      (p : String × Slice (ServiceInstanceInfoX V)),
      p ∈ (DoSRVProbe.loop c domain validate names r f w).1.1.Services →
        (p ∈ r.Services ∨ ∃ q ∈ DoSRVProbe.queries c domain validate names w,
          p = (q.1, (SRVQuery c (q.1 ++ "." ++ domain) validate q.2).1) ∧
            (SRVQuery c (q.1 ++ "." ++ domain) validate q.2).1.isNil = false) := by
  induction names with
  | nil => intro r f w p h; exact Or.inl (by simpa [DoSRVProbe.loop] using h)
  | cons service rest ih =>
    intro r f w p h
    rcases hn : (SRVQuery c (service ++ "." ++ domain) validate w).1.isNil
    · rw [DoSRVProbe_loop_cons_found _ _ _ _ _ _ _ _ hn] at h
      rcases ih _ _ _ _ h with h1 | ⟨q, hq, hq2⟩
      · simp only [GoMap.set, List.mem_cons, List.mem_filter] at h1
        rcases h1 with h1 | h1
        · exact Or.inr ⟨(service, w), List.mem_cons_self _ _, h1, hn⟩
        · exact Or.inl h1.1
      · exact Or.inr ⟨q, List.mem_cons_of_mem _ hq, hq2⟩
    · rw [DoSRVProbe_loop_cons_nil _ _ _ _ _ _ _ _ hn] at h
      rcases ih _ _ _ _ h with h1 | ⟨q, hq, hq2⟩
      · exact Or.inl h1
      · exact Or.inr ⟨q, List.mem_cons_of_mem _ hq, hq2⟩

/-- The entries of a present `DoSRVProbe` result. -/
theorem DoSRVProbe_entries {σ V : Type} [Inhabited V] (c : resolv.Client σ V)
    (domain : String) (serviceNames : List String) (validate : Bool) (w : World σ)
    (r : SRVProbeResult V) (h : (DoSRVProbe c domain serviceNames validate w).1 = some r)
    (p : String × Slice (ServiceInstanceInfoX V)) (hp : p ∈ r.Services) :
    ∃ q ∈ DoSRVProbe.queries c domain validate serviceNames w,
      p = (q.1, (SRVQuery c (q.1 ++ "." ++ domain) validate q.2).1) ∧
        (SRVQuery c (q.1 ++ "." ++ domain) validate q.2).1.isNil = false := by
  obtain ⟨_, hr⟩ := DoSRVProbe_eq_some c domain serviceNames validate w r h
  rw [hr] at hp
  rcases DoSRVProbe_loop_entries c domain validate serviceNames _ _ _ p hp with h0 | h1
  · simp [NewSRVProbeResult] at h0
  · exact h1

/-- What `get` finds is an entry of the map. -/
theorem GoMap_mem_of_get {β : Type} (m : GoMap β) (s : String) (v : β)
    (h : m.get s = some v) : (s, v) ∈ m := by
  unfold GoMap.get at h
  induction m with
  | nil => simp at h
  | cons p rest ih =>
    rcases p with ⟨a, b⟩
    by_cases hs : s = a
    · simp [List.lookup_cons, hs] at h
      simp [hs, h]
    · have hsa : (s == a) = false := by simp [hs]
      simp only [List.lookup_cons, hsa] at h
      exact List.mem_cons_of_mem _ (ih h)

/-- C18: every entry of a present `DoSRVProbe` result, and so every value found under a
key, is a non-nil slice with at least one instance: it is a slice `SRVQuery` returned for
the key followed by "." and the domain, stored because it was not nil. -/
theorem DoSRVProbe_values_nonempty {σ V : Type} [Inhabited V] (c : resolv.Client σ V)
    (domain : String) (serviceNames : List String) (validate : Bool) (w : World σ)
    (r : SRVProbeResult V) (h : (DoSRVProbe c domain serviceNames validate w).1 = some r) :
    (∀ p ∈ r.Services, p.2.isNil = false ∧ 0 < p.2.len ∧ p.2.elems ≠ []) ∧
    (∀ s v, r.Services.get s = some v → v.isNil = false ∧ 0 < v.len ∧ v.elems ≠ []) := by
  have hall : ∀ p ∈ r.Services, p.2.isNil = false ∧ 0 < p.2.len ∧ p.2.elems ≠ [] := by
    intro p hp
    obtain ⟨q, _, hpq, hn⟩ := DoSRVProbe_entries c domain serviceNames validate w r h p hp
    have hlen := (SRVQuery_isNil_false_iff c (q.1 ++ "." ++ domain) validate q.2).1 hn
    rw [hpq]
    refine ⟨hn, hlen, ?_⟩
    intro he
    simp only [Slice.len] at hlen
    rw [he] at hlen
    exact absurd hlen (by simp)
  exact ⟨hall, fun s v hv => hall (s, v) (GoMap_mem_of_get _ s v hv)⟩

/-- C18 at `sampleClient`: the one value of the result, under `_sip._tcp`, has one
instance. -/
theorem DoSRVProbe_values_nonempty_witness :
    ((DoSRVProbe sampleClient "example.com" ["_sip._tcp", "_xmpp._tcp"] true World.init).1 =
      some sampleSRVProbeResult ∧
     sampleSRVProbeResult.Services.get "_sip._tcp" = some (Slice.of [sipInstance])) ∧
    ((∀ p ∈ sampleSRVProbeResult.Services,
        p.2.isNil = false ∧ 0 < p.2.len ∧ p.2.elems ≠ []) ∧
     (∀ s v, sampleSRVProbeResult.Services.get s = some v →
        v.isNil = false ∧ 0 < v.len ∧ v.elems ≠ [])) :=
  ⟨⟨by decide, by decide⟩,
   DoSRVProbe_values_nonempty sampleClient "example.com" ["_sip._tcp", "_xmpp._tcp"] true
    World.init sampleSRVProbeResult (by decide)⟩

/-! ## C19: the Name of the service instances -/

/-- Every instance `SRVQuery` returns has the queried owner name as Name. -/
theorem SRVQuery_names {σ V : Type} [Inhabited V] (c : resolv.Client σ V)
    (domainname : String) (validate : Bool) (w : World σ) :
    ∀ x ∈ (SRVQuery c domainname validate w).1.elems, x.Name = domainname := by
  rcases hl : (c.Lookup domainname dns.TypeSRV w.st).1 with e | resp
  · rw [SRVQuery_error c domainname validate w e hl]
    simp [Slice.elems]
  · rw [SRVQuery_ok c domainname validate w resp hl]
    apply SRVQuery_loop_forall
    · intro srv _ w1
      unfold SRVQuery.body
      by_cases ht : srv.Target = "." <;> simp [ht]
    · intro x hx
      simp [Slice.elems] at hx

/-- C19: every instance stored under a key of a `DoSRVProbe` result has as Name the key
followed by "." and the domain; every instance in the Services of a record of a
`DoNAPTRProbe` result has as Name the Replacement of that record. -/
theorem probe_instance_names {σ V : Type} [Inhabited V] (c : resolv.Client σ V)
    (domain : String) (serviceNames : List String) (validate : Bool) (w : World σ) :
    (∀ r, (DoSRVProbe c domain serviceNames validate w).1 = some r →
      (∀ p ∈ r.Services, ∀ x ∈ p.2.elems, x.Name = p.1 ++ "." ++ domain) ∧
      (∀ s v, r.Services.get s = some v → ∀ x ∈ v.elems, x.Name = s ++ "." ++ domain)) ∧
    (∀ r, (DoNAPTRProbe c domain validate w).1 = some r →
      ∀ rec ∈ r.NAPTRs.elems, ∀ x ∈ rec.Services.elems, x.Name = rec.Replacement) := by
  refine ⟨?_, ?_⟩
  · intro r h
    have hall : ∀ p ∈ r.Services, ∀ x ∈ p.2.elems, x.Name = p.1 ++ "." ++ domain := by
      intro p hp x hx
      obtain ⟨q, _, hpq, _⟩ := DoSRVProbe_entries c domain serviceNames validate w r h p hp
      rw [hpq] at hx ⊢
      exact SRVQuery_names c (q.1 ++ "." ++ domain) validate q.2 x hx
    exact ⟨hall, fun s v hv => hall (s, v) (GoMap_mem_of_get _ s v hv)⟩
  · intro r h
    rcases hl : (c.Lookup domain dns.TypeNAPTR w.st).1 with e | resp
    · rw [DoNAPTRProbe_error c domain validate w e hl] at h
      simp at h
    · rw [DoNAPTRProbe_ok c domain validate w resp hl] at h
      simp only [Option.some.injEq] at h
      rw [← h]
      apply DoNAPTRProbe_loop_forall
      · intro naptr _ w1
        rcases hd : DoNAPTRProbe.delegates naptr
        · rw [DoNAPTRProbe_body_not_delegating c validate _ naptr w1 hd]
          intro x hx
          simp [Slice.elems] at hx
        · rw [DoNAPTRProbe_body_delegating c validate _ naptr w1 hd]
          exact SRVQuery_names c naptr.Replacement validate w1
      · intro x hx
        simp [NewNAPTRProbeResult, Slice.elems] at hx

/-- C19 at `sampleClient`: the instance under `_sip._tcp`, and the instance in the
Services of the NAPTR record, are both named `_sip._tcp.example.com`. -/
theorem probe_instance_names_witness :
    ((DoSRVProbe sampleClient "example.com" ["_sip._tcp", "_xmpp._tcp"] true World.init).1 =
        some sampleSRVProbeResult ∧
      sampleSRVProbeResult.Services.get "_sip._tcp" = some (Slice.of [sipInstance]) ∧
      (DoNAPTRProbe sampleClient "example.com" true World.init).1 =
        some ⟨Slice.of [sampleNAPTRInfo]⟩ ∧
      sipInstance ∈ sampleNAPTRInfo.Services.elems) ∧
    (sipInstance.Name = "_sip._tcp" ++ "." ++ "example.com" ∧
      sipInstance.Name = sampleNAPTRInfo.Replacement) :=
  ⟨⟨by decide, by decide, by decide, by decide⟩,
   ((probe_instance_names sampleClient "example.com" ["_sip._tcp", "_xmpp._tcp"] true
      World.init).1 sampleSRVProbeResult (by decide)).2 "_sip._tcp" (Slice.of [sipInstance])
      (by decide) sipInstance (by decide),
   (probe_instance_names sampleClient "example.com" ["_sip._tcp", "_xmpp._tcp"] true
      World.init).2 ⟨Slice.of [sampleNAPTRInfo]⟩ (by decide) sampleNAPTRInfo (by decide)
      sipInstance (by decide)⟩

end Sdscan
